import Mathlib

/-!
# gpxchart: samplers, chart bounds, axis scaling, drawing and formatting

A shallow embedding of `gpxcharts/track_charts.go`, `gpxcharts/units.go` and
`gpxcharts/utils.go`.

## Numbers

Go `float64` values are embedded as `F64`: a rational number, or one of the three
special values NaN, -Inf and +Inf.  Comparisons and arithmetic follow IEEE-754 on the
special values (every comparison with NaN is false, `Inf - Inf` is NaN, ...).  Arithmetic
on finite values is exact: rounding and overflow of the 53-bit format are not part of
the embedding, and the two zeros of the format are one value.  `MaxFloat64` is the
largest finite `float64`, so every value `v` that Go can hold satisfies `F64.Valid v`.

Go `int` is embedded as `Int`; integer expressions wrap to 64 bits (`wrapInt`).

## Collaborators and loops

The packages the code calls but does not contain are parameters: package `gpx` is a
`GpxLib`, the graphic context of `draw2d` a `GraphicContext`, the encoders a `Draw2d`.
What `renderChart` does is the list of calls it makes on the graphic context, in order.
Its four loops `for v := ...; v < max; v += spacing` run on fuel (`loopValues`); that
they end is proved for the exact additions of the embedding, so a `float64` increment
too small to change `v` is outside of what is proved here.
-/

namespace Gpxcharts

/-! ## float64 -/

/-- Values of Go's `float64`. -/
inductive F64 where
  | nan : F64
  | ninf : F64
  | pinf : F64
  | fin (q : ℚ) : F64
  deriving DecidableEq

namespace F64

/-- The constant `math.MaxFloat64`, `(2^53 - 1) * 2^971`. -/
def maxFloat64 : ℚ := (2 ^ 53 - 1) * 2 ^ 971

/-- Go's `a < b` on `float64`. -/
def lt : F64 → F64 → Bool
  | nan, _ => false
  | _, nan => false
  | fin a, fin b => decide (a < b)
  | ninf, ninf => false
  | ninf, _ => true
  | _, ninf => false
  | pinf, _ => false
  | fin _, pinf => true

/-- Go's `a > b` on `float64`. -/
def gt (a b : F64) : Bool := lt b a

/-- Go's `a == b` on `float64`. -/
def eq : F64 → F64 → Bool
  | fin a, fin b => decide (a = b)
  | ninf, ninf => true
  | pinf, pinf => true
  | _, _ => false

/-- Go's `a <= b` on `float64`. -/
def le (a b : F64) : Bool := lt a b || eq a b

/-- Go's `a >= b` on `float64`. -/
def ge (a b : F64) : Bool := le b a

/-- Unary minus. -/
def neg : F64 → F64
  | nan => nan
  | ninf => pinf
  | pinf => ninf
  | fin a => fin (-a)

/-- Go's `a + b` on `float64`. -/
def add : F64 → F64 → F64
  | nan, _ => nan
  | _, nan => nan
  | pinf, ninf => nan
  | ninf, pinf => nan
  | pinf, _ => pinf
  | _, pinf => pinf
  | ninf, _ => ninf
  | _, ninf => ninf
  | fin a, fin b => fin (a + b)

/-- Go's `a - b` on `float64`. -/
def sub (a b : F64) : F64 := add a (neg b)

/-- The infinity with the sign of `s * t` (a zero counts as positive). -/
def infOfSigns (s t : Bool) : F64 := if s = t then pinf else ninf

/-- Sign bit of a value: `true` for negative values. -/
def isNeg : F64 → Bool
  | ninf => true
  | fin a => decide (a < 0)
  | _ => false

/-- Go's `a * b` on `float64`. -/
def mul : F64 → F64 → F64
  | nan, _ => nan
  | _, nan => nan
  | fin a, fin b => fin (a * b)
  | fin a, b => if a = 0 then nan else infOfSigns (decide (a < 0)) (isNeg b)
  | a, fin b => if b = 0 then nan else infOfSigns (isNeg a) (decide (b < 0))
  | a, b => infOfSigns (isNeg a) (isNeg b)

/-- Go's `a / b` on `float64`. -/
def div : F64 → F64 → F64
  | nan, _ => nan
  | _, nan => nan
  | fin a, fin b =>
    if b = 0 then (if a = 0 then nan else infOfSigns (decide (a < 0)) false)
    else fin (a / b)
  | fin _, _ => fin 0
  | a, fin b => infOfSigns (isNeg a) (decide (b < 0))
  | _, _ => nan

/-- The function `math.IsNaN`. -/
def IsNaN : F64 → Bool
  | nan => true
  | _ => false

/-- The function `math.IsInf(f, 0)`. -/
def IsInf : F64 → Bool
  | ninf => true
  | pinf => true
  | _ => false

/-- The values a `float64` can hold: the special values, and the finite values
within `±MaxFloat64`. -/
def Valid : F64 → Prop
  | fin a => -maxFloat64 ≤ a ∧ a ≤ maxFloat64
  | _ => True

end F64

/-- The function `IsNanOrOnf` of `utils.go`. -/
def IsNanOrOnf (f : F64) : Bool := F64.IsNaN f || F64.IsInf f

/-! ## int -/

/-- Go `int` is 64 bits wide: integer results wrap into `[-2^63, 2^63)`. -/
def wrapInt (n : Int) : Int := (n + 2 ^ 63) % 2 ^ 64 - 2 ^ 63

/-- The conversion `int(f)`: the fraction is discarded (truncation towards zero).  When
the value does not fit an `int` the Go specification leaves the result to the
implementation; the embedding takes the amd64 result, the smallest `int`. -/
def F64.toInt : F64 → Int
  | F64.fin a =>
    let t := Int.tdiv a.num a.den
    if -2 ^ 63 ≤ t ∧ t < 2 ^ 63 then t else -2 ^ 63
  | _ => -2 ^ 63

/-- The conversion `float64(n)`. -/
def F64.ofInt (n : Int) : F64 := F64.fin n

/-! ## Unit systems (`units.go`) -/

/-- Go: `type UnitType string`. -/
abbrev UnitType := String

def UnitTypeMetric : UnitType := "m"
def UnitTypeImperial : UnitType := "i"
def UnitTypeNautical : UnitType := "n"

def ONE_FEET : ℚ := 3048 / 10000
def ONE_YARD : ℚ := 9144 / 10000
def ONE_MILE : ℚ := 1609344 / 1000000 * 1000
def ONE_NAUTICAL_MILE : ℚ := 1852

def SPEED_MPS : ℚ := 1
def SPEED_KMH : ℚ := 1000 / 60 ^ 2
def SPEED_MPH : ℚ := 1609344 / 1000000 * 1000 / 60 ^ 2
def SPEED_KNOT : ℚ := 1852 / 60 ^ 2

/-! ## Data model (`track_charts.go`) -/

/-- Go: `type Point struct { X, Y float64 }`. -/
structure Point where
  X : F64
  Y : F64
  deriving DecidableEq

/-- The function values an `Axis.Formatter` holds: one constructor for each function
literal of the package (with the variable it captures), and `caller` for a function
built outside the package, told apart by a tag. -/
inductive Formatter where
  /-- In `prepareSteepnesAxis`: `fmt.Sprintf("%d°", int(math.Round(f)))`. -/
  | steepness : Formatter
  /-- In `prepareSpeedAxis`: `FormatSpeed(f, unitType, true)`. -/
  | speed (unitType : UnitType) : Formatter
  /-- In `prepareElevationAxis` (and the test): `FormatAltitude(f, unitType)`. -/
  | altitude (unitType : UnitType) : Formatter
  /-- In `prepareLengthAxis` (and the test): `FormatLength(f, unitType)`. -/
  | length (unitType : UnitType) : Formatter
  /-- Any other function supplied by a caller. -/
  | caller (tag : Nat) : Formatter
  deriving DecidableEq

/-- Go: `type Axis struct`; a nil `Formatter` is `none`. -/
structure Axis where
  Show : Bool
  Grid : F64
  Labels : F64
  FontSize : F64
  Formatter : Option Formatter
  deriving DecidableEq

/-- Go: `type Padding struct { Top, Right, Bottom, Left float64 }`. -/
structure Padding where
  Top : F64
  Right : F64
  Bottom : F64
  Left : F64
  deriving DecidableEq

/-- Go: `color.RGBA`. -/
structure RGBA where
  R : Fin 256
  G : Fin 256
  B : Fin 256
  A : Fin 256
  deriving DecidableEq

/-- Go: `type ChartParams struct`. -/
structure ChartParams where
  Width : Int
  Height : Int
  XAxis : Axis
  YAxis : Axis
  Points : List Point
  FillColor : RGBA
  Unit : UnitType
  Padding : Padding
  MinX : F64
  MaxX : F64
  MinY : F64
  MaxY : F64
  ChartPadding : Gpxcharts.Padding
  invalid : Bool
  deriving DecidableEq

/-- The zero value of `Axis`. -/
def Axis.zero : Axis :=
  { Show := false, Grid := F64.fin 0, Labels := F64.fin 0, FontSize := F64.fin 0,
    Formatter := none }

/-- The zero value of `Padding`. -/
def Padding.zero : Padding :=
  { Top := F64.fin 0, Right := F64.fin 0, Bottom := F64.fin 0, Left := F64.fin 0 }

/-- The zero value of `ChartParams`. -/
def ChartParams.zero : ChartParams :=
  { Width := 0, Height := 0, XAxis := Axis.zero, YAxis := Axis.zero, Points := [],
    FillColor := { R := 0, G := 0, B := 0, A := 0 }, Unit := "",
    Padding := Padding.zero, MinX := F64.fin 0, MaxX := F64.fin 0, MinY := F64.fin 0,
    MaxY := F64.fin 0, ChartPadding := Padding.zero, invalid := false }

/-- Method `ChartParams.UnitTypeOrMetric`. -/
def ChartParams.UnitTypeOrMetric (cp : ChartParams) : UnitType :=
  if cp.Unit = "" then UnitTypeMetric else cp.Unit

/-! ## Bounds (`calcBounds`) -/

/-- One iteration of the first loop of `calcBounds` on the pair `(cp.MinX, cp.MaxX)`. -/
def stepBoundsX (b : F64 × F64) (p : Point) : F64 × F64 :=
  let b := if F64.lt p.X b.1 then (p.X, b.2) else b
  if F64.gt p.X b.2 then (b.1, p.X) else b

/-- One iteration of the second loop of `calcBounds` on the pair `(cp.MinY, cp.MaxY)`. -/
def stepBoundsY (b : F64 × F64) (p : Point) : F64 × F64 :=
  let b := if F64.gt p.Y b.2 then (b.1, p.Y) else b
  if F64.lt p.Y b.1 then (p.Y, b.2) else b

/-- Method `ChartParams.calcBounds`; the receiver after the call is the result. -/
def ChartParams.calcBounds (cp : ChartParams) : ChartParams :=
  let bx :=
    if F64.eq cp.MinX (F64.fin 0) && F64.eq cp.MaxX (F64.fin 0) then
      cp.Points.foldl stepBoundsX (F64.fin F64.maxFloat64, F64.fin (-F64.maxFloat64))
    else (cp.MinX, cp.MaxX)
  let by_ :=
    if F64.eq cp.MinY (F64.fin 0) && F64.eq cp.MaxY (F64.fin 0) then
      cp.Points.foldl stepBoundsY (F64.fin F64.maxFloat64, F64.fin (-F64.maxFloat64))
    else (cp.MinY, cp.MaxY)
  { cp with
    MinX := F64.sub bx.1 cp.ChartPadding.Left
    MaxX := F64.add bx.2 cp.ChartPadding.Right
    MinY := F64.sub by_.1 cp.ChartPadding.Bottom
    MaxY := F64.add by_.2 cp.ChartPadding.Top }

/-- Method `ChartParams.toImgCoords`. -/
def ChartParams.toImgCoords (cp : ChartParams) (x y : F64) : F64 × F64 :=
  let rx := F64.add cp.Padding.Left
    (F64.div
      (F64.mul
        (F64.ofInt (wrapInt (wrapInt (cp.Width - F64.toInt cp.Padding.Left)
          - F64.toInt cp.Padding.Right)))
        (F64.sub x cp.MinX))
      (F64.sub cp.MaxX cp.MinX))
  let ry := F64.sub (F64.ofInt (wrapInt (cp.Height - F64.toInt cp.Padding.Bottom)))
    (F64.div
      (F64.mul
        (F64.ofInt (wrapInt (wrapInt (cp.Height - F64.toInt cp.Padding.Bottom)
          - F64.toInt cp.Padding.Top)))
        (F64.sub y cp.MinY))
      (F64.sub cp.MaxY cp.MinY))
  (rx, ry)

/-! ## The invalid chart and the degenerate checks of `renderChart` -/

/-- Method `ChartService.invalidGraphParams`: the fields not listed in the composite
literal take their zero value. -/
def invalidGraphParams (origParams : ChartParams) : ChartParams :=
  { ChartParams.zero with
    invalid := true
    Width := origParams.Width
    Height := origParams.Height
    XAxis := { Axis.zero with Show := true }
    YAxis := { Axis.zero with Show := true }
    FillColor := origParams.FillColor
    Padding := origParams.Padding
    MinX := F64.fin 0
    MinY := F64.fin 0
    MaxX := F64.fin 1
    MaxY := F64.fin 1 }

/-- A call `cs.Errorf(c, msg, a, b)` made by `renderChart`. -/
structure ErrorfCall where
  msg : String
  a : F64
  b : F64
  deriving DecidableEq

/-- State of `renderChart` between its statements: the local `params` and the calls
made to the logger so far. -/
structure RenderState where
  params : ChartParams
  log : List ErrorfCall

/-- One statement of the form
`if cond { cs.Errorf(c, msg, a, b); params = cs.invalidGraphParams(c, params) }`. -/
def degenerateCheck (cond : ChartParams → Bool) (msg : String) (a b : ChartParams → F64)
    (s : RenderState) : RenderState :=
  if cond s.params then
    { params := invalidGraphParams s.params,
      log := s.log ++ [{ msg := msg, a := a s.params, b := b s.params }] }
  else s

/-- The part of `renderChart` that prepares `params` for drawing: `params.calcBounds()`
followed by the four degenerate checks.  Everything drawn afterwards (grid, curve, axes,
watermark) reads the `params` of the state returned here. -/
def renderChartParams (params : ChartParams) : RenderState :=
  let s : RenderState := { params := params.calcBounds, log := [] }
  let s := degenerateCheck (fun p => F64.ge p.MinX p.MaxX) "minx=%f, maxX=%f"
    (fun p => p.MinX) (fun p => p.MaxX) s
  let s := degenerateCheck (fun p => F64.ge p.MinY p.MaxY) "minY=%f, maxY=%f"
    (fun p => p.MinY) (fun p => p.MaxY) s
  let s := degenerateCheck (fun p => IsNanOrOnf p.MinX || IsNanOrOnf p.MaxX)
    "minx=%f, maxX=%f" (fun p => p.MinX) (fun p => p.MaxX) s
  let s := degenerateCheck (fun p => IsNanOrOnf p.MinY || IsNanOrOnf p.MaxY)
    "minY=%f, maxY=%f" (fun p => p.MinY) (fun p => p.MaxY) s
  s

/-! ## Axis scalers -/

/-- The closing statements shared by the four axis scalers:
`if axis.Grid == 0 { axis.Grid = g }` and `if axis.Labels == 0 { axis.Labels = l }`. -/
def assignGridLabels (axis : Axis) (gl : F64 × F64) : Axis :=
  let axis := if F64.eq axis.Grid (F64.fin 0) then { axis with Grid := gl.1 } else axis
  if F64.eq axis.Labels (F64.fin 0) then { axis with Labels := gl.2 } else axis

/-- The pair `g, l` that the `if` chain of `prepareSteepnesAxis` assigns. -/
def steepnesBands (max : F64) : F64 × F64 :=
  if F64.le max (F64.fin 5) then (F64.fin 1, F64.fin 1)
  else if F64.le max (F64.fin 10) then (F64.fin 1, F64.fin 2)
  else if F64.le max (F64.fin 20) then (F64.fin 5, F64.fin 5)
  else (F64.fin 5, F64.fin 10)

/-- Method `ChartService.prepareSteepnesAxis`; the axis after the call is the result. -/
def prepareSteepnesAxis (axis : Axis) (max : F64) : Axis :=
  let axis := { axis with Formatter := some Formatter.steepness }
  assignGridLabels axis (steepnesBands max)

/-- The pair `g, l` that the `switch` of `prepareSpeedAxis` assigns. -/
def speedBands (maxSpeed : F64) (unitType : UnitType) : F64 × F64 :=
  if unitType = UnitTypeNautical then
    if F64.le maxSpeed (F64.fin (SPEED_KNOT * 10)) then
      (F64.fin (1 * SPEED_KNOT), F64.fin (2 * SPEED_KNOT))
    else if F64.le maxSpeed (F64.fin (SPEED_KNOT * 25)) then
      (F64.fin (25 / 10 * SPEED_KNOT), F64.fin (5 * SPEED_KNOT))
    else if F64.le maxSpeed (F64.fin (SPEED_KNOT * 50)) then
      (F64.fin (5 * SPEED_KNOT), F64.fin (10 * SPEED_KNOT))
    else if F64.le maxSpeed (F64.fin (SPEED_KNOT * 100)) then
      (F64.fin (10 * SPEED_KNOT), F64.fin (20 * SPEED_KNOT))
    else (F64.fin (25 * SPEED_KNOT), F64.fin (50 * SPEED_KNOT))
  else if unitType = UnitTypeImperial then
    if F64.le maxSpeed (F64.fin (SPEED_MPH * 10)) then
      (F64.fin (1 * SPEED_MPH), F64.fin (2 * SPEED_MPH))
    else if F64.le maxSpeed (F64.fin (SPEED_MPH * 25)) then
      (F64.fin (25 / 10 * SPEED_MPH), F64.fin (5 * SPEED_MPH))
    else if F64.le maxSpeed (F64.fin (SPEED_MPH * 50)) then
      (F64.fin (5 * SPEED_MPH), F64.fin (10 * SPEED_MPH))
    else if F64.le maxSpeed (F64.fin (SPEED_MPH * 100)) then
      (F64.fin (10 * SPEED_MPH), F64.fin (20 * SPEED_MPH))
    else (F64.fin (25 * SPEED_MPH), F64.fin (50 * SPEED_MPH))
  else
    if F64.le maxSpeed (F64.fin (10 * SPEED_KMH)) then
      (F64.fin (1 * SPEED_KMH), F64.fin (2 * SPEED_KMH))
    else if F64.le maxSpeed (F64.fin (25 * SPEED_KMH)) then
      (F64.fin (25 / 10 * SPEED_KMH), F64.fin (5 * SPEED_KMH))
    else if F64.le maxSpeed (F64.fin (50 * SPEED_KMH)) then
      (F64.fin (5 * SPEED_KMH), F64.fin (10 * SPEED_KMH))
    else if F64.le maxSpeed (F64.fin (100 * SPEED_KMH)) then
      (F64.fin (10 * SPEED_KMH), F64.fin (20 * SPEED_KMH))
    else (F64.fin (25 * SPEED_KMH), F64.fin (50 * SPEED_KMH))

/-- Method `ChartService.prepareSpeedAxis`; the axis after the call is the result. -/
def prepareSpeedAxis (axis : Axis) (_minSpeed maxSpeed : F64) (unitType : UnitType) : Axis :=
  let axis := { axis with Formatter := some (Formatter.speed unitType) }
  assignGridLabels axis (speedBands maxSpeed unitType)

/-- The pair `g, l` that the `switch` of `prepareElevationAxis` assigns. -/
def elevationBands (length : F64) (unitType : UnitType) : F64 × F64 :=
  if unitType = UnitTypeImperial ∨ unitType = UnitTypeNautical then
    if F64.le length (F64.fin (ONE_FEET * 50)) then
      (F64.fin (10 * ONE_FEET), F64.fin (10 * ONE_FEET))
    else if F64.le length (F64.fin (ONE_FEET * 100)) then
      (F64.fin (20 * ONE_FEET), F64.fin (20 * ONE_FEET))
    else if F64.le length (F64.fin (ONE_FEET * 500)) then
      (F64.fin (100 * ONE_FEET), F64.fin (50 * ONE_FEET))
    else if F64.le length (F64.fin (ONE_FEET * 1000)) then
      (F64.fin (200 * ONE_FEET), F64.fin (100 * ONE_FEET))
    else if F64.le length (F64.fin (ONE_FEET * 4000)) then
      (F64.fin (500 * ONE_FEET), F64.fin (500 * ONE_FEET))
    else if F64.le length (F64.fin (ONE_FEET * 10000)) then
      (F64.fin (1000 * ONE_FEET), F64.fin (1000 * ONE_FEET))
    else if F64.le length (F64.fin (ONE_FEET * 100000)) then
      (F64.fin (10000 * ONE_FEET), F64.fin (10000 * ONE_FEET))
    else (F64.fin (10000 * ONE_FEET), F64.fin (10000 * ONE_FEET))
  else
    if F64.le length (F64.fin 100) then (F64.fin 20, F64.fin 20)
    else if F64.le length (F64.fin 500) then (F64.fin 50, F64.fin 100)
    else if F64.le length (F64.fin 1000) then (F64.fin 100, F64.fin 200)
    else if F64.le length (F64.fin 2000) then (F64.fin 125, F64.fin 250)
    else (F64.fin 250, F64.fin 500)

/-- Method `ChartService.prepareElevationAxis`; the axis after the call is the result. -/
def prepareElevationAxis (axis : Axis) (minEle maxEle : F64) (unitType : UnitType) :
    Axis :=
  let length := F64.sub maxEle minEle
  let axis := { axis with Formatter := some (Formatter.altitude unitType) }
  assignGridLabels axis (elevationBands length unitType)

/-- The pair `g, l` that the `switch` of `prepareLengthAxis` assigns. -/
def lengthBands (length : F64) (unitType : UnitType) : F64 × F64 :=
  if unitType = UnitTypeImperial then
    if F64.le length (F64.fin ONE_MILE) then
      (F64.fin (1 / 10 * ONE_MILE), F64.fin (1 / 10 * ONE_MILE))
    else if F64.le length (F64.fin (ONE_MILE * 4)) then
      (F64.fin (5 / 10 * ONE_MILE), F64.fin (5 / 10 * ONE_MILE))
    else if F64.le length (F64.fin (ONE_MILE * 10)) then
      (F64.fin (1 * ONE_MILE), F64.fin (5 / 10 * ONE_MILE))
    else if F64.le length (F64.fin (ONE_MILE * 20)) then
      (F64.fin (2 * ONE_MILE), F64.fin (1 * ONE_MILE))
    else if F64.le length (F64.fin (ONE_MILE * 50)) then
      (F64.fin (5 * ONE_MILE), F64.fin (25 / 10 * ONE_MILE))
    else if F64.le length (F64.fin (ONE_MILE * 100)) then
      (F64.fin (10 * ONE_MILE), F64.fin (5 * ONE_MILE))
    else if F64.le length (F64.fin (ONE_MILE * 200)) then
      (F64.fin (10 * ONE_MILE), F64.fin (5 * ONE_MILE))
    else if F64.le length (F64.fin (ONE_MILE * 400)) then
      (F64.fin (25 * ONE_MILE), F64.fin (5 * ONE_MILE))
    else (F64.fin (100 * ONE_MILE), F64.fin (100 * ONE_MILE))
  else if unitType = UnitTypeNautical then
    if F64.le length (F64.fin ONE_NAUTICAL_MILE) then
      (F64.fin (1 / 10 * ONE_NAUTICAL_MILE), F64.fin (1 / 10 * ONE_NAUTICAL_MILE))
    else if F64.le length (F64.fin (ONE_NAUTICAL_MILE * 4)) then
      (F64.fin (5 / 10 * ONE_NAUTICAL_MILE), F64.fin (5 / 10 * ONE_NAUTICAL_MILE))
    else if F64.le length (F64.fin (ONE_NAUTICAL_MILE * 10)) then
      (F64.fin (1 * ONE_NAUTICAL_MILE), F64.fin (5 / 10 * ONE_NAUTICAL_MILE))
    else if F64.le length (F64.fin (ONE_NAUTICAL_MILE * 25)) then
      (F64.fin (2 * ONE_NAUTICAL_MILE), F64.fin (1 * ONE_NAUTICAL_MILE))
    else if F64.le length (F64.fin (ONE_NAUTICAL_MILE * 50)) then
      (F64.fin (5 * ONE_NAUTICAL_MILE), F64.fin (25 / 10 * ONE_NAUTICAL_MILE))
    else if F64.le length (F64.fin (ONE_NAUTICAL_MILE * 100)) then
      (F64.fin (10 * ONE_NAUTICAL_MILE), F64.fin (5 * ONE_NAUTICAL_MILE))
    else if F64.le length (F64.fin (ONE_NAUTICAL_MILE * 200)) then
      (F64.fin (10 * ONE_NAUTICAL_MILE), F64.fin (5 * ONE_NAUTICAL_MILE))
    else if F64.le length (F64.fin (ONE_NAUTICAL_MILE * 400)) then
      (F64.fin (25 * ONE_NAUTICAL_MILE), F64.fin (5 * ONE_NAUTICAL_MILE))
    else (F64.fin (100 * ONE_NAUTICAL_MILE), F64.fin (100 * ONE_NAUTICAL_MILE))
  else
    if F64.le length (F64.fin 1000) then (F64.fin 100, F64.fin 100)
    else if F64.le length (F64.fin 4000) then (F64.fin 500, F64.fin 500)
    else if F64.le length (F64.fin 10000) then (F64.fin 500, F64.fin 1000)
    else if F64.le length (F64.fin 20000) then (F64.fin 1000, F64.fin 2000)
    else if F64.le length (F64.fin 50000) then (F64.fin 1000, F64.fin 2000)
    else if F64.le length (F64.fin 100000) then (F64.fin 2500, F64.fin 5000)
    else if F64.le length (F64.fin 200000) then (F64.fin 5000, F64.fin 10000)
    else if F64.le length (F64.fin 400000) then (F64.fin 5000, F64.fin 25000)
    else (F64.fin 50000, F64.fin 100000)

/-- Method `ChartService.prepareLengthAxis`; the axis after the call is the result. -/
def prepareLengthAxis (axis : Axis) (length : F64) (unitType : UnitType) : Axis :=
  let axis := { axis with Formatter := some (Formatter.length unitType) }
  assignGridLabels axis (lengthBands length unitType)

/-! ## Tracks (package `gpx`, an external collaborator) -/

/-- Go: `gpx.NullableFloat64`, a value and a flag telling whether it is set. -/
structure NullableFloat64 where
  data : F64
  notNull : Bool
  deriving DecidableEq

/-- Method `NullableFloat64.Value`. -/
def NullableFloat64.Value (n : NullableFloat64) : F64 := n.data

/-- Method `NullableFloat64.NotNull`. -/
def NullableFloat64.NotNull (n : NullableFloat64) : Bool := n.notNull

/-- Go: `time.Time`, as the number of nanoseconds since the zero instant (January 1 of
year 1, 00:00:00 UTC). -/
structure Time where
  ns : Int
  deriving DecidableEq

/-- Method `Time.IsZero`. -/
def Time.IsZero (t : Time) : Bool := decide (t.ns = 0)

/-- Go: `time.Duration`, a number of nanoseconds held in an `int64`. -/
structure Duration where
  ns : Int
  deriving DecidableEq

/-- Method `Time.Sub`: the difference `t - u`, or the largest (smallest) duration when
the difference does not fit. -/
def Time.Sub (t u : Time) : Duration :=
  if 2 ^ 63 - 1 < t.ns - u.ns then { ns := 2 ^ 63 - 1 }
  else if t.ns - u.ns < -2 ^ 63 then { ns := -2 ^ 63 }
  else { ns := t.ns - u.ns }

/-- Method `Duration.Seconds`:
`sec := d / Second; nsec := d % Second; return float64(sec) + float64(nsec)/1e9`. -/
def Duration.Seconds (d : Duration) : F64 :=
  F64.add (F64.ofInt (Int.tdiv d.ns (10 ^ 9)))
    (F64.div (F64.ofInt (Int.tmod d.ns (10 ^ 9))) (F64.fin (10 ^ 9)))

namespace Gpx

/-- Go: `gpx.Point`. -/
structure Point where
  Latitude : F64
  Longitude : F64
  Elevation : NullableFloat64
  deriving DecidableEq

/-- Go: `gpx.GPXPoint`, with the fields the samplers read. -/
structure GPXPoint where
  Point : Point
  Timestamp : Time
  deriving DecidableEq

/-- Go: `gpx.GPXTrackSegment`. -/
structure GPXTrackSegment where
  Points : List GPXPoint
  deriving DecidableEq

/-- Go: `gpx.GPXTrack`. -/
structure GPXTrack where
  Segments : List GPXTrackSegment
  deriving DecidableEq

/-- Go: `gpx.GPX`. -/
structure GPX where
  Tracks : List GPXTrack
  deriving DecidableEq

/-- The zero value of `gpx.GPXPoint`. -/
def GPXPoint.zero : GPXPoint :=
  { Point := { Latitude := F64.fin 0, Longitude := F64.fin 0,
               Elevation := { data := F64.fin 0, notNull := false } },
    Timestamp := { ns := 0 } }

/-- Go's index expression `points[i]`.  Every index the samplers evaluate is in range
(the guards `0 < n` and `n < len(points)-1` see to it), so the panic of an index out of
range is not part of the embedding. -/
def index (points : List GPXPoint) (i : Nat) : GPXPoint := points.getD i GPXPoint.zero

end Gpx

/-- The functions of package `gpx` that the samplers call.  They are not part of this
repository and are taken as they come. -/
structure GpxLib where
  /-- Method `pt.Distance2D(&other)`. -/
  Distance2D : Gpx.GPXPoint → Gpx.GPXPoint → F64
  /-- Function `gpx.ElevationAngle(loc1, loc2, radians)`. -/
  ElevationAngle : Gpx.Point → Gpx.Point → Bool → F64
  /-- Method `g.ReduceTrackPoints(maxPointsNo, minDistanceBetween)`: the track it
  leaves in `g`. -/
  ReduceTrackPoints : Gpx.GPX → Int → F64 → Gpx.GPX
  /-- Method `g.SmoothVertical()`: the track it leaves in `g`. -/
  SmoothVertical : Gpx.GPX → Gpx.GPX

/-- The function `math.Abs`. -/
def F64.abs : F64 → F64
  | F64.nan => F64.nan
  | F64.ninf => F64.pinf
  | F64.pinf => F64.pinf
  | F64.fin a => F64.fin |a|
/-! ## Samplers (`ElevationChart`, `SpeedChart`, `SteepnessChart`) -/

/-- The local variables of `SpeedChart` that its loops assign. -/
structure SpeedState where
  points : List Point
  minSpeed : F64
  maxSpeed : F64
  d : F64

/-- The body of the innermost loop of `SpeedChart`, for the index `n` of the segment's
`points`. -/
def speedStep (lib : GpxLib) (points : List Gpx.GPXPoint) (st : SpeedState) (n : Nat) :
    SpeedState :=
  let pt := Gpx.index points n
  let st :=
    if 0 < n then { st with d := F64.add st.d (lib.Distance2D pt (Gpx.index points (n - 1))) }
    else st
  if 0 < n ∧ n + 1 < points.length then
    let prevPt := Gpx.index points (n - 1)
    let pt := Gpx.index points n
    let nextPt := Gpx.index points (n + 1)
    if !prevPt.Timestamp.IsZero && !pt.Timestamp.IsZero && !nextPt.Timestamp.IsZero then
      let duration := nextPt.Timestamp.Sub prevPt.Timestamp
      let length := F64.add (lib.Distance2D nextPt pt) (lib.Distance2D pt prevPt)
      let speed := F64.div length duration.Seconds
      let minSpeed :=
        if st.points.length = 0 ∨ F64.lt speed st.minSpeed = true then speed else st.minSpeed
      let maxSpeed :=
        if st.points.length = 0 ∨ F64.gt speed st.maxSpeed = true then speed else st.maxSpeed
      { st with
        minSpeed := minSpeed
        maxSpeed := maxSpeed
        points := st.points ++ [{ X := st.d, Y := speed }] }
    else st
  else st

/-- The loops of `SpeedChart` over the tracks, their segments and the points of a
segment. -/
def speedSample (lib : GpxLib) (g : Gpx.GPX) : SpeedState :=
  g.Tracks.foldl
    (fun st track =>
      track.Segments.foldl
        (fun st segment =>
          (List.range segment.Points.length).foldl (speedStep lib segment.Points) st)
        st)
    { points := [], minSpeed := F64.fin 0, maxSpeed := F64.fin 0, d := F64.fin 0 }

/-- The parameters that `SpeedChart` hands to `chart`. -/
def SpeedChartParams (lib : GpxLib) (params : ChartParams) (g : Gpx.GPX) : ChartParams :=
  let g := lib.ReduceTrackPoints g 1000 (F64.fin 50)
  let st := speedSample lib g
  let params := { params with Points := st.points }
  let params :=
    { params with XAxis := prepareLengthAxis params.XAxis st.d params.UnitTypeOrMetric }
  { params with
    YAxis := prepareSpeedAxis params.YAxis st.minSpeed st.maxSpeed params.UnitTypeOrMetric }

/-- The local variables of `SteepnessChart` that its loops assign. -/
structure SteepnessState where
  points : List Point
  d : F64

/-- The body of the innermost loop of `SteepnessChart`, for the index `n` of the
segment's `points`. -/
def steepnessStep (lib : GpxLib) (points : List Gpx.GPXPoint) (st : SteepnessState)
    (n : Nat) : SteepnessState :=
  let pt := Gpx.index points n
  let st :=
    if n > 0 then { st with d := F64.add st.d (lib.Distance2D pt (Gpx.index points (n - 1))) }
    else st
  let angle :=
    if 0 < n ∧ n + 1 < points.length then
      let prevPt := Gpx.index points (n - 1)
      let nextPt := Gpx.index points (n + 1)
      if prevPt.Point.Elevation.NotNull && nextPt.Point.Elevation.NotNull then
        lib.ElevationAngle prevPt.Point nextPt.Point false
      else F64.fin 0
    else F64.fin 0
  { st with points := st.points ++ [{ X := st.d, Y := angle }] }

/-- The loops of `SteepnessChart` over the tracks, their segments and the points of a
segment. -/
def steepnessSample (lib : GpxLib) (g : Gpx.GPX) : SteepnessState :=
  g.Tracks.foldl
    (fun st track =>
      track.Segments.foldl
        (fun st segment =>
          (List.range segment.Points.length).foldl (steepnessStep lib segment.Points) st)
        st)
    { points := [], d := F64.fin 0 }

/-- The loop `for _, pt := range points { sumFrom0 += math.Abs(pt.Y) }`. -/
def sumFrom0 (points : List Point) : F64 :=
  points.foldl (fun sum pt => F64.add sum (F64.abs pt.Y)) (F64.fin 0)

/-- The value `max := 4 * sumFrom0 / float64(len(points))` of `SteepnessChart`. -/
def steepnessMax (points : List Point) : F64 :=
  F64.div (F64.mul (F64.fin 4) (sumFrom0 points)) (F64.ofInt points.length)

/-- The parameters that `SteepnessChart` hands to `chart`. -/
def SteepnessChartParams (lib : GpxLib) (params : ChartParams) (g : Gpx.GPX) : ChartParams :=
  let g := lib.ReduceTrackPoints g 1000 (F64.fin 50)
  let g := lib.SmoothVertical g
  let g := lib.SmoothVertical g
  let g := lib.SmoothVertical g
  let g := lib.SmoothVertical g
  let st := steepnessSample lib g
  let max := steepnessMax st.points
  let params := { params with MinY := F64.neg max, MaxY := max }
  let params := { params with Points := st.points }
  let params :=
    { params with XAxis := prepareLengthAxis params.XAxis st.d params.UnitTypeOrMetric }
  { params with YAxis := prepareSteepnesAxis params.YAxis max }

/-- The local variables of `ElevationChart` that its loops assign. -/
structure ElevationState where
  minElevation : F64
  maxElevation : F64
  points : List Point
  d : F64

/-- The body of the innermost loop of `ElevationChart`, for the index `n` of the
segment's `points`. -/
def elevationStep (lib : GpxLib) (points : List Gpx.GPXPoint) (st : ElevationState)
    (n : Nat) : ElevationState :=
  let pt := Gpx.index points n
  let st :=
    if n > 0 then { st with d := F64.add st.d (lib.Distance2D pt (Gpx.index points (n - 1))) }
    else st
  let ele := pt.Point.Elevation.Value
  let st := { st with points := st.points ++ [{ X := st.d, Y := ele }] }
  let st := if F64.lt ele st.minElevation then { st with minElevation := ele } else st
  if F64.gt ele st.maxElevation then { st with maxElevation := ele } else st

/-- The loops of `ElevationChart` over the tracks, their segments and the points of a
segment. -/
def elevationSample (lib : GpxLib) (g : Gpx.GPX) : ElevationState :=
  g.Tracks.foldl
    (fun st track =>
      track.Segments.foldl
        (fun st segment =>
          (List.range segment.Points.length).foldl (elevationStep lib segment.Points) st)
        st)
    { minElevation := F64.fin 1000, maxElevation := F64.fin 0, points := [], d := F64.fin 0 }

/-- The parameters that `ElevationChart` hands to `chart`. -/
def ElevationChartParams (lib : GpxLib) (params : ChartParams) (g : Gpx.GPX) : ChartParams :=
  let st := elevationSample lib g
  let params := { params with Points := st.points }
  let params :=
    { params with XAxis := prepareLengthAxis params.XAxis st.d params.UnitTypeOrMetric }
  { params with
    YAxis := prepareElevationAxis params.YAxis st.minElevation st.maxElevation
      params.UnitTypeOrMetric }

/-! ## Strings and maps (Go's `strings` package and built-in `map`) -/

/-- The function `strings.ToLower`.  The embedding maps the letters `A` to `Z`; Go maps
the upper-case letters outside ASCII as well. -/
def ToLower (s : String) : String := String.mk (s.data.map Char.toLower)

/-- The white space of `unicode.IsSpace`. -/
def isSpace (c : Char) : Bool :=
  decide (c.toNat ∈ [0x09, 0x0A, 0x0B, 0x0C, 0x0D, 0x20, 0x85, 0xA0, 0x1680, 0x2028, 0x2029,
    0x202F, 0x205F, 0x3000]) || decide (0x2000 ≤ c.toNat ∧ c.toNat ≤ 0x200A)

/-- The function `strings.TrimSpace`. -/
def TrimSpace (s : String) : String :=
  String.mk ((s.data.dropWhile isSpace).reverse.dropWhile isSpace).reverse

/-- The function `strings.TrimRight(s, cutset)`. -/
def TrimRight (s cutset : String) : String :=
  String.mk (s.data.reverse.dropWhile (fun c => decide (c ∈ cutset.data))).reverse

/-- The function `strings.Contains(s, substr)`. -/
def Contains (s substr : String) : Bool := decide (substr.data <:+: s.data)

/-- Go: `map[string]float64`, as the list of its entries. -/
abbrev GoMap := List (String × F64)

/-- The lookup `v, is := m[k]`. -/
def GoMap.lookup (m : GoMap) (k : String) : Option F64 := List.lookup k m

/-- The index expression `m[k]`: the zero value when there is no entry. -/
def GoMap.index (m : GoMap) (k : String) : F64 := (GoMap.lookup m k).getD (F64.fin 0)

/-- The assignment `m[k] = v`. -/
def GoMap.set (m : GoMap) (k : String) (v : F64) : GoMap :=
  if (GoMap.lookup m k).isSome then m.map (fun e => if e.1 = k then (k, v) else e)
  else m ++ [(k, v)]

/-- Method `UnitType.Units`. -/
def UnitType.Units (ut : UnitType) : GoMap :=
  if ut = UnitTypeImperial then
    [("ft", F64.fin ONE_FEET), ("yd", F64.fin ONE_YARD), ("mi", F64.fin ONE_MILE)]
  else if ut = UnitTypeNautical then
    [("NM", F64.fin ONE_NAUTICAL_MILE)]
  else
    [("m", F64.fin 1), ("km", F64.fin 1000), ("cm", F64.fin (1 / 100))]

/-- The function `AllUnitTypes`. -/
def AllUnitTypes : List UnitType := [UnitTypeMetric, UnitTypeImperial, UnitTypeNautical]

/-- The package variable `SPEED_UNITS`. -/
def SPEED_UNITS : GoMap :=
  [("mps", F64.fin SPEED_MPS), ("kmh", F64.fin SPEED_KMH), ("mph", F64.fin SPEED_MPH),
   ("knot", F64.fin SPEED_KNOT)]

/-- The package variable `Units` once `init` has run:
`for _, ut := range AllUnitTypes() { for k, v := range ut.Units() { Units[strings.ToLower(k)] = v } }`.
The keys of each map are distinct, so the order in which Go visits them does not show. -/
def Units : GoMap :=
  AllUnitTypes.foldl
    (fun units ut =>
      (UnitType.Units ut).foldl (fun units kv => GoMap.set units (ToLower kv.1) kv.2) units)
    []

/-- The function `ConvertFromM`. -/
def ConvertFromM (n : F64) (toUnit : String) : F64 :=
  let toUnit := TrimSpace (ToLower toUnit)
  match GoMap.lookup SPEED_UNITS toUnit with
  | some v => F64.div n v
  | none =>
    match GoMap.lookup Units toUnit with
    | some v => F64.div n v
    | none => F64.fin 0

/-! ## Formatting (`fmt.Sprintf` and `utils.go`) -/

/-- The decimal digit for the last digit of `n`. -/
def digitChar (n : Nat) : Char := Char.ofNat (48 + n % 10)

/-- The decimal digits of `n`, most significant first, without leading zeros (one digit
for 0); `fuel` bounds the number of digits. -/
def natDigits : Nat → Nat → List Char
  | 0, _ => []
  | fuel + 1, n => if n < 10 then [digitChar n] else natDigits fuel (n / 10) ++ [digitChar n]

/-- The last `width` decimal digits of `n`, with leading zeros. -/
def fixedDigits : Nat → Nat → List Char
  | 0, _ => []
  | width + 1, n => fixedDigits width (n / 10) ++ [digitChar n]

/-- The text of `fmt.Sprintf("%d", n)`. -/
def formatInt (n : Int) : String :=
  String.mk ((if n < 0 then ['-'] else []) ++ natDigits (n.natAbs + 1) n.natAbs)

/-- A non-negative rational rounded to the nearest natural number, a tie to the even
one: the rounding of `strconv` for a decimal that is known exactly. -/
def roundHalfEven (x : ℚ) : Nat :=
  let n := x.num.toNat
  let q := n / x.den
  let r := n % x.den
  if 2 * r < x.den then q
  else if x.den < 2 * r then q + 1
  else if q % 2 = 0 then q
  else q + 1

/-- The text of `fmt.Sprintf("%.<digits>f", f)`. -/
def formatFixed (f : F64) (digits : Nat) : String :=
  match f with
  | F64.nan => "NaN"
  | F64.pinf => "+Inf"
  | F64.ninf => "-Inf"
  | F64.fin q =>
    let n := roundHalfEven (|q| * 10 ^ digits)
    String.mk
      ((if q < 0 then ['-'] else [])
        ++ natDigits (n / 10 ^ digits + 1) (n / 10 ^ digits)
        ++ (if digits = 0 then [] else '.' :: fixedDigits digits (n % 10 ^ digits)))

/-- The function `FormatFloat`. -/
def FormatFloat (f : F64) (digits : Nat) : String :=
  let res := formatFixed f digits
  let res := if Contains res "." then TrimRight res "0" else res
  TrimRight res "."

/-- The function `FormatLength`. -/
def FormatLength (lengthM : F64) (ut : UnitType) : String :=
  if F64.lt lengthM (F64.fin 0) then "n/a"
  else
    let ut := if ut.length = 0 then UnitTypeMetric else ut
    if ut = UnitTypeNautical then
      let miles := ConvertFromM lengthM "NM"
      if F64.lt miles (F64.fin 10) then FormatFloat miles 2 ++ "NM"
      else FormatFloat miles 1 ++ "NM"
    else if ut = UnitTypeImperial then
      let miles := ConvertFromM lengthM "mi"
      if F64.lt miles (F64.fin 10) then FormatFloat miles 2 ++ "mi"
      else FormatFloat miles 1 ++ "mi"
    else if F64.lt lengthM (F64.fin 1000) then FormatFloat lengthM 0 ++ "m"
    else if F64.lt lengthM (F64.fin 50000) then
      FormatFloat (F64.div lengthM (F64.fin 1000)) 2 ++ "km"
    else FormatFloat (F64.div lengthM (F64.fin 1000)) 1 ++ "km"

/-! ## Formatters (`utils.go` and the function literals of the axis scalers) -/

/-- The function `math.Round`: the nearest integer, a half away from zero. -/
def F64.Round : F64 → F64
  | F64.fin q => if 0 ≤ q then F64.fin ⌊q + 1 / 2⌋ else F64.fin (-⌊-q + 1 / 2⌋)
  | f => f

/-- The function `math.Max`: `+Inf` if one argument is `+Inf`, else NaN if one is NaN,
else the larger one. -/
def F64.Max : F64 → F64 → F64
  | F64.pinf, _ => F64.pinf
  | _, F64.pinf => F64.pinf
  | F64.nan, _ => F64.nan
  | _, F64.nan => F64.nan
  | x, y => if F64.gt x y then x else y

/-- The function `FormatSpeed`. -/
def FormatSpeed (meters_per_seconds : F64) (unit_type : UnitType) (round : Bool) : String :=
  if F64.le meters_per_seconds (F64.fin 0) then "n/a"
  else
    let unit_type := if unit_type.length = 0 then UnitTypeMetric else unit_type
    let hour := F64.mul (F64.mul meters_per_seconds (F64.fin 60)) (F64.fin 60)
    let su : F64 × String :=
      if unit_type = UnitTypeImperial then
        (F64.div hour (GoMap.index (UnitType.Units UnitTypeImperial) "mi"), "mph")
      else if unit_type = UnitTypeNautical then (F64.div hour (F64.fin 1852), "kn")
      else (F64.div hour (F64.fin 1000), "kmh")
    if round then formatInt (F64.toInt (F64.Round su.1)) ++ su.2
    else if F64.lt su.1 (F64.fin 10) then formatFixed su.1 2 ++ su.2
    else formatFixed su.1 1 ++ su.2

/-- The function `FormatAltitude`. -/
def FormatAltitude (altitude_m : F64) (unit_type : UnitType) : String :=
  if F64.lt altitude_m (F64.fin (-20000)) || F64.gt altitude_m (F64.fin 20000) then "n/a"
  else if unit_type = UnitTypeMetric then FormatFloat altitude_m 0 ++ "m"
  else FormatFloat (ConvertFromM altitude_m "ft") 0 ++ "ft"

/-- A call of a formatter.  The functions built outside the package are given by
`callers`, from their tag. -/
def Formatter.call (callers : Nat → F64 → String) : Formatter → F64 → String
  | Formatter.steepness, f => formatInt (F64.toInt (F64.Round f)) ++ "°"
  | Formatter.speed unitType, f => FormatSpeed f unitType true
  | Formatter.altitude unitType, f => FormatAltitude f unitType
  | Formatter.length unitType, f => FormatLength f unitType
  | Formatter.caller tag, f => callers tag f

/-- Method `Axis.formatterOrDefault`. -/
def Axis.formatterOrDefault (callers : Nat → F64 → String) (a : Axis) : F64 → String :=
  match a.Formatter with
  | none => fun f => formatFixed f 2
  | some formatter => Formatter.call callers formatter

/-! ## Drawing (`renderChart` and `chart`) -/

/-- A call on the `draw2d.GraphicContext` that `renderChart` draws with.  `SetFontData`
is always called with the one value `fontData` of `renderChart`. -/
inductive DrawOp where
  | BeginPath : DrawOp
  | MoveTo (x y : F64) : DrawOp
  | LineTo (x y : F64) : DrawOp
  | Close : DrawOp
  | FillStroke : DrawOp
  | SetStrokeColor (c : RGBA) : DrawOp
  | SetFillColor (c : RGBA) : DrawOp
  | SetLineWidth (w : F64) : DrawOp
  | SetFontData : DrawOp
  | SetFontSize (fontSize : F64) : DrawOp
  | FillStringAt (text : String) (x y : F64) : DrawOp
  deriving DecidableEq

/-- What `renderChart` reads back from a `draw2d.GraphicContext` (package `draw2d`, not
part of this repository). -/
structure GraphicContext where
  /-- The width that `gc.FillStringAt(text, x, y)` returns, after the calls made on `gc`
  so far. -/
  FillStringAt : List DrawOp → String → F64 → F64 → F64

/-- What a run of `renderChart` leaves behind: the calls made on the graphic context and
the calls made to the logger, both in order, and the right operand of each `/` on
`float64` that `renderChart` and `toImgCoords` have evaluated, in order (a record kept
for the statements about division; it is no variable of the program). -/
structure Canvas where
  calls : List DrawOp
  denominators : List F64
  log : List ErrorfCall

/-- Calls made on the graphic context, in order. -/
def Canvas.call (c : Canvas) (ops : List DrawOp) : Canvas :=
  { c with calls := c.calls ++ ops }

/-- Divisions evaluated, by their right operands. -/
def Canvas.divide (c : Canvas) (ds : List F64) : Canvas :=
  { c with denominators := c.denominators ++ ds }

/-- The right operands of the two divisions of one call of `toImgCoords`. -/
def ChartParams.toImgCoordsDenominators (cp : ChartParams) : List F64 :=
  [F64.sub cp.MaxX cp.MinX, F64.sub cp.MaxY cp.MinY]

/-- Go: `color.RGBA{0xFF, 0xFF, 0xFF, 0xff}`, the stroke of the background. -/
def backgroundColor : RGBA := { R := 255, G := 255, B := 255, A := 255 }

/-- Go: `color.RGBA{0xE0, 0xE0, 0xE0, 0xff}`, the stroke of a grid line. -/
def gridColor : RGBA := { R := 224, G := 224, B := 224, A := 255 }

/-- Go: `color.RGBA{0x00, 0x00, 0x00, 0xaf}`, the stroke of the curve. -/
def curveStrokeColor : RGBA := { R := 0, G := 0, B := 0, A := 175 }

/-- Go: `color.RGBA{0x10, 0x10, 0x10, 0x40}`, the fill of the curve. -/
def curveFillColor : RGBA := { R := 16, G := 16, B := 16, A := 64 }

/-- Go: `axisColor := color.RGBA{0x36, 0x6a, 0xff, 0xff}`. -/
def axisColor : RGBA := { R := 54, G := 106, B := 255, A := 255 }

/-- Go: `color.RGBA{0, 0, 0, 0}`, the fill of the text drawn to measure it. -/
def clearColor : RGBA := { R := 0, G := 0, B := 0, A := 0 }

/-- Go: `color.RGBA{0xff, 0x4e, 0x00, 0xff}`, the fill of the text of the invalid
chart. -/
def invalidTextColor : RGBA := { R := 255, G := 78, B := 0, A := 255 }

/-- The values `v` on which a loop `for v := start; v < max; v += step` runs its body,
in order, when the body assigns none of the three; `none` when the loop has not ended
after `fuel` tests of its condition. -/
def loopValues : Nat → F64 → F64 → F64 → Option (List F64)
  | 0, _, _, _ => none
  | fuel + 1, v, max, step =>
    if F64.lt v max then (loopValues fuel (F64.add v step) max step).map (fun vs => v :: vs)
    else some []

/-- The loop `for v := spacing * float64(int(min/spacing)); v < max; v += spacing`,
which `renderChart` has four times, with the body of each as `body` (a `continue` ends
the body). -/
def tickLoop (fuel : Nat) (spacing min max : F64) (body : Canvas → F64 → Canvas)
    (c : Canvas) : Option Canvas :=
  (loopValues fuel (F64.mul spacing (F64.ofInt (F64.toInt (F64.div min spacing)))) max
    spacing).map (fun vs => vs.foldl body (c.divide [spacing]))

/-- The calls of `renderChart` that paint the background. -/
def drawBackground (params : ChartParams) : List DrawOp :=
  [DrawOp.BeginPath, DrawOp.MoveTo (F64.fin 0) (F64.fin 0),
    DrawOp.SetStrokeColor backgroundColor, DrawOp.SetLineWidth (F64.fin 0),
    DrawOp.LineTo (F64.ofInt params.Width) (F64.fin 0),
    DrawOp.LineTo (F64.ofInt params.Width) (F64.ofInt params.Height),
    DrawOp.LineTo (F64.fin 0) (F64.ofInt params.Height), DrawOp.Close, DrawOp.FillStroke]

/-- The body of the loop over the vertical grid lines. -/
def gridXStep (params : ChartParams) (c : Canvas) (v : F64) : Canvas :=
  if F64.lt v params.MinX then c
  else
    let a := params.toImgCoords v params.MinY
    let b := params.toImgCoords v params.MaxY
    (c.divide (params.toImgCoordsDenominators ++ params.toImgCoordsDenominators)).call
      [DrawOp.BeginPath, DrawOp.MoveTo a.1 a.2, DrawOp.SetStrokeColor gridColor,
        DrawOp.SetLineWidth (F64.fin (1 / 2)), DrawOp.LineTo b.1 b.2, DrawOp.Close,
        DrawOp.FillStroke]

/-- The body of the loop over the horizontal grid lines. -/
def gridYStep (params : ChartParams) (c : Canvas) (v : F64) : Canvas :=
  if F64.lt v params.MinY then c
  else
    let a := params.toImgCoords params.MinX v
    let b := params.toImgCoords params.MaxX v
    (c.divide (params.toImgCoordsDenominators ++ params.toImgCoordsDenominators)).call
      [DrawOp.BeginPath, DrawOp.MoveTo a.1 a.2, DrawOp.SetStrokeColor gridColor,
        DrawOp.SetLineWidth (F64.fin (1 / 2)), DrawOp.LineTo b.1 b.2, DrawOp.Close,
        DrawOp.FillStroke]

/-- The two `if` statements under `// Grid:`. -/
def drawGrid (fuel : Nat) (params : ChartParams) (c : Canvas) : Option Canvas :=
  (if F64.gt params.XAxis.Grid (F64.fin 0) then
    tickLoop fuel params.XAxis.Grid params.MinX params.MaxX (gridXStep params) c
  else some c).bind
    (fun c =>
      if F64.gt params.YAxis.Grid (F64.fin 0) then
        tickLoop fuel params.YAxis.Grid params.MinY params.MaxY (gridYStep params) c
      else some c)

/-- Go: `positive = iota`. -/
def positive : Nat := 0

/-- Go: `negative`, the constant after `positive`. -/
def negative : Nat := 1

/-- The y value that the curve is drawn at for a point with the y value `y` in the
pass `pn`: the `switch pn` and the `if y < params.MinY` of the loop under `// Graph:`. -/
def curveY (params : ChartParams) (pn : Nat) (y : F64) : F64 :=
  let y :=
    if pn = positive then (if F64.lt y (F64.fin 0) then F64.fin 0 else y)
    else if pn = negative then (if F64.gt y (F64.fin 0) then F64.fin 0 else y)
    else y
  if F64.lt y params.MinY then params.MinY else y

/-- The body of the inner loop under `// Graph:`, for the pass `pn`, the index `n` and
the point `point`. -/
def curveStep (params : ChartParams) (pn : Nat) (c : Canvas) (np : Nat × Point) : Canvas :=
  let n := np.1
  let x := np.2.X
  let c :=
    if n = 0 then
      let a := params.toImgCoords x params.MinY
      (c.divide params.toImgCoordsDenominators).call
        [DrawOp.BeginPath, DrawOp.MoveTo a.1 a.2, DrawOp.SetStrokeColor curveStrokeColor,
          DrawOp.SetFillColor curveFillColor, DrawOp.SetLineWidth (F64.fin (1 / 2))]
    else c
  let y := curveY params pn np.2.Y
  let a := params.toImgCoords x y
  let c := (c.divide params.toImgCoordsDenominators).call [DrawOp.LineTo a.1 a.2]
  if n + 1 = params.Points.length then
    let a := params.toImgCoords x (F64.Max (F64.fin 0) params.MinY)
    let b := params.toImgCoords (F64.fin 0) (F64.Max (F64.fin 0) params.MinY)
    (c.divide (params.toImgCoordsDenominators ++ params.toImgCoordsDenominators)).call
      [DrawOp.LineTo a.1 a.2, DrawOp.LineTo b.1 b.2, DrawOp.Close, DrawOp.FillStroke]
  else c

/-- The two nested loops under `// Graph:`. -/
def drawCurve (params : ChartParams) (c : Canvas) : Canvas :=
  [positive, negative].foldl
    (fun c pn => params.Points.enum.foldl (curveStep params pn) c) c

/-- The body of the loop over the labels of the X axis. -/
def labelXStep (callers : Nat → F64 → String) (gc : GraphicContext) (params : ChartParams)
    (fontSize : F64) (c : Canvas) (v : F64) : Canvas :=
  if F64.eq v (F64.fin 0) then c
  else
    let a := params.toImgCoords v params.MinY
    let x := a.1
    let y := a.2
    let c := (c.divide params.toImgCoordsDenominators).call
      [DrawOp.BeginPath, DrawOp.MoveTo x (F64.sub y (F64.fin 3)),
        DrawOp.SetStrokeColor axisColor, DrawOp.SetLineWidth (F64.fin (1 / 2)),
        DrawOp.LineTo x (F64.add y (F64.fin 3)), DrawOp.Close, DrawOp.FillStroke,
        DrawOp.SetFontData]
    let txt := params.XAxis.formatterOrDefault callers v
    let c := c.call [DrawOp.SetFontData, DrawOp.SetFillColor clearColor]
    let below := F64.add y (F64.add fontSize (F64.fin 4))
    let textWidth := gc.FillStringAt c.calls txt (F64.sub x fontSize) below
    let c := c.call
      [DrawOp.FillStringAt txt (F64.sub x fontSize) below, DrawOp.SetFillColor axisColor,
        DrawOp.SetFontSize fontSize]
    (c.divide [F64.fin 2]).call
      [DrawOp.FillStringAt txt (F64.sub x (F64.div textWidth (F64.fin 2))) below]

/-- The body of the loop over the labels of the Y axis. -/
def labelYStep (callers : Nat → F64 → String) (gc : GraphicContext) (params : ChartParams)
    (fontSize : F64) (c : Canvas) (v : F64) : Canvas :=
  if F64.eq v (F64.fin 0) then c
  else if F64.lt v params.MinY then c
  else
    let a := params.toImgCoords params.MinX v
    let x := a.1
    let y := a.2
    let c := (c.divide params.toImgCoordsDenominators).call
      [DrawOp.BeginPath, DrawOp.MoveTo (F64.sub x (F64.fin 3)) y,
        DrawOp.SetStrokeColor axisColor, DrawOp.SetLineWidth (F64.fin (1 / 2)),
        DrawOp.LineTo (F64.add x (F64.fin 3)) y, DrawOp.Close, DrawOp.FillStroke,
        DrawOp.SetFontSize fontSize]
    let txt := params.YAxis.formatterOrDefault callers v
    let c := c.call [DrawOp.SetFontData, DrawOp.SetFillColor clearColor]
    let below := F64.add y (F64.add fontSize (F64.fin 4))
    let textWidth := gc.FillStringAt c.calls txt (F64.sub x fontSize) below
    let c := c.call
      [DrawOp.FillStringAt txt (F64.sub x fontSize) below, DrawOp.SetFillColor axisColor]
    (c.divide [F64.fin 2, F64.fin 2]).call
      [DrawOp.FillStringAt txt
        (F64.sub (F64.sub x textWidth) (F64.div fontSize (F64.fin 2)))
        (F64.add y (F64.div fontSize (F64.fin 2)))]

/-- The calls that draw the baseline of an axis, from `(MinX, MinY)` to `(x, y)`. -/
def drawBaseline (params : ChartParams) (x y : F64) (c : Canvas) : Canvas :=
  let a := params.toImgCoords params.MinX params.MinY
  let b := params.toImgCoords x y
  (c.divide (params.toImgCoordsDenominators ++ params.toImgCoordsDenominators)).call
    [DrawOp.BeginPath, DrawOp.MoveTo a.1 a.2, DrawOp.SetStrokeColor axisColor,
      DrawOp.SetLineWidth (F64.fin (1 / 2)), DrawOp.LineTo b.1 b.2, DrawOp.Close,
      DrawOp.FillStroke]

/-- The statement `if params.XAxis.Show { ... }`; the second component is the local
`fontSize` after it. -/
def drawXAxis (callers : Nat → F64 → String) (gc : GraphicContext) (fuel : Nat)
    (params : ChartParams) (fontSize : F64) (c : Canvas) : Option (Canvas × F64) :=
  if params.XAxis.Show then
    let fontSize :=
      if F64.gt params.XAxis.FontSize (F64.fin 0) then params.XAxis.FontSize else fontSize
    let c := drawBaseline params params.MaxX params.MinY c
    let labels := params.XAxis.Labels
    if F64.gt labels (F64.fin 0) then
      (tickLoop fuel labels params.MinX params.MaxX
        (labelXStep callers gc params fontSize) c).map (fun c => (c, fontSize))
    else some (c, fontSize)
  else some (c, fontSize)

/-- The statement `if params.YAxis.Show { ... }`; the second component is the local
`fontSize` after it. -/
def drawYAxis (callers : Nat → F64 → String) (gc : GraphicContext) (fuel : Nat)
    (params : ChartParams) (fontSize : F64) (c : Canvas) : Option (Canvas × F64) :=
  if params.YAxis.Show then
    let fontSize :=
      if F64.gt params.YAxis.FontSize (F64.fin 0) then params.YAxis.FontSize else fontSize
    let c := drawBaseline params params.MinX params.MaxY c
    let labels := params.YAxis.Labels
    if F64.gt labels (F64.fin 0) then
      (tickLoop fuel labels params.MinY params.MaxY
        (labelYStep callers gc params fontSize) c).map (fun c => (c, fontSize))
    else some (c, fontSize)
  else some (c, fontSize)

/-- The statement `if params.invalid { ... }` that ends `renderChart`. -/
def drawInvalid (gc : GraphicContext) (params : ChartParams) (fontSize : F64) (c : Canvas) :
    Canvas :=
  if params.invalid then
    let a := params.toImgCoords
      (F64.div (F64.add params.MinX params.MaxX) (F64.fin 2))
      (F64.div (F64.add params.MinY params.MaxY) (F64.fin 2))
    let x := a.1
    let y := a.2
    let txt := "No enough data available"
    let c := (c.divide ([F64.fin 2, F64.fin 2] ++ params.toImgCoordsDenominators)).call
      [DrawOp.SetFontData, DrawOp.SetFillColor clearColor]
    let below := F64.add y (F64.add fontSize (F64.fin 4))
    let textWidth := gc.FillStringAt c.calls txt (F64.sub x fontSize) below
    let c := c.call
      [DrawOp.FillStringAt txt (F64.sub x fontSize) below,
        DrawOp.SetFillColor invalidTextColor]
    (c.divide [F64.fin 2]).call
      [DrawOp.FillStringAt txt (F64.sub x (F64.div textWidth (F64.fin 2))) below]
  else c

/-- The part of `renderChart` after the four degenerate checks: grid, curve, axes and
the text of the invalid chart, drawn with the `params` the checks have left. -/
def drawChart (callers : Nat → F64 → String) (gc : GraphicContext) (fuel : Nat)
    (params : ChartParams) (c : Canvas) : Option Canvas :=
  (drawGrid fuel params c).bind (fun c =>
    (drawXAxis callers gc fuel params (F64.fin 8) (drawCurve params c)).bind (fun cf =>
      (drawYAxis callers gc fuel params cf.2 cf.1).map (fun cf =>
        drawInvalid gc params cf.2 cf.1)))

/-- Method `ChartService.renderChart`; `none` when one of its four `for v := ...` loops
has not ended after `fuel` tests of its condition. -/
def renderChart (callers : Nat → F64 → String) (gc : GraphicContext) (fuel : Nat)
    (params : ChartParams) : Option Canvas :=
  let s := renderChartParams params
  drawChart callers gc fuel s.params
    { calls := drawBackground params, denominators := [], log := s.log }

/-- The right operands of the `/` on `float64` in the statements of `SpeedChart` before
its call of `chart`, in the order of the run: `duration.Seconds()`, once for every point
it emits. -/
def SpeedChartDenominators (lib : GpxLib) (g : Gpx.GPX) : List F64 :=
  let g := lib.ReduceTrackPoints g 1000 (F64.fin 50)
  g.Tracks.foldl
    (fun ds track =>
      track.Segments.foldl
        (fun ds segment =>
          (List.range segment.Points.length).foldl
            (fun ds n =>
              let prevPt := Gpx.index segment.Points (n - 1)
              let pt := Gpx.index segment.Points n
              let nextPt := Gpx.index segment.Points (n + 1)
              if 0 < n ∧ n + 1 < segment.Points.length then
                if !prevPt.Timestamp.IsZero && !pt.Timestamp.IsZero
                    && !nextPt.Timestamp.IsZero then
                  ds ++ [(nextPt.Timestamp.Sub prevPt.Timestamp).Seconds]
                else ds
              else ds)
            ds)
        ds)
    []

/-- The right operand of the one `/` on `float64` in the statements of `SteepnessChart`
before its call of `chart`: `float64(len(points))`. -/
def SteepnessChartDenominators (lib : GpxLib) (g : Gpx.GPX) : List F64 :=
  let g := lib.ReduceTrackPoints g 1000 (F64.fin 50)
  let g := lib.SmoothVertical g
  let g := lib.SmoothVertical g
  let g := lib.SmoothVertical g
  let g := lib.SmoothVertical g
  [F64.ofInt (steepnessSample lib g).points.length]

/-- The statements of `ElevationChart` before its call of `chart` have no `/`. -/
def ElevationChartDenominators (_lib : GpxLib) (_g : Gpx.GPX) : List F64 := []

/-! ## The values of the loops and the calls of the curve (`renderChart`) -/

/-- The first value of the loops of `renderChart` over multiples of a spacing:
`spacing * float64(int(min/spacing))`. -/
def tickStart (spacing min : F64) : F64 :=
  F64.mul spacing (F64.ofInt (F64.toInt (F64.div min spacing)))

/-- The values at which the labels loop of the X axis draws a tick: those of the loop
that `if v == 0 { continue }` lets through. -/
def labelXValues (fuel : Nat) (spacing min max : F64) : Option (List F64) :=
  (loopValues fuel (tickStart spacing min) max spacing).map
    (fun vs => vs.filter (fun v => !F64.eq v (F64.fin 0)))

/-- The values at which the labels loop of the Y axis draws a tick: those of the loop
that `if v == 0 { continue }` and `if v < params.MinY { continue }` let through. -/
def labelYValues (fuel : Nat) (spacing min max : F64) : Option (List F64) :=
  (loopValues fuel (tickStart spacing min) max spacing).map
    (fun vs => vs.filter (fun v => !F64.eq v (F64.fin 0) && !F64.lt v min))

/-- The calls that one iteration of the loop under `// Graph:` makes, for the pass `pn`,
the index `np.1` and the point `np.2`: at the first point the start of the path, then
the vertex of the point, and at the last point the two closing vertices and the fill. -/
def curveStepCalls (params : ChartParams) (pn : Nat) (np : Nat × Point) : List DrawOp :=
  (if np.1 = 0 then
      [DrawOp.BeginPath,
        DrawOp.MoveTo (params.toImgCoords np.2.X params.MinY).1
          (params.toImgCoords np.2.X params.MinY).2,
        DrawOp.SetStrokeColor curveStrokeColor, DrawOp.SetFillColor curveFillColor,
        DrawOp.SetLineWidth (F64.fin (1 / 2))]
    else [])
  ++ [DrawOp.LineTo (params.toImgCoords np.2.X (curveY params pn np.2.Y)).1
        (params.toImgCoords np.2.X (curveY params pn np.2.Y)).2]
  ++ (if np.1 + 1 = params.Points.length then
      [DrawOp.LineTo (params.toImgCoords np.2.X (F64.Max (F64.fin 0) params.MinY)).1
          (params.toImgCoords np.2.X (F64.Max (F64.fin 0) params.MinY)).2,
        DrawOp.LineTo (params.toImgCoords (F64.fin 0) (F64.Max (F64.fin 0) params.MinY)).1
          (params.toImgCoords (F64.fin 0) (F64.Max (F64.fin 0) params.MinY)).2,
        DrawOp.Close, DrawOp.FillStroke]
    else [])

/-- The calls of one pass over the points. -/
def curvePassCalls (params : ChartParams) (pn : Nat) : List DrawOp :=
  (params.Points.enum.map (curveStepCalls params pn)).flatten

/-! ## Sample inputs -/

/-- The chart padding the command line uses by default (`-cp 20,5,20,10`, given as
left, down, right, up). -/
def defaultChartPadding : Padding :=
  { Left := F64.fin 20, Bottom := F64.fin 5, Right := F64.fin 20, Top := F64.fin 10 }

/-- The pixel padding of the test and of the command line: left 40, bottom 20. -/
def defaultPadding : Padding :=
  { Padding.zero with Left := F64.fin 40, Bottom := F64.fin 20 }

/-- A 1000 x 250 chart of two points, `(0, 100)` and `(1000, 200)`, bounds not pinned,
with the default paddings. -/
def slopeChart : ChartParams :=
  { ChartParams.zero with
    Width := 1000
    Height := 250
    Points := [{ X := F64.fin 0, Y := F64.fin 100 }, { X := F64.fin 1000, Y := F64.fin 200 }]
    Padding := defaultPadding
    ChartPadding := defaultChartPadding }

/-- A 1000 x 250 chart of a level track at elevation 5 (two points, bounds not pinned)
with the default paddings. -/
def levelChart : ChartParams :=
  { ChartParams.zero with
    Width := 1000
    Height := 250
    Points := [{ X := F64.fin 0, Y := F64.fin 5 }, { X := F64.fin 1000, Y := F64.fin 5 }]
    Padding := defaultPadding
    ChartPadding := defaultChartPadding }

/-- The steepness chart of a flat track: every angle is 0 and `SteepnessChart` has set
`MinY, MaxY = -0, 0`; default paddings. -/
def flatSteepnessChart : ChartParams :=
  { ChartParams.zero with
    Width := 1000
    Height := 250
    Points := [{ X := F64.fin 0, Y := F64.fin 0 }, { X := F64.fin 500, Y := F64.fin 0 },
      { X := F64.fin 1000, Y := F64.fin 0 }]
    MinY := F64.neg (F64.fin 0)
    MaxY := F64.fin 0
    Padding := defaultPadding
    ChartPadding := defaultChartPadding }

/-- The chart `slopeChart` with the X bounds pinned by the caller to `[100, 900]`. -/
def pinnedChart : ChartParams :=
  { slopeChart with MinX := F64.fin 100, MaxX := F64.fin 900 }

/-- The X axis of the parameters in `testChart`: grid 500, labels 1000 and the caller's
formatter `FormatAltitude(f, UnitTypeMetric)`. -/
def testXAxis : Axis :=
  { Show := true, Grid := F64.fin 500, Labels := F64.fin 1000, FontSize := F64.fin 0,
    Formatter := some (Formatter.altitude UnitTypeMetric) }

/-- The Y axis of the parameters in `testChart`: grid 25, labels 50 and the caller's
formatter `FormatLength(f, UnitTypeMetric)`. -/
def testYAxis : Axis :=
  { Show := true, Grid := F64.fin 25, Labels := F64.fin 50, FontSize := F64.fin 0,
    Formatter := some (Formatter.length UnitTypeMetric) }

/-- The finite value of a `float64`, 0 for the special values. -/
def F64.toRat : F64 → ℚ
  | F64.fin a => a
  | _ => 0

/-- A stand-in for package `gpx` on points along a line: the position of a point, in
metres, is in its `Longitude`, the angle between two points is a tenth of their
difference in elevation, and nothing is reduced or smoothed. -/
def lineLib : GpxLib :=
  { Distance2D := fun p q => F64.abs (F64.sub p.Point.Longitude q.Point.Longitude)
    ElevationAngle := fun p q _ =>
      F64.fin ((F64.toRat q.Elevation.data - F64.toRat p.Elevation.data) / 10)
    ReduceTrackPoints := fun g _ _ => g
    SmoothVertical := fun g => g }

/-- A point at `x` metres along the line with elevation `ele`, recorded `seconds` seconds
after the zero instant. -/
def trackPoint (x ele : ℚ) (seconds : Int) : Gpx.GPXPoint :=
  { Point := { Latitude := F64.fin 0, Longitude := F64.fin x,
               Elevation := { data := F64.fin ele, notNull := true } },
    Timestamp := { ns := seconds * 10 ^ 9 } }

/-- One segment of three points at 0 m, 100 m and 300 m, recorded at 10 s, 20 s and 30 s,
with elevations 1500 m, 1800 m and 2000 m. -/
def threePointTrack : Gpx.GPX :=
  { Tracks := [{ Segments := [{ Points :=
      [trackPoint 0 1500 10, trackPoint 100 1800 20, trackPoint 300 2000 30] }] }] }

/-- A graphic context that reports the width 0 for every text. -/
def plainContext : GraphicContext := { FillStringAt := fun _ _ _ _ => F64.fin 0 }

/-- Formatters of a caller: none is used. -/
def noCallers : Nat → F64 → String := fun _ _ => ""

/-- A track without points. -/
def emptyTrack : Gpx.GPX := { Tracks := [] }

/-- An empty canvas. -/
def Canvas.empty : Canvas := { calls := [], denominators := [], log := [] }

/-- Seven points at 0 m to 6 m with the angles 0, 0, 0, 0, 10, 0, 0. -/
def spikePoints : List Point :=
  [{ X := F64.fin 0, Y := F64.fin 0 }, { X := F64.fin 1, Y := F64.fin 0 },
   { X := F64.fin 2, Y := F64.fin 0 }, { X := F64.fin 3, Y := F64.fin 0 },
   { X := F64.fin 4, Y := F64.fin 10 }, { X := F64.fin 5, Y := F64.fin 0 },
   { X := F64.fin 6, Y := F64.fin 0 }]

/-- The chart that `SteepnessChart` hands to `chart` for `spikePoints`: the Y bounds are
`-max` and `max` with `max = 4 * 10 / 7`. -/
def spikeChart : ChartParams :=
  { ChartParams.zero with
    Width := 1000
    Height := 250
    Points := spikePoints
    MinY := F64.fin (-(40 / 7))
    MaxY := F64.fin (40 / 7) }

/-- A 1000 x 250 chart of two points below sea level, `(0, -400)` and `(100, -390)`,
bounds not pinned, with the default chart padding. -/
def deadSeaChart : ChartParams :=
  { ChartParams.zero with
    Width := 1000
    Height := 250
    Points := [{ X := F64.fin 0, Y := F64.fin (-400) }, { X := F64.fin 100, Y := F64.fin (-390) }]
    ChartPadding := defaultChartPadding }

/-- A 1000 x 250 chart without points whose bounds the caller pinned to
`[15, 40] x [15, 40]`, with the X axis shown and a label every 10. -/
def zoomChart : ChartParams :=
  { ChartParams.zero with
    Width := 1000
    Height := 250
    XAxis := { Axis.zero with Show := true, Labels := F64.fin 10 }
    MinX := F64.fin 15
    MaxX := F64.fin 40
    MinY := F64.fin 15
    MaxY := F64.fin 40 }

/-! ## Specification-side definitions -/

/-- The degenerate conditions of the specification (section 4.3), on bounds that have
been padded: `MinX >= MaxX`, `MinY >= MaxY`, or a bound that is NaN or infinite. -/
def boundsDegenerate (p : ChartParams) : Bool :=
  F64.ge p.MinX p.MaxX || F64.ge p.MinY p.MaxY
    || IsNanOrOnf p.MinX || IsNanOrOnf p.MaxX || IsNanOrOnf p.MinY || IsNanOrOnf p.MaxY

/-- The running minimum the loops of `calcBounds` keep: `if v < lo { lo = v }`. -/
def runMin (lo : F64) (vs : List F64) : F64 :=
  vs.foldl (fun lo v => if F64.lt v lo then v else lo) lo

/-- The running maximum the loops of `calcBounds` keep: `if v > hi { hi = v }`. -/
def runMax (hi : F64) (vs : List F64) : F64 :=
  vs.foldl (fun hi v => if F64.gt v hi then v else hi) hi

/-- The number `m` is the smallest of the values `vs`. -/
def IsSmallest (vs : List F64) (m : ℚ) : Prop :=
  F64.fin m ∈ vs ∧ ∀ v ∈ vs, F64.le (F64.fin m) v = true

/-- The number `m` is the largest of the values `vs`. -/
def IsLargest (vs : List F64) (m : ℚ) : Prop :=
  F64.fin m ∈ vs ∧ ∀ v ∈ vs, F64.le v (F64.fin m) = true

/-- What the specification asks of an axis scaler (section 4.2), for the axis `axis` on
entry, the axis `r` on return and the axis `unset` that the scaler returns for an axis
without grid and labels: a non-zero `Grid` is kept, a non-zero `Labels` is kept, a zero
field takes the scaler's choice whatever the other field holds, and `Show` and
`FontSize` are not modified. -/
def KeepsPinned (axis r unset : Axis) : Prop :=
  (F64.eq axis.Grid (F64.fin 0) = false → r.Grid = axis.Grid) ∧
  (F64.eq axis.Labels (F64.fin 0) = false → r.Labels = axis.Labels) ∧
  (F64.eq axis.Grid (F64.fin 0) = true → r.Grid = unset.Grid) ∧
  (F64.eq axis.Labels (F64.fin 0) = true → r.Labels = unset.Labels) ∧
  r.Show = axis.Show ∧ r.FontSize = axis.FontSize

/-- The metric length table of the specification (section 4.2): rows of threshold in
metres, grid, labels. -/
def metricLengthTable : List (ℚ × ℚ × ℚ) :=
  [(1000, 100, 100), (4000, 500, 500), (10000, 500, 1000), (20000, 1000, 2000),
   (50000, 1000, 2000), (100000, 2500, 5000), (200000, 5000, 10000),
   (400000, 5000, 25000)]

/-- Selection by the first matching band: the `(grid, labels)` of the first row whose
threshold is at or above `range`, and `otherwise` when there is none. -/
def firstBand (table : List (ℚ × ℚ × ℚ)) (otherwise : ℚ × ℚ) (range : F64) :
    ℚ × ℚ :=
  match table.find? (fun row => F64.le range (F64.fin row.1)) with
  | some row => row.2
  | none => otherwise

/-- The speed increment of a unit system (specification, section 4.2): the knot for
nautical, the mile per hour for imperial, the kilometre per hour for metric or unset. -/
def speedIncrement (unitType : UnitType) : ℚ :=
  if unitType = UnitTypeNautical then SPEED_KNOT
  else if unitType = UnitTypeImperial then SPEED_MPH
  else SPEED_KMH

/-- The 5-band speed table of the claim in an increment `u`: rows of threshold, grid,
labels; the last band, without threshold, is `25u/50u`. -/
def speedTable (u : ℚ) : List (ℚ × ℚ × ℚ) :=
  [(10 * u, 1 * u, 2 * u), (25 * u, 25 / 10 * u, 5 * u), (50 * u, 5 * u, 10 * u),
   (100 * u, 10 * u, 20 * u)]

/-- All the segments of a track file, in the order the samplers visit them. -/
def allSegments (g : Gpx.GPX) : List Gpx.GPXTrackSegment :=
  (g.Tracks.map (fun track => track.Segments)).flatten

/-- The distance accumulated up to the point `i` of a segment that is entered with the
distance `d0`: `d0 + dist(1, 0) + ... + dist(i, i-1)`, summed in this order. -/
def distanceUpTo (lib : GpxLib) (points : List Gpx.GPXPoint) (d0 : F64) (i : Nat) : F64 :=
  (List.range i).foldl
    (fun d k => F64.add d (lib.Distance2D (Gpx.index points (k + 1)) (Gpx.index points k))) d0

/-- The distance accumulated at the end of a segment that is entered with `d0`. -/
def distanceAfter (lib : GpxLib) (points : List Gpx.GPXPoint) (d0 : F64) : F64 :=
  distanceUpTo lib points d0 (points.length - 1)

/-- The index `i` is an interior index of the segment and the points `i-1`, `i` and
`i+1` carry a timestamp. -/
def hasSpeed (points : List Gpx.GPXPoint) (i : Nat) : Prop :=
  0 < i ∧ i + 1 < points.length ∧
  (Gpx.index points (i - 1)).Timestamp.IsZero = false ∧
  (Gpx.index points i).Timestamp.IsZero = false ∧
  (Gpx.index points (i + 1)).Timestamp.IsZero = false

instance (points : List Gpx.GPXPoint) (i : Nat) : Decidable (hasSpeed points i) := by
  unfold hasSpeed
  infer_instance

/-- The speed of the specification at the interior index `i`:
`(dist(i-1,i) + dist(i,i+1)) / (timestamp[i+1] - timestamp[i-1])`, the time in seconds. -/
def speedAt (lib : GpxLib) (points : List Gpx.GPXPoint) (i : Nat) : F64 :=
  F64.div
    (F64.add (lib.Distance2D (Gpx.index points i) (Gpx.index points (i - 1)))
      (lib.Distance2D (Gpx.index points (i + 1)) (Gpx.index points i)))
    (Duration.Seconds
      ((Gpx.index points (i + 1)).Timestamp.Sub (Gpx.index points (i - 1)).Timestamp))

/-- The points the specification asks of the speed sampler for one segment entered with
the distance `d0`: one point for each index with a speed, none for the other indices. -/
def speedPointsOfSegment (lib : GpxLib) (points : List Gpx.GPXPoint) (d0 : F64) :
    List Point :=
  (List.range points.length).filterMap
    (fun i =>
      if hasSpeed points i then
        some { X := distanceUpTo lib points d0 i, Y := speedAt lib points i }
      else none)

/-- The points the specification asks of the speed sampler for a sequence of segments,
the distance running on from one segment to the next. -/
def speedPointsOfSegments (lib : GpxLib) : List Gpx.GPXTrackSegment → F64 → List Point
  | [], _ => []
  | segment :: rest, d0 =>
    speedPointsOfSegment lib segment.Points d0
      ++ speedPointsOfSegments lib rest (distanceAfter lib segment.Points d0)
/-- The angle the specification asks of the steepness sampler at the index `i` of a
segment: the elevation angle between the points before and after `i` when `i` is an
interior index and both neighbours have an elevation, and 0 otherwise. -/
def angleAt (lib : GpxLib) (points : List Gpx.GPXPoint) (i : Nat) : F64 :=
  if 0 < i ∧ i + 1 < points.length ∧
      (Gpx.index points (i - 1)).Point.Elevation.NotNull = true ∧
      (Gpx.index points (i + 1)).Point.Elevation.NotNull = true then
    lib.ElevationAngle (Gpx.index points (i - 1)).Point (Gpx.index points (i + 1)).Point false
  else F64.fin 0

/-- The points the specification asks of the steepness sampler for a sequence of
segments: one point for every index of every segment, the distance running on from one
segment to the next. -/
def steepnessPointsOfSegments (lib : GpxLib) : List Gpx.GPXTrackSegment → F64 → List Point
  | [], _ => []
  | segment :: rest, d0 =>
    (List.range segment.Points.length).map
        (fun i => { X := distanceUpTo lib segment.Points d0 i, Y := angleAt lib segment.Points i })
      ++ steepnessPointsOfSegments lib rest (distanceAfter lib segment.Points d0)

/-- The number of points of a track file. -/
def pointCount (g : Gpx.GPX) : Nat :=
  ((allSegments g).map (fun segment => segment.Points.length)).sum

/-- The scale of the specification for the steepness chart:
`4 * (sum of |angle| over all points) / pointCount`. -/
def steepnessScale (points : List Point) : ℚ :=
  4 * ((points.map (fun p => |F64.toRat p.Y|)).sum) / points.length

/-- The track the loops of `SteepnessChart` run over: the input after
`ReduceTrackPoints(1000, 50)` and four passes of `SmoothVertical`. -/
def steepnessInput (lib : GpxLib) (g : Gpx.GPX) : Gpx.GPX :=
  lib.SmoothVertical (lib.SmoothVertical (lib.SmoothVertical (lib.SmoothVertical
    (lib.ReduceTrackPoints g 1000 (F64.fin 50)))))
/-- The point-to-point distances of a track file are non-negative: for every segment
and every index `i` with a successor, `dist(i+1, i) >= 0`. -/
def distancesNonNegative (lib : GpxLib) (g : Gpx.GPX) : Prop :=
  ∀ segment ∈ allSegments g, ∀ i, i + 1 < segment.Points.length →
    F64.le (F64.fin 0)
      (lib.Distance2D (Gpx.index segment.Points (i + 1)) (Gpx.index segment.Points i)) = true

/-- The points are ordered by non-decreasing `x`. -/
def nonDecreasingX (points : List Point) : Prop :=
  points.Pairwise (fun p q => F64.le p.X q.X = true)

/-- The invariant of the three samplers: the points emitted so far are ordered by
non-decreasing `x`, none lies beyond the running distance `d`, and `d` is not negative. -/
def sortedUpTo (points : List Point) (d : F64) : Prop :=
  nonDecreasingX points ∧ (∀ p ∈ points, F64.le p.X d = true) ∧ F64.le (F64.fin 0) d = true

/-- The speed registry of the specification (section 4.6): symbol and size in metres per
second. -/
def speedRegistry : List (String × ℚ) :=
  [("mps", 1), ("kmh", SPEED_KMH), ("mph", SPEED_MPH), ("knot", SPEED_KNOT)]

/-- The length registry of the specification (section 4.6), its symbols in lower case:
symbol and size in metres. -/
def lengthRegistry : List (String × ℚ) :=
  [("m", 1), ("km", 1000), ("cm", 1 / 100), ("ft", ONE_FEET), ("yd", ONE_YARD),
   ("mi", ONE_MILE), ("nm", ONE_NAUTICAL_MILE)]

/-- The decimals of a number without their trailing zeros. -/
def stripTrailingZeros (decimals : List Char) : List Char :=
  (decimals.reverse.dropWhile (fun c => decide (c = '0'))).reverse

/-- The text the specification asks of a number formatted with `digits` decimals
(section 4.6): the sign, the integer part with all its digits, and, when decimals remain
after the trailing zeros are stripped, the decimal point and those decimals. -/
def strippedDecimal (q : ℚ) (digits : Nat) : String :=
  let n := roundHalfEven (|q| * 10 ^ digits)
  let decimals := stripTrailingZeros (fixedDigits digits (n % 10 ^ digits))
  String.mk
    ((if q < 0 then ['-'] else [])
      ++ natDigits (n / 10 ^ digits + 1) (n / 10 ^ digits)
      ++ (if decimals = [] then [] else '.' :: decimals))

/-- The two calls of `strings.TrimRight` in `FormatFloat`, on the characters. -/
def trimData (res : List Char) : List Char :=
  let res :=
    if decide (['.'] <:+: res) then
      (res.reverse.dropWhile (fun c => decide (c ∈ ['0']))).reverse
    else res
  (res.reverse.dropWhile (fun c => decide (c ∈ ['.']))).reverse

/-- The function `math.Min`: `-Inf` if one argument is `-Inf`, else NaN if one is NaN,
else the smaller one. -/
def F64.Min : F64 → F64 → F64
  | F64.ninf, _ => F64.ninf
  | _, F64.ninf => F64.ninf
  | F64.nan, _ => F64.nan
  | _, F64.nan => F64.nan
  | x, y => if F64.lt x y then x else y

/-- A value raised to the lower bound when it is below it:
`if y < params.MinY { y = params.MinY }`. -/
def raisedTo (lower y : F64) : F64 := if F64.lt y lower then lower else y

/-- The bands of `prepareSteepnesAxis` as rows of threshold, grid, labels; the last
band, without threshold, is `5/10`. -/
def steepnessTable : List (ℚ × ℚ × ℚ) :=
  [(5, 1, 1), (10, 1, 2), (20, 5, 5)]

/-- The bands of `prepareElevationAxis` in feet (imperial and nautical); the last band
is `10000 ft/10000 ft`. -/
def feetElevationTable : List (ℚ × ℚ × ℚ) :=
  [(ONE_FEET * 50, 10 * ONE_FEET, 10 * ONE_FEET),
   (ONE_FEET * 100, 20 * ONE_FEET, 20 * ONE_FEET),
   (ONE_FEET * 500, 100 * ONE_FEET, 50 * ONE_FEET),
   (ONE_FEET * 1000, 200 * ONE_FEET, 100 * ONE_FEET),
   (ONE_FEET * 4000, 500 * ONE_FEET, 500 * ONE_FEET),
   (ONE_FEET * 10000, 1000 * ONE_FEET, 1000 * ONE_FEET),
   (ONE_FEET * 100000, 10000 * ONE_FEET, 10000 * ONE_FEET)]

/-- The bands of `prepareElevationAxis` in metres; the last band is `250/500`. -/
def metricElevationTable : List (ℚ × ℚ × ℚ) :=
  [(100, 20, 20), (500, 50, 100), (1000, 100, 200), (2000, 125, 250)]

/-- The bands of `prepareLengthAxis` in a mile `u` (the statute mile, or the nautical
mile), with the fourth threshold at `fourth` miles; the last band is `100u/100u`. -/
def mileLengthTable (u fourth : ℚ) : List (ℚ × ℚ × ℚ) :=
  [(u, 1 / 10 * u, 1 / 10 * u), (u * 4, 5 / 10 * u, 5 / 10 * u),
   (u * 10, 1 * u, 5 / 10 * u), (u * fourth, 2 * u, 1 * u),
   (u * 50, 5 * u, 25 / 10 * u), (u * 100, 10 * u, 5 * u), (u * 200, 10 * u, 5 * u),
   (u * 400, 25 * u, 5 * u)]

/-- The table and the last band that `prepareLengthAxis` uses for a unit system. -/
def lengthTableOf (unitType : UnitType) : List (ℚ × ℚ × ℚ) × (ℚ × ℚ) :=
  if unitType = UnitTypeImperial then
    (mileLengthTable ONE_MILE 20, (100 * ONE_MILE, 100 * ONE_MILE))
  else if unitType = UnitTypeNautical then
    (mileLengthTable ONE_NAUTICAL_MILE 25, (100 * ONE_NAUTICAL_MILE, 100 * ONE_NAUTICAL_MILE))
  else (metricLengthTable, (50000, 100000))

/-- The table and the last band that `prepareElevationAxis` uses for a unit system. -/
def elevationTableOf (unitType : UnitType) : List (ℚ × ℚ × ℚ) × (ℚ × ℚ) :=
  if unitType = UnitTypeImperial ∨ unitType = UnitTypeNautical then
    (feetElevationTable, (10000 * ONE_FEET, 10000 * ONE_FEET))
  else (metricElevationTable, (250, 500))

/-- Grid and labels of a table are positive and never decrease from a band to a later
one, the last band (without threshold) included. -/
def bandsAscending : List (ℚ × ℚ × ℚ) → ℚ × ℚ → Prop
  | [], last => 0 < last.1 ∧ 0 < last.2
  | row :: rest, last =>
    0 < row.2.1 ∧ 0 < row.2.2 ∧
    (∀ later ∈ rest, row.2.1 ≤ later.2.1 ∧ row.2.2 ≤ later.2.2) ∧
    row.2.1 ≤ last.1 ∧ row.2.2 ≤ last.2 ∧ bandsAscending rest last

/-- Neither the grid nor the labels spacing of the first axis is larger than that of the
second. -/
def noFinerThan (a b : Axis) : Prop :=
  F64.le a.Grid b.Grid = true ∧ F64.le a.Labels b.Labels = true

/-- The grid and the labels spacing of an axis are strictly positive. -/
def positiveSpacing (a : Axis) : Prop :=
  F64.lt (F64.fin 0) a.Grid = true ∧ F64.lt (F64.fin 0) a.Labels = true

/-! ## Lemmas on `float64` comparisons -/

theorem F64.maxFloat64_pos : (0 : ℚ) < F64.maxFloat64 := by
  norm_num [F64.maxFloat64]

theorem F64.lt_of_not_ge_of_finite (a b : F64) (hge : F64.ge a b = false)
    (ha : IsNanOrOnf a = false) (hb : IsNanOrOnf b = false) : F64.lt a b = true := by
  cases a <;> cases b <;>
    simp_all [F64.ge, F64.le, F64.lt, F64.eq, IsNanOrOnf, F64.IsNaN, F64.IsInf]
  exact lt_of_le_of_ne hge.1 (Ne.symm hge.2)

theorem F64.sub_pos_of_lt (a b : F64) (hlt : F64.lt a b = true)
    (ha : IsNanOrOnf a = false) (hb : IsNanOrOnf b = false) :
    F64.lt (F64.fin 0) (F64.sub b a) = true := by
  cases a <;> cases b <;>
    simp_all [F64.sub, F64.add, F64.neg, F64.lt, IsNanOrOnf, F64.IsNaN, F64.IsInf]

theorem F64.eq_zero_false_of_pos (a : F64) (h : F64.lt (F64.fin 0) a = true) :
    F64.eq a (F64.fin 0) = false := by
  cases a <;> simp_all [F64.lt, F64.eq]
  exact ne_of_gt h

/-! ## Lemmas on `int` -/

theorem F64.lt_irrefl (a : F64) : F64.lt a a = false := by
  cases a <;> simp [F64.lt]

theorem calcBounds_MinX (cp : ChartParams) :
    cp.calcBounds.MinX =
      F64.sub (if F64.eq cp.MinX (F64.fin 0) && F64.eq cp.MaxX (F64.fin 0) then
          (cp.Points.foldl stepBoundsX (F64.fin F64.maxFloat64, F64.fin (-F64.maxFloat64))).1
        else cp.MinX) cp.ChartPadding.Left := by
  simp only [ChartParams.calcBounds]; split <;> rfl

theorem calcBounds_MaxX (cp : ChartParams) :
    cp.calcBounds.MaxX =
      F64.add (if F64.eq cp.MinX (F64.fin 0) && F64.eq cp.MaxX (F64.fin 0) then
          (cp.Points.foldl stepBoundsX (F64.fin F64.maxFloat64, F64.fin (-F64.maxFloat64))).2
        else cp.MaxX) cp.ChartPadding.Right := by
  simp only [ChartParams.calcBounds]; split <;> rfl

theorem calcBounds_MinY (cp : ChartParams) :
    cp.calcBounds.MinY =
      F64.sub (if F64.eq cp.MinY (F64.fin 0) && F64.eq cp.MaxY (F64.fin 0) then
          (cp.Points.foldl stepBoundsY (F64.fin F64.maxFloat64, F64.fin (-F64.maxFloat64))).1
        else cp.MinY) cp.ChartPadding.Bottom := by
  simp only [ChartParams.calcBounds]; split <;> rfl

theorem calcBounds_MaxY (cp : ChartParams) :
    cp.calcBounds.MaxY =
      F64.add (if F64.eq cp.MinY (F64.fin 0) && F64.eq cp.MaxY (F64.fin 0) then
          (cp.Points.foldl stepBoundsY (F64.fin F64.maxFloat64, F64.fin (-F64.maxFloat64))).2
        else cp.MaxY) cp.ChartPadding.Top := by
  simp only [ChartParams.calcBounds]; split <;> rfl

/-- A second point with the same `y` leaves the running Y bounds as they are. -/
theorem stepBoundsY_same (b : F64 × F64) (p q : Point) (h : q.Y = p.Y) :
    stepBoundsY (stepBoundsY b p) q = stepBoundsY b p := by
  obtain ⟨lo, hi⟩ := b
  simp only [stepBoundsY, F64.gt, h]
  by_cases h1 : F64.lt hi p.Y = true <;> by_cases h2 : F64.lt p.Y lo = true <;>
    simp [h1, h2, F64.lt_irrefl]

/-- Over points that all have the same `y`, the second loop of `calcBounds` does what
its first iteration does. -/
theorem foldl_stepBoundsY_const (c : F64) (l : List Point) (p : Point) (b : F64 × F64)
    (hp : p.Y = c) (hl : ∀ q ∈ l, q.Y = c) :
    l.foldl stepBoundsY (stepBoundsY b p) = stepBoundsY b p := by
  induction l with
  | nil => rfl
  | cons q l ih =>
    rw [List.foldl_cons, stepBoundsY_same b p q]
    · exact ih (fun r hr => hl r (List.mem_cons_of_mem _ hr))
    · rw [hp]; exact hl q (List.mem_cons_self _ _)

/-- The first iteration of the second loop of `calcBounds`, on a finite `y`. -/
theorem stepBoundsY_init_fin (x : F64) (q : ℚ) (h1 : -F64.maxFloat64 ≤ q)
    (h2 : q ≤ F64.maxFloat64) :
    stepBoundsY (F64.fin F64.maxFloat64, F64.fin (-F64.maxFloat64)) { X := x, Y := F64.fin q }
      = (F64.fin q, F64.fin q) := by
  have hM := F64.maxFloat64_pos
  rcases eq_or_lt_of_le h1 with e1 | l1 <;> rcases eq_or_lt_of_le h2 with e2 | l2
  · linarith
  · subst e1
    simp [stepBoundsY, F64.gt, F64.lt, l2]
  · subst e2
    simp [stepBoundsY, F64.gt, F64.lt, l1]
  · simp [stepBoundsY, F64.gt, F64.lt, l1, l2]

/-- The Y bounds that the loop of `calcBounds` finds for a point with `y = c`, padded
with finite `Bottom` and `Top` of sum at most zero, are degenerate. -/
theorem stepBoundsY_const_degenerate (p : Point) (hv : F64.Valid p.Y) (B T : ℚ)
    (hBT : B + T ≤ 0) :
    (F64.ge
        (F64.sub (stepBoundsY (F64.fin F64.maxFloat64, F64.fin (-F64.maxFloat64)) p).1 (F64.fin B))
        (F64.add (stepBoundsY (F64.fin F64.maxFloat64, F64.fin (-F64.maxFloat64)) p).2 (F64.fin T))
      || IsNanOrOnf
        (F64.sub (stepBoundsY (F64.fin F64.maxFloat64, F64.fin (-F64.maxFloat64)) p).1 (F64.fin B))
      || IsNanOrOnf
        (F64.add (stepBoundsY (F64.fin F64.maxFloat64, F64.fin (-F64.maxFloat64)) p).2 (F64.fin T)))
      = true := by
  have hM := F64.maxFloat64_pos
  obtain ⟨x, y⟩ := p
  cases y with
  | nan =>
    simp [stepBoundsY, F64.gt, F64.lt, F64.ge, F64.le, F64.eq, F64.sub, F64.add, F64.neg]
    left; left; left; linarith
  | ninf =>
    simp [stepBoundsY, F64.gt, F64.lt, F64.ge, F64.le, F64.eq, F64.sub, F64.add, F64.neg,
      IsNanOrOnf, F64.IsNaN, F64.IsInf]
  | pinf =>
    simp [stepBoundsY, F64.gt, F64.lt, F64.ge, F64.le, F64.eq, F64.sub, F64.add, F64.neg,
      IsNanOrOnf, F64.IsNaN, F64.IsInf]
  | fin q =>
    obtain ⟨h1, h2⟩ : -F64.maxFloat64 ≤ q ∧ q ≤ F64.maxFloat64 := hv
    rw [stepBoundsY_init_fin x q h1 h2]
    simp only [F64.ge, F64.le, F64.lt, F64.eq, F64.sub, F64.add, F64.neg, Bool.or_eq_true,
      decide_eq_true_eq]
    left; left
    rcases eq_or_lt_of_le hBT with h | h
    · right; linarith
    · left; linarith

/-- The first loop of `calcBounds` keeps a running minimum and a running maximum of
the x values. -/
theorem foldl_stepBoundsX (l : List Point) (b : F64 × F64) :
    l.foldl stepBoundsX b = (runMin b.1 (l.map Point.X), runMax b.2 (l.map Point.X)) := by
  induction l generalizing b with
  | nil => rfl
  | cons p l ih =>
    rw [List.foldl_cons, ih]
    obtain ⟨lo, hi⟩ := b
    simp only [stepBoundsX, runMin, runMax, List.map_cons, List.foldl_cons]
    by_cases h1 : F64.lt p.X lo = true <;> by_cases h2 : F64.gt p.X hi = true <;>
      simp [h1, h2]

/-- The second loop of `calcBounds` keeps a running minimum and a running maximum of
the y values. -/
theorem foldl_stepBoundsY (l : List Point) (b : F64 × F64) :
    l.foldl stepBoundsY b = (runMin b.1 (l.map Point.Y), runMax b.2 (l.map Point.Y)) := by
  induction l generalizing b with
  | nil => rfl
  | cons p l ih =>
    rw [List.foldl_cons, ih]
    obtain ⟨lo, hi⟩ := b
    simp only [stepBoundsY, runMin, runMax, List.map_cons, List.foldl_cons]
    by_cases h1 : F64.lt p.Y lo = true <;> by_cases h2 : F64.gt p.Y hi = true <;>
      simp [h1, h2]

theorem F64.le_fin_fin (a b : ℚ) : F64.le (F64.fin a) (F64.fin b) = true ↔ a ≤ b := by
  simp only [F64.le, F64.lt, F64.eq, Bool.or_eq_true, decide_eq_true_eq]
  exact le_iff_lt_or_eq.symm

/-- Once the running minimum is `m` it stays `m`. -/
theorem runMin_stays (m : ℚ) (vs : List F64)
    (hall : ∀ v ∈ vs, F64.le (F64.fin m) v = true) :
    runMin (F64.fin m) vs = F64.fin m := by
  induction vs with
  | nil => rfl
  | cons v vs ih =>
    have hv := hall v (List.mem_cons_self _ _)
    have hvs : ∀ w ∈ vs, F64.le (F64.fin m) w = true :=
      fun w hw => hall w (List.mem_cons_of_mem _ hw)
    simp only [runMin, List.foldl_cons]
    cases v with
    | nan => simp [F64.le, F64.lt, F64.eq] at hv
    | ninf => simp [F64.le, F64.lt, F64.eq] at hv
    | pinf => simpa [F64.lt, runMin] using ih hvs
    | fin q =>
      rw [F64.le_fin_fin] at hv
      have hq : ¬ q < m := not_lt.mpr hv
      simpa [F64.lt, hq, runMin] using ih hvs

/-- The running minimum of `calcBounds` ends at the smallest value. -/
theorem runMin_eq_smallest (m : ℚ) (vs : List F64) (a : ℚ) (ha : m ≤ a)
    (hm : IsSmallest vs m) : runMin (F64.fin a) vs = F64.fin m := by
  obtain ⟨hmem, hall⟩ := hm
  induction vs generalizing a with
  | nil => cases hmem
  | cons v vs ih =>
    have hv := hall v (List.mem_cons_self _ _)
    have hvs : ∀ w ∈ vs, F64.le (F64.fin m) w = true :=
      fun w hw => hall w (List.mem_cons_of_mem _ hw)
    rcases List.mem_cons.mp hmem with h | h
    · subst h
      simp only [runMin, List.foldl_cons]
      rcases eq_or_lt_of_le ha with e | l
      · subst e
        simpa [F64.lt, runMin] using runMin_stays m vs hvs
      · simpa [F64.lt, l, runMin] using runMin_stays m vs hvs
    · simp only [runMin, List.foldl_cons]
      cases v with
      | nan => simp [F64.le, F64.lt, F64.eq] at hv
      | ninf => simp [F64.le, F64.lt, F64.eq] at hv
      | pinf => simpa [F64.lt, runMin] using ih a ha h hvs
      | fin q =>
        rw [F64.le_fin_fin] at hv
        by_cases hq : q < a
        · simpa [F64.lt, hq, runMin] using ih q hv h hvs
        · simpa [F64.lt, hq, runMin] using ih a ha h hvs

/-- Once the running maximum is `m` it stays `m`. -/
theorem runMax_stays (m : ℚ) (vs : List F64)
    (hall : ∀ v ∈ vs, F64.le v (F64.fin m) = true) :
    runMax (F64.fin m) vs = F64.fin m := by
  induction vs with
  | nil => rfl
  | cons v vs ih =>
    have hv := hall v (List.mem_cons_self _ _)
    have hvs : ∀ w ∈ vs, F64.le w (F64.fin m) = true :=
      fun w hw => hall w (List.mem_cons_of_mem _ hw)
    simp only [runMax, List.foldl_cons]
    cases v with
    | nan => simp [F64.le, F64.lt, F64.eq] at hv
    | pinf => simp [F64.le, F64.lt, F64.eq] at hv
    | ninf => simpa [F64.gt, F64.lt, runMax] using ih hvs
    | fin q =>
      rw [F64.le_fin_fin] at hv
      have hq : ¬ m < q := not_lt.mpr hv
      simpa [F64.gt, F64.lt, hq, runMax] using ih hvs

/-- The running maximum of `calcBounds` ends at the largest value. -/
theorem runMax_eq_largest (m : ℚ) (vs : List F64) (a : ℚ) (ha : a ≤ m)
    (hm : IsLargest vs m) : runMax (F64.fin a) vs = F64.fin m := by
  obtain ⟨hmem, hall⟩ := hm
  induction vs generalizing a with
  | nil => cases hmem
  | cons v vs ih =>
    have hv := hall v (List.mem_cons_self _ _)
    have hvs : ∀ w ∈ vs, F64.le w (F64.fin m) = true :=
      fun w hw => hall w (List.mem_cons_of_mem _ hw)
    rcases List.mem_cons.mp hmem with h | h
    · subst h
      simp only [runMax, List.foldl_cons]
      rcases eq_or_lt_of_le ha with e | l
      · subst e
        simpa [F64.gt, F64.lt, runMax] using runMax_stays a vs hvs
      · simpa [F64.gt, F64.lt, l, runMax] using runMax_stays m vs hvs
    · simp only [runMax, List.foldl_cons]
      cases v with
      | nan => simp [F64.le, F64.lt, F64.eq] at hv
      | pinf => simp [F64.le, F64.lt, F64.eq] at hv
      | ninf => simpa [F64.gt, F64.lt, runMax] using ih a ha h hvs
      | fin q =>
        rw [F64.le_fin_fin] at hv
        by_cases hq : a < q
        · simpa [F64.gt, F64.lt, hq, runMax] using ih q hv h hvs
        · simpa [F64.gt, F64.lt, hq, runMax] using ih a ha h hvs

/-! ## Lemmas on the axis scalers -/

theorem metric_ne_imperial : UnitTypeMetric ≠ UnitTypeImperial := by decide

theorem metric_ne_nautical : UnitTypeMetric ≠ UnitTypeNautical := by decide

theorem imperial_ne_nautical : UnitTypeImperial ≠ UnitTypeNautical := by decide

theorem F64.eq_zero_zero : F64.eq (F64.fin 0) (F64.fin 0) = true := by
  simp [F64.eq]

theorem assignGridLabels_keepsPinned (axis : Axis) (f : Option Formatter) (gl : F64 × F64) :
    KeepsPinned axis (assignGridLabels { axis with Formatter := f } gl)
      (assignGridLabels { Axis.zero with Formatter := f } gl) := by
  unfold KeepsPinned assignGridLabels
  by_cases hg : F64.eq axis.Grid (F64.fin 0) = true <;>
    by_cases hl : F64.eq axis.Labels (F64.fin 0) = true <;>
    simp [hg, hl, Axis.zero, F64.eq_zero_zero]

theorem assignGridLabels_Formatter (axis : Axis) (gl : F64 × F64) :
    (assignGridLabels axis gl).Formatter = axis.Formatter := by
  unfold assignGridLabels
  by_cases hg : F64.eq axis.Grid (F64.fin 0) = true <;>
    by_cases hl : F64.eq axis.Labels (F64.fin 0) = true <;>
    simp [hg, hl]

theorem assignGridLabels_unset (axis : Axis) (gl : F64 × F64)
    (hg : F64.eq axis.Grid (F64.fin 0) = true) (hl : F64.eq axis.Labels (F64.fin 0) = true) :
    (assignGridLabels axis gl).Grid = gl.1 ∧ (assignGridLabels axis gl).Labels = gl.2 := by
  unfold assignGridLabels
  simp [hg, hl]

/-- On an axis without grid and labels `prepareLengthAxis` assigns the pair of its
`switch`. -/
theorem prepareLengthAxis_unset (axis : Axis) (length : F64) (unitType : UnitType)
    (hg : F64.eq axis.Grid (F64.fin 0) = true) (hl : F64.eq axis.Labels (F64.fin 0) = true) :
    (prepareLengthAxis axis length unitType).Grid = (lengthBands length unitType).1 ∧
    (prepareLengthAxis axis length unitType).Labels = (lengthBands length unitType).2 :=
  assignGridLabels_unset _ _ hg hl

/-! ## The degenerate checks -/

theorem invalidGraphParams_not_degenerate (q : ChartParams) :
    boundsDegenerate (invalidGraphParams q) = false := by
  simp [boundsDegenerate, invalidGraphParams, F64.ge, F64.le, F64.lt, F64.eq, IsNanOrOnf,
    F64.IsNaN, F64.IsInf]

/-- The four checks of `renderChart` taken together: the invalid chart replaces the
padded parameters exactly when one of the degenerate conditions holds for them. -/
theorem renderChartParams_params (cp : ChartParams) :
    (renderChartParams cp).params =
      if boundsDegenerate cp.calcBounds then invalidGraphParams cp.calcBounds
      else cp.calcBounds := by
  unfold renderChartParams
  generalize cp.calcBounds = p
  have hq := invalidGraphParams_not_degenerate p
  simp only [boundsDegenerate, Bool.or_eq_false_iff] at hq
  obtain ⟨⟨⟨⟨⟨h1, h2⟩, h3⟩, h4⟩, h5⟩, h6⟩ := hq
  by_cases c1 : F64.ge p.MinX p.MaxX = true <;>
  by_cases c2 : F64.ge p.MinY p.MaxY = true <;>
  by_cases c3 : (IsNanOrOnf p.MinX || IsNanOrOnf p.MaxX) = true <;>
  by_cases c4 : (IsNanOrOnf p.MinY || IsNanOrOnf p.MaxY) = true <;>
  simp_all [degenerateCheck, boundsDegenerate]

theorem renderChartParams_not_degenerate (cp : ChartParams) :
    boundsDegenerate (renderChartParams cp).params = false := by
  rw [renderChartParams_params]
  split
  · exact invalidGraphParams_not_degenerate _
  · rename_i h
    simpa using h

theorem renderChartParams_of_degenerate (cp : ChartParams)
    (h : boundsDegenerate cp.calcBounds = true) :
    (renderChartParams cp).params = invalidGraphParams cp.calcBounds := by
  rw [renderChartParams_params, h]; rfl

theorem renderChartParams_of_not_degenerate (cp : ChartParams)
    (h : boundsDegenerate cp.calcBounds = false) :
    (renderChartParams cp).params = cp.calcBounds := by
  rw [renderChartParams_params, h]; rfl

/-- Degenerate Y bounds alone make the chart degenerate. -/
theorem boundsDegenerate_of_Y (p : ChartParams)
    (h : (F64.ge p.MinY p.MaxY || IsNanOrOnf p.MinY || IsNanOrOnf p.MaxY) = true) :
    boundsDegenerate p = true := by
  simp only [boundsDegenerate, Bool.or_eq_true] at h ⊢
  tauto

theorem slopeChart_calcBounds :
    slopeChart.calcBounds =
      { slopeChart with
        MinX := F64.fin (-20), MaxX := F64.fin 1020, MinY := F64.fin 95, MaxY := F64.fin 210 } := by
  simp [slopeChart, ChartParams.calcBounds, ChartParams.zero, stepBoundsX, stepBoundsY, F64.eq,
    F64.lt, F64.gt, F64.sub, F64.add, F64.neg, defaultChartPadding, F64.maxFloat64]
  norm_num

theorem zero_calcBounds :
    ChartParams.zero.calcBounds =
      { ChartParams.zero with
        MinX := F64.fin F64.maxFloat64, MaxX := F64.fin (-F64.maxFloat64),
        MinY := F64.fin F64.maxFloat64, MaxY := F64.fin (-F64.maxFloat64) } := by
  simp [ChartParams.calcBounds, ChartParams.zero, F64.eq, F64.sub, F64.add, F64.neg,
    Padding.zero]

theorem levelChart_calcBounds :
    levelChart.calcBounds =
      { levelChart with
        MinX := F64.fin (-20), MaxX := F64.fin 1020, MinY := F64.fin 0, MaxY := F64.fin 15 } := by
  simp [levelChart, ChartParams.calcBounds, ChartParams.zero, stepBoundsX, stepBoundsY, F64.eq,
    F64.lt, F64.gt, F64.sub, F64.add, F64.neg, defaultChartPadding, F64.maxFloat64]
  norm_num

theorem flatSteepnessChart_calcBounds :
    flatSteepnessChart.calcBounds =
      { flatSteepnessChart with
        MinX := F64.fin (-20), MaxX := F64.fin 1020, MinY := F64.fin (-5),
        MaxY := F64.fin 10 } := by
  simp [flatSteepnessChart, ChartParams.calcBounds, ChartParams.zero, stepBoundsX, stepBoundsY,
    F64.eq, F64.lt, F64.gt, F64.sub, F64.add, F64.neg, defaultChartPadding, F64.maxFloat64]
  norm_num

theorem slopeChart_ranges :
    IsSmallest (slopeChart.Points.map Point.X) 0 ∧
    IsLargest (slopeChart.Points.map Point.X) 1000 ∧
    IsSmallest (slopeChart.Points.map Point.Y) 100 ∧
    IsLargest (slopeChart.Points.map Point.Y) 200 := by
  norm_num [IsSmallest, IsLargest, slopeChart, F64.le, F64.lt, F64.eq]

theorem F64.valid_of_abs_le_1000 (q : ℚ) (h1 : -1000 ≤ q) (h2 : q ≤ 1000) :
    F64.Valid (F64.fin q) := by
  have hbig : (1000 : ℚ) ≤ F64.maxFloat64 := by norm_num [F64.maxFloat64]
  constructor <;> linarith

/-- C1: for every `ChartParams` (any points, pinned or unpinned bounds, any chart
padding, NaN and infinities included) the parameters that `renderChart` draws with,
after `calcBounds` and the four degenerate checks, have `MinX < MaxX` and `MinY < MaxY`
with the four bounds finite, and the two denominators of `toImgCoords`,
`MaxX - MinX` and `MaxY - MinY`, are positive, hence not zero. -/
theorem C1_drawing_bounds_ordered_and_finite (cp : ChartParams) :
    F64.lt (renderChartParams cp).params.MinX (renderChartParams cp).params.MaxX = true ∧
    F64.lt (renderChartParams cp).params.MinY (renderChartParams cp).params.MaxY = true ∧
    IsNanOrOnf (renderChartParams cp).params.MinX = false ∧
    IsNanOrOnf (renderChartParams cp).params.MaxX = false ∧
    IsNanOrOnf (renderChartParams cp).params.MinY = false ∧
    IsNanOrOnf (renderChartParams cp).params.MaxY = false ∧
    F64.lt (F64.fin 0)
      (F64.sub (renderChartParams cp).params.MaxX (renderChartParams cp).params.MinX) = true ∧
    F64.lt (F64.fin 0)
      (F64.sub (renderChartParams cp).params.MaxY (renderChartParams cp).params.MinY) = true ∧
    F64.eq (F64.sub (renderChartParams cp).params.MaxX (renderChartParams cp).params.MinX)
      (F64.fin 0) = false ∧
    F64.eq (F64.sub (renderChartParams cp).params.MaxY (renderChartParams cp).params.MinY)
      (F64.fin 0) = false := by
  have h := renderChartParams_not_degenerate cp
  generalize (renderChartParams cp).params = r at h
  simp only [boundsDegenerate, Bool.or_eq_false_iff] at h
  obtain ⟨⟨⟨⟨⟨h1, h2⟩, h3⟩, h4⟩, h5⟩, h6⟩ := h
  have hx := F64.lt_of_not_ge_of_finite _ _ h1 h3 h4
  have hy := F64.lt_of_not_ge_of_finite _ _ h2 h5 h6
  have dx := F64.sub_pos_of_lt _ _ hx h3 h4
  have dy := F64.sub_pos_of_lt _ _ hy h5 h6
  refine ⟨hx, hy, h3, h4, h5, h6, dx, dy, ?_, ?_⟩
  · exact F64.eq_zero_false_of_pos _ dx
  · exact F64.eq_zero_false_of_pos _ dy

/-- C2: after padding, the chart is replaced by the invalid chart if and only if
`MinX >= MaxX`, or `MinY >= MaxY`, or one of the four bounds is NaN or infinite.  The
replacement has bounds `[0,1] x [0,1]`, no points, both axes shown with `Grid = 0` and
`Labels = 0`, the invalid flag set, and the width, height, fill colour and pixel padding
of the original; otherwise the padded parameters are left as they are and the invalid
flag, which no caller can set, stays unset. -/
theorem C2_invalid_chart_iff_degenerate (cp : ChartParams) (hinv : cp.invalid = false) :
    ((renderChartParams cp).params.invalid = true ↔
      (F64.ge cp.calcBounds.MinX cp.calcBounds.MaxX = true ∨
       F64.ge cp.calcBounds.MinY cp.calcBounds.MaxY = true ∨
       IsNanOrOnf cp.calcBounds.MinX = true ∨ IsNanOrOnf cp.calcBounds.MaxX = true ∨
       IsNanOrOnf cp.calcBounds.MinY = true ∨ IsNanOrOnf cp.calcBounds.MaxY = true)) ∧
    ((renderChartParams cp).params.invalid = true →
      (renderChartParams cp).params =
        { Width := cp.Width, Height := cp.Height,
          XAxis := { Show := true, Grid := F64.fin 0, Labels := F64.fin 0,
                     FontSize := F64.fin 0, Formatter := none },
          YAxis := { Show := true, Grid := F64.fin 0, Labels := F64.fin 0,
                     FontSize := F64.fin 0, Formatter := none },
          Points := [], FillColor := cp.FillColor, Unit := "", Padding := cp.Padding,
          MinX := F64.fin 0, MaxX := F64.fin 1, MinY := F64.fin 0, MaxY := F64.fin 1,
          ChartPadding := Padding.zero, invalid := true }) ∧
    ((renderChartParams cp).params.invalid = false →
      (renderChartParams cp).params = cp.calcBounds) := by
  have hcb : cp.calcBounds.invalid = false := by simpa [ChartParams.calcBounds] using hinv
  rw [renderChartParams_params]
  have hiff : boundsDegenerate cp.calcBounds = true ↔
      (F64.ge cp.calcBounds.MinX cp.calcBounds.MaxX = true ∨
       F64.ge cp.calcBounds.MinY cp.calcBounds.MaxY = true ∨
       IsNanOrOnf cp.calcBounds.MinX = true ∨ IsNanOrOnf cp.calcBounds.MaxX = true ∨
       IsNanOrOnf cp.calcBounds.MinY = true ∨ IsNanOrOnf cp.calcBounds.MaxY = true) := by
    simp only [boundsDegenerate, Bool.or_eq_true]
    tauto
  rw [← hiff]
  cases hd : boundsDegenerate cp.calcBounds
  · simp only [Bool.false_eq_true, if_false]
    refine ⟨?_, ?_, ?_⟩
    · rw [hcb]; simp
    · intro h; rw [hcb] at h; cases h
    · intro _; trivial
  · simp only [if_true]
    refine ⟨?_, ?_, ?_⟩
    · simp [invalidGraphParams]
    · intro _
      simp [invalidGraphParams, ChartParams.zero, Axis.zero, ChartParams.calcBounds]
    · intro h
      simp [invalidGraphParams] at h

theorem C2_invalid_chart_iff_degenerate_witness :
    ChartParams.zero.invalid = false ∧
    (renderChartParams ChartParams.zero).params.invalid = true ∧
    (renderChartParams slopeChart).params.invalid = false ∧
    (renderChartParams slopeChart).params = slopeChart.calcBounds := by
  have hz := C2_invalid_chart_iff_degenerate ChartParams.zero rfl
  have hs := C2_invalid_chart_iff_degenerate slopeChart rfl
  have hsn : (renderChartParams slopeChart).params.invalid = false := by
    rw [renderChartParams_params, slopeChart_calcBounds]
    norm_num [boundsDegenerate, F64.ge, F64.le, F64.lt, F64.eq, IsNanOrOnf, F64.IsNaN,
      F64.IsInf, slopeChart, ChartParams.zero]
  refine ⟨rfl, hz.1.mpr (Or.inl ?_), hsn, hs.2.2 hsn⟩
  rw [zero_calcBounds]
  have := F64.maxFloat64_pos
  simp only [F64.ge, F64.le, F64.lt, F64.eq, Bool.or_eq_true, decide_eq_true_eq]
  left; linarith

/-- C3, counterexample: with the chart padding the command line uses by default (bottom 5,
top 10) a level track at elevation 5 is not replaced by the invalid chart: it is drawn with
its two points and Y bounds `[0, 15]`.  The same holds for the steepness chart of a flat
track (all angles 0, explicit Y bounds `-0, 0`), drawn with Y bounds `[-5, 10]`. -/
theorem C3_counterexample_default_chart_padding :
    (levelChart.Points ≠ [] ∧ (∀ p ∈ levelChart.Points, p.Y = F64.fin 5) ∧
      (F64.eq levelChart.MinY (F64.fin 0) && F64.eq levelChart.MaxY (F64.fin 0)) = true ∧
      (renderChartParams levelChart).params.invalid = false ∧
      (renderChartParams levelChart).params.Points = levelChart.Points ∧
      (renderChartParams levelChart).params.MinY = F64.fin 0 ∧
      (renderChartParams levelChart).params.MaxY = F64.fin 15) ∧
    (flatSteepnessChart.Points ≠ [] ∧ (∀ p ∈ flatSteepnessChart.Points, p.Y = F64.fin 0) ∧
      (F64.eq flatSteepnessChart.MinY (F64.fin 0)
        && F64.eq flatSteepnessChart.MaxY (F64.fin 0)) = true ∧
      (renderChartParams flatSteepnessChart).params.invalid = false ∧
      (renderChartParams flatSteepnessChart).params.Points = flatSteepnessChart.Points ∧
      (renderChartParams flatSteepnessChart).params.MinY = F64.fin (-5) ∧
      (renderChartParams flatSteepnessChart).params.MaxY = F64.fin 10) := by
  have h1 : (renderChartParams levelChart).params = levelChart.calcBounds := by
    apply renderChartParams_of_not_degenerate
    rw [levelChart_calcBounds]
    norm_num [boundsDegenerate, F64.ge, F64.le, F64.lt, F64.eq, IsNanOrOnf, F64.IsNaN,
      F64.IsInf]
  have h2 : (renderChartParams flatSteepnessChart).params = flatSteepnessChart.calcBounds := by
    apply renderChartParams_of_not_degenerate
    rw [flatSteepnessChart_calcBounds]
    norm_num [boundsDegenerate, F64.ge, F64.le, F64.lt, F64.eq, IsNanOrOnf, F64.IsNaN,
      F64.IsInf]
  rw [h1, h2, levelChart_calcBounds, flatSteepnessChart_calcBounds]
  refine ⟨⟨?_, ?_, ?_, ?_, ?_, ?_, ?_⟩, ⟨?_, ?_, ?_, ?_, ?_, ?_, ?_⟩⟩ <;>
    simp [levelChart, flatSteepnessChart, ChartParams.zero, F64.eq, F64.neg]

/-- C3, amended: for every non-empty point sequence whose y values are all equal (Y bounds
not pinned) and every chart padding whose `Bottom` and `Top` are finite with
`Bottom + Top <= 0` (in particular no vertical chart padding), bounds preparation ends in
the invalid chart: invalid flag set, bounds `[0,1] x [0,1]`, no points.  The steepness
chart of a flat track, with all angles zero and explicit Y bounds `[0, 0]`, is one such
input. -/
theorem C3_constant_y_is_invalid_without_vertical_padding (cp : ChartParams) (c : F64)
    (hc : F64.Valid c) (hne : cp.Points ≠ []) (hy : ∀ p ∈ cp.Points, p.Y = c)
    (hpin : (F64.eq cp.MinY (F64.fin 0) && F64.eq cp.MaxY (F64.fin 0)) = true)
    (B T : ℚ) (hB : cp.ChartPadding.Bottom = F64.fin B) (hT : cp.ChartPadding.Top = F64.fin T)
    (hBT : B + T ≤ 0) :
    (renderChartParams cp).params.invalid = true ∧
    (renderChartParams cp).params.MinX = F64.fin 0 ∧
    (renderChartParams cp).params.MaxX = F64.fin 1 ∧
    (renderChartParams cp).params.MinY = F64.fin 0 ∧
    (renderChartParams cp).params.MaxY = F64.fin 1 ∧
    (renderChartParams cp).params.Points = [] := by
  have hd : boundsDegenerate cp.calcBounds = true := by
    apply boundsDegenerate_of_Y
    rw [calcBounds_MinY, calcBounds_MaxY, hpin, hB, hT]
    simp only [if_true]
    obtain ⟨p, l, hpl⟩ := List.exists_cons_of_ne_nil hne
    have hp : p.Y = c := hy p (by rw [hpl]; exact List.mem_cons_self _ _)
    have hl : ∀ q ∈ l, q.Y = c :=
      fun q hq => hy q (by rw [hpl]; exact List.mem_cons_of_mem _ hq)
    rw [hpl, List.foldl_cons, foldl_stepBoundsY_const c l p _ hp hl]
    exact stepBoundsY_const_degenerate p (hp ▸ hc) B T hBT
  rw [renderChartParams_of_degenerate cp hd]
  simp [invalidGraphParams, ChartParams.zero]

theorem C3_constant_y_is_invalid_without_vertical_padding_witness :
    (renderChartParams { levelChart with ChartPadding := Padding.zero }).params.invalid = true ∧
    (renderChartParams { levelChart with ChartPadding := Padding.zero }).params.Points = [] := by
  have h := C3_constant_y_is_invalid_without_vertical_padding
    { levelChart with ChartPadding := Padding.zero } (F64.fin 5)
    (by
      have := F64.maxFloat64_pos
      constructor <;> norm_num [F64.maxFloat64])
    (by simp [levelChart])
    (by simp [levelChart])
    (by simp [levelChart, ChartParams.zero, F64.eq])
    0 0 rfl rfl (by norm_num)
  exact ⟨h.1, h.2.2.2.2.2⟩

/-- C5: `calcBounds` takes the X bounds from the data only when `MinX` and `MaxX` are both
zero on entry; the result is then `MinX = (smallest point x) - ChartPadding.Left` and
`MaxX = (largest point x) + ChartPadding.Right`.  When the caller pinned them (not both
zero) the result is the caller's `MinX - ChartPadding.Left` and
`MaxX + ChartPadding.Right`, whatever the points are.  The Y bounds follow the same rule
with `Bottom` and `Top`, whether or not X was pinned. -/
theorem C5_calcBounds_rule (cp : ChartParams) :
    ((F64.eq cp.MinX (F64.fin 0) && F64.eq cp.MaxX (F64.fin 0)) = true →
      (∀ m, IsSmallest (cp.Points.map Point.X) m → F64.Valid (F64.fin m) →
        cp.calcBounds.MinX = F64.sub (F64.fin m) cp.ChartPadding.Left) ∧
      (∀ m, IsLargest (cp.Points.map Point.X) m → F64.Valid (F64.fin m) →
        cp.calcBounds.MaxX = F64.add (F64.fin m) cp.ChartPadding.Right)) ∧
    ((F64.eq cp.MinX (F64.fin 0) && F64.eq cp.MaxX (F64.fin 0)) = false →
      cp.calcBounds.MinX = F64.sub cp.MinX cp.ChartPadding.Left ∧
      cp.calcBounds.MaxX = F64.add cp.MaxX cp.ChartPadding.Right) ∧
    ((F64.eq cp.MinY (F64.fin 0) && F64.eq cp.MaxY (F64.fin 0)) = true →
      (∀ m, IsSmallest (cp.Points.map Point.Y) m → F64.Valid (F64.fin m) →
        cp.calcBounds.MinY = F64.sub (F64.fin m) cp.ChartPadding.Bottom) ∧
      (∀ m, IsLargest (cp.Points.map Point.Y) m → F64.Valid (F64.fin m) →
        cp.calcBounds.MaxY = F64.add (F64.fin m) cp.ChartPadding.Top)) ∧
    ((F64.eq cp.MinY (F64.fin 0) && F64.eq cp.MaxY (F64.fin 0)) = false →
      cp.calcBounds.MinY = F64.sub cp.MinY cp.ChartPadding.Bottom ∧
      cp.calcBounds.MaxY = F64.add cp.MaxY cp.ChartPadding.Top) := by
  rw [calcBounds_MinX, calcBounds_MaxX, calcBounds_MinY, calcBounds_MaxY, foldl_stepBoundsX,
    foldl_stepBoundsY]
  refine ⟨?_, ?_, ?_, ?_⟩
  · intro h
    simp only [h, if_true]
    exact ⟨fun m hm hv => by rw [runMin_eq_smallest m _ _ hv.2 hm],
      fun m hm hv => by rw [runMax_eq_largest m _ _ hv.1 hm]⟩
  · intro h
    simp only [h, Bool.false_eq_true, if_false, and_self]
  · intro h
    simp only [h, if_true]
    exact ⟨fun m hm hv => by rw [runMin_eq_smallest m _ _ hv.2 hm],
      fun m hm hv => by rw [runMax_eq_largest m _ _ hv.1 hm]⟩
  · intro h
    simp only [h, Bool.false_eq_true, if_false, and_self]

theorem C5_calcBounds_rule_witness :
    slopeChart.calcBounds.MinX = F64.sub (F64.fin 0) (F64.fin 20) ∧
    slopeChart.calcBounds.MaxX = F64.add (F64.fin 1000) (F64.fin 20) ∧
    slopeChart.calcBounds.MinY = F64.sub (F64.fin 100) (F64.fin 5) ∧
    slopeChart.calcBounds.MaxY = F64.add (F64.fin 200) (F64.fin 10) ∧
    pinnedChart.calcBounds.MinX = F64.sub (F64.fin 100) (F64.fin 20) ∧
    pinnedChart.calcBounds.MaxX = F64.add (F64.fin 900) (F64.fin 20) ∧
    pinnedChart.calcBounds.MinY = F64.sub (F64.fin 100) (F64.fin 5) ∧
    pinnedChart.calcBounds.MaxY = F64.add (F64.fin 200) (F64.fin 10) := by
  obtain ⟨h1, h2, h3, h4⟩ := slopeChart_ranges
  obtain ⟨sx, _, sy, _⟩ := C5_calcBounds_rule slopeChart
  obtain ⟨_, px, py, _⟩ := C5_calcBounds_rule pinnedChart
  have v0 := F64.valid_of_abs_le_1000 0 (by norm_num) (by norm_num)
  have v1 := F64.valid_of_abs_le_1000 1000 (by norm_num) (by norm_num)
  have v2 := F64.valid_of_abs_le_1000 100 (by norm_num) (by norm_num)
  have v3 := F64.valid_of_abs_le_1000 200 (by norm_num) (by norm_num)
  have unpinned : (F64.eq (F64.fin 0) (F64.fin 0) && F64.eq (F64.fin 0) (F64.fin 0)) = true := by
    simp [F64.eq]
  have pinned : (F64.eq (F64.fin 100) (F64.fin 0) && F64.eq (F64.fin 900) (F64.fin 0)) = false := by
    norm_num [F64.eq]
  exact ⟨(sx unpinned).1 0 h1 v0, (sx unpinned).2 1000 h2 v1, (sy unpinned).1 100 h3 v2,
    (sy unpinned).2 200 h4 v3, (px pinned).1, (px pinned).2, (py unpinned).1 100 h3 v2,
    (py unpinned).2 200 h4 v3⟩

/-- C7: each of the four axis scalers (`prepareLengthAxis`, `prepareElevationAxis`,
`prepareSpeedAxis`, `prepareSteepnesAxis`) leaves `axis.Grid` as it is when it is not
zero on entry and leaves `axis.Labels` as it is when it is not zero on entry, for every
data range and unit system; the two fields are decided one by one (a field that is zero
takes the value the scaler picks for an unset axis, whatever the other field holds), and
`Show` and `FontSize` are not modified. -/
theorem C7_scalers_keep_pinned_grid_and_labels (axis : Axis)
    (length minEle maxEle minSpeed maxSpeed max : F64) (unitType : UnitType) :
    KeepsPinned axis (prepareLengthAxis axis length unitType)
      (prepareLengthAxis Axis.zero length unitType) ∧
    KeepsPinned axis (prepareElevationAxis axis minEle maxEle unitType)
      (prepareElevationAxis Axis.zero minEle maxEle unitType) ∧
    KeepsPinned axis (prepareSpeedAxis axis minSpeed maxSpeed unitType)
      (prepareSpeedAxis Axis.zero minSpeed maxSpeed unitType) ∧
    KeepsPinned axis (prepareSteepnesAxis axis max) (prepareSteepnesAxis Axis.zero max) :=
  ⟨assignGridLabels_keepsPinned axis _ _, assignGridLabels_keepsPinned axis _ _,
    assignGridLabels_keepsPinned axis _ _, assignGridLabels_keepsPinned axis _ _⟩

theorem C7_scalers_keep_pinned_grid_and_labels_witness :
    (prepareLengthAxis testXAxis (F64.fin 5000) UnitTypeMetric).Grid = F64.fin 500 ∧
    (prepareLengthAxis testXAxis (F64.fin 5000) UnitTypeMetric).Labels = F64.fin 1000 ∧
    (prepareElevationAxis { testYAxis with Grid := F64.fin 0 } (F64.fin 100) (F64.fin 300)
      UnitTypeMetric).Grid = F64.fin 50 ∧
    (prepareElevationAxis { testYAxis with Grid := F64.fin 0 } (F64.fin 100) (F64.fin 300)
      UnitTypeMetric).Labels = F64.fin 50 := by
  have hx := (C7_scalers_keep_pinned_grid_and_labels testXAxis (F64.fin 5000) (F64.fin 0)
    (F64.fin 0) (F64.fin 0) (F64.fin 0) (F64.fin 0) UnitTypeMetric).1
  have hy := (C7_scalers_keep_pinned_grid_and_labels { testYAxis with Grid := F64.fin 0 }
    (F64.fin 0) (F64.fin 100) (F64.fin 300) (F64.fin 0) (F64.fin 0) (F64.fin 0)
    UnitTypeMetric).2.1
  refine ⟨hx.1 (by norm_num [testXAxis, F64.eq]), hx.2.1 (by norm_num [testXAxis, F64.eq]),
    ?_, hy.2.1 (by norm_num [testYAxis, F64.eq])⟩
  rw [hy.2.2.1 (by norm_num [F64.eq])]
  norm_num [prepareElevationAxis, elevationBands, assignGridLabels, Axis.zero, F64.eq,
    F64.sub, F64.add, F64.neg, F64.le, F64.lt, metric_ne_imperial, metric_ne_nautical]

/-- C8, counterexample: with the axes of the test's parameters, which carry the caller's
formatters `FormatAltitude(f, UnitTypeMetric)` on X and `FormatLength(f, UnitTypeMetric)`
on Y, the length scaler leaves the X axis with the length formatter and the elevation
scaler leaves the Y axis with the altitude formatter: the caller's formatters are gone. -/
theorem C8_counterexample_test_formatters_replaced :
    testXAxis.Formatter = some (Formatter.altitude UnitTypeMetric) ∧
    (prepareLengthAxis testXAxis (F64.fin 5000) UnitTypeMetric).Formatter
      = some (Formatter.length UnitTypeMetric) ∧
    (prepareLengthAxis testXAxis (F64.fin 5000) UnitTypeMetric).Formatter
      ≠ testXAxis.Formatter ∧
    testYAxis.Formatter = some (Formatter.length UnitTypeMetric) ∧
    (prepareElevationAxis testYAxis (F64.fin 100) (F64.fin 300) UnitTypeMetric).Formatter
      = some (Formatter.altitude UnitTypeMetric) ∧
    (prepareElevationAxis testYAxis (F64.fin 100) (F64.fin 300) UnitTypeMetric).Formatter
      ≠ testYAxis.Formatter := by
  simp [prepareLengthAxis, prepareElevationAxis, assignGridLabels_Formatter, testXAxis,
    testYAxis]

/-- C8, amended: each of the four axis scalers installs the formatter of its role
(length, altitude, speed, degree) on every call, whether or not the axis had a formatter
on entry; a formatter supplied by the caller is replaced. -/
theorem C8_scalers_always_install_role_formatter (axis : Axis)
    (length minEle maxEle minSpeed maxSpeed max : F64) (unitType : UnitType) :
    (prepareLengthAxis axis length unitType).Formatter = some (Formatter.length unitType) ∧
    (prepareElevationAxis axis minEle maxEle unitType).Formatter
      = some (Formatter.altitude unitType) ∧
    (prepareSpeedAxis axis minSpeed maxSpeed unitType).Formatter
      = some (Formatter.speed unitType) ∧
    (prepareSteepnesAxis axis max).Formatter = some Formatter.steepness ∧
    (∀ tag, (prepareLengthAxis axis length unitType).Formatter
      ≠ some (Formatter.caller tag)) ∧
    (∀ tag, (prepareElevationAxis axis minEle maxEle unitType).Formatter
      ≠ some (Formatter.caller tag)) ∧
    (∀ tag, (prepareSpeedAxis axis minSpeed maxSpeed unitType).Formatter
      ≠ some (Formatter.caller tag)) ∧
    (∀ tag, (prepareSteepnesAxis axis max).Formatter ≠ some (Formatter.caller tag)) := by
  simp [prepareLengthAxis, prepareElevationAxis, prepareSpeedAxis, prepareSteepnesAxis,
    assignGridLabels_Formatter]

/-- C9: for the metric (or unset) unit system and an axis whose `Grid` and `Labels` are
both zero, `prepareLengthAxis` selects grid and labels from the total length `L` in
metres by the first matching band of the table `L <= 1000 -> 100/100`, `<= 4000 ->
500/500`, `<= 10000 -> 500/1000`, `<= 20000 -> 1000/2000`, `<= 50000 -> 1000/2000`,
`<= 100000 -> 2500/5000`, `<= 200000 -> 5000/10000`, `<= 400000 -> 5000/25000`, otherwise
`50000/100000`; a threshold belongs to the lower band. -/
theorem C9_metric_length_bands (axis : Axis) (L : F64) (unitType : UnitType)
    (hunit : unitType = UnitTypeMetric ∨ unitType = "")
    (hg : F64.eq axis.Grid (F64.fin 0) = true) (hl : F64.eq axis.Labels (F64.fin 0) = true) :
    (prepareLengthAxis axis L unitType).Grid
      = F64.fin (firstBand metricLengthTable (50000, 100000) L).1 ∧
    (prepareLengthAxis axis L unitType).Labels
      = F64.fin (firstBand metricLengthTable (50000, 100000) L).2 := by
  have hi : unitType ≠ UnitTypeImperial := by
    rcases hunit with h | h <;> rw [h] <;> decide
  have hn : unitType ≠ UnitTypeNautical := by
    rcases hunit with h | h <;> rw [h] <;> decide
  have hb : lengthBands L unitType
      = (F64.fin (firstBand metricLengthTable (50000, 100000) L).1,
         F64.fin (firstBand metricLengthTable (50000, 100000) L).2) := by
    simp only [lengthBands, hi, hn, if_false, firstBand, metricLengthTable, List.find?]
    by_cases h1 : F64.le L (F64.fin 1000) = true
    · simp [h1]
    by_cases h2 : F64.le L (F64.fin 4000) = true
    · simp [h1, h2]
    by_cases h3 : F64.le L (F64.fin 10000) = true
    · simp [h1, h2, h3]
    by_cases h4 : F64.le L (F64.fin 20000) = true
    · simp [h1, h2, h3, h4]
    by_cases h5 : F64.le L (F64.fin 50000) = true
    · simp [h1, h2, h3, h4, h5]
    by_cases h6 : F64.le L (F64.fin 100000) = true
    · simp [h1, h2, h3, h4, h5, h6]
    by_cases h7 : F64.le L (F64.fin 200000) = true
    · simp [h1, h2, h3, h4, h5, h6, h7]
    by_cases h8 : F64.le L (F64.fin 400000) = true
    · simp [h1, h2, h3, h4, h5, h6, h7, h8]
    simp [h1, h2, h3, h4, h5, h6, h7, h8]
  have h := prepareLengthAxis_unset axis L unitType hg hl
  rw [hb] at h
  exact h

theorem C9_metric_length_bands_witness :
    (prepareLengthAxis Axis.zero (F64.fin 999) UnitTypeMetric).Grid = F64.fin 100 ∧
    (prepareLengthAxis Axis.zero (F64.fin 1000) UnitTypeMetric).Grid = F64.fin 100 ∧
    (prepareLengthAxis Axis.zero (F64.fin 1001) UnitTypeMetric).Grid = F64.fin 500 ∧
    (prepareLengthAxis Axis.zero (F64.fin 4001) "").Grid = F64.fin 500 ∧
    (prepareLengthAxis Axis.zero (F64.fin 4001) "").Labels = F64.fin 1000 ∧
    (prepareLengthAxis Axis.zero (F64.fin 400001) UnitTypeMetric).Labels = F64.fin 100000 := by
  have z := F64.eq_zero_zero
  have h1 := C9_metric_length_bands Axis.zero (F64.fin 999) UnitTypeMetric (Or.inl rfl) z z
  have h2 := C9_metric_length_bands Axis.zero (F64.fin 1000) UnitTypeMetric (Or.inl rfl) z z
  have h3 := C9_metric_length_bands Axis.zero (F64.fin 1001) UnitTypeMetric (Or.inl rfl) z z
  have h4 := C9_metric_length_bands Axis.zero (F64.fin 4001) "" (Or.inr rfl) z z
  have h5 := C9_metric_length_bands Axis.zero (F64.fin 400001) UnitTypeMetric (Or.inl rfl) z z
  rw [h1.1, h2.1, h3.1, h4.1, h4.2, h5.2]
  norm_num [firstBand, metricLengthTable, List.find?, F64.le, F64.lt, F64.eq]

/-- C10, the code at the failing input: for a length of 22 miles under the imperial
system `prepareLengthAxis` selects grid 5 and labels 2.5 miles (band `<= 50` miles),
while for 22 nautical miles under the nautical system it selects grid 2 and labels 1
nautical mile: the nautical band that should end at 20 ends at 25
(`ONE_NAUTICAL_MILE*25`). -/
theorem C10_nautical_band_ends_at_25 :
    (prepareLengthAxis Axis.zero (F64.fin (22 * ONE_MILE)) UnitTypeImperial).Grid
      = F64.fin (5 * ONE_MILE) ∧
    (prepareLengthAxis Axis.zero (F64.fin (22 * ONE_MILE)) UnitTypeImperial).Labels
      = F64.fin (25 / 10 * ONE_MILE) ∧
    (prepareLengthAxis Axis.zero (F64.fin (22 * ONE_NAUTICAL_MILE)) UnitTypeNautical).Grid
      = F64.fin (2 * ONE_NAUTICAL_MILE) ∧
    (prepareLengthAxis Axis.zero (F64.fin (22 * ONE_NAUTICAL_MILE)) UnitTypeNautical).Labels
      = F64.fin (1 * ONE_NAUTICAL_MILE) ∧
    (5 : ℚ) ≠ 2 ∧ (25 / 10 : ℚ) ≠ 1 := by
  have z := F64.eq_zero_zero
  have hi := prepareLengthAxis_unset Axis.zero (F64.fin (22 * ONE_MILE)) UnitTypeImperial z z
  have hn := prepareLengthAxis_unset Axis.zero (F64.fin (22 * ONE_NAUTICAL_MILE))
    UnitTypeNautical z z
  have bi : lengthBands (F64.fin (22 * ONE_MILE)) UnitTypeImperial
      = (F64.fin (5 * ONE_MILE), F64.fin (25 / 10 * ONE_MILE)) := by
    norm_num [lengthBands, F64.le, F64.lt, F64.eq, ONE_MILE]
  have bn : lengthBands (F64.fin (22 * ONE_NAUTICAL_MILE)) UnitTypeNautical
      = (F64.fin (2 * ONE_NAUTICAL_MILE), F64.fin (1 * ONE_NAUTICAL_MILE)) := by
    norm_num [lengthBands, F64.le, F64.lt, F64.eq, ONE_NAUTICAL_MILE,
      imperial_ne_nautical.symm]
  rw [bi] at hi
  rw [bn] at hn
  exact ⟨hi.1, hi.2, hn.1, hn.2, by norm_num, by norm_num⟩

/-! ## Lemmas on the speed table -/

theorem F64.le_fin_fin_decide (a b : ℚ) :
    F64.le (F64.fin a) (F64.fin b) = decide (a ≤ b) := by
  by_cases h : a ≤ b
  · simp [h, (F64.le_fin_fin a b).mpr h]
  · have : F64.le (F64.fin a) (F64.fin b) ≠ true := fun h2 => h ((F64.le_fin_fin a b).mp h2)
    simp [h, this]

theorem speedIncrement_pos (unitType : UnitType) : 0 < speedIncrement unitType := by
  unfold speedIncrement
  split_ifs <;> norm_num [SPEED_KNOT, SPEED_MPH, SPEED_KMH]

/-- The `switch` of `prepareSpeedAxis` is first-match selection over the 5-band table in
the increment of the unit system. -/
theorem speedBands_eq_firstBand (maxSpeed : F64) (unitType : UnitType) :
    speedBands maxSpeed unitType
      = (F64.fin (firstBand (speedTable (speedIncrement unitType))
            (25 * speedIncrement unitType, 50 * speedIncrement unitType) maxSpeed).1,
         F64.fin (firstBand (speedTable (speedIncrement unitType))
            (25 * speedIncrement unitType, 50 * speedIncrement unitType) maxSpeed).2) := by
  have key : ∀ u : ℚ,
      (if F64.le maxSpeed (F64.fin (10 * u)) then (F64.fin (1 * u), F64.fin (2 * u))
        else if F64.le maxSpeed (F64.fin (25 * u)) then (F64.fin (25 / 10 * u), F64.fin (5 * u))
        else if F64.le maxSpeed (F64.fin (50 * u)) then (F64.fin (5 * u), F64.fin (10 * u))
        else if F64.le maxSpeed (F64.fin (100 * u)) then (F64.fin (10 * u), F64.fin (20 * u))
        else (F64.fin (25 * u), F64.fin (50 * u)))
      = (F64.fin (firstBand (speedTable u) (25 * u, 50 * u) maxSpeed).1,
         F64.fin (firstBand (speedTable u) (25 * u, 50 * u) maxSpeed).2) := by
    intro u
    simp only [firstBand, speedTable, List.find?]
    by_cases h1 : F64.le maxSpeed (F64.fin (10 * u)) = true
    · simp [h1]
    by_cases h2 : F64.le maxSpeed (F64.fin (25 * u)) = true
    · simp [h1, h2]
    by_cases h3 : F64.le maxSpeed (F64.fin (50 * u)) = true
    · simp [h1, h2, h3]
    by_cases h4 : F64.le maxSpeed (F64.fin (100 * u)) = true
    · simp [h1, h2, h3, h4]
    simp [h1, h2, h3, h4]
  unfold speedBands speedIncrement
  by_cases hn : unitType = UnitTypeNautical
  · simp only [hn, if_true]
    rw [← key SPEED_KNOT]
    simp only [mul_comm SPEED_KNOT]
  · by_cases hi : unitType = UnitTypeImperial
    · simp only [hi, imperial_ne_nautical, if_true, if_false]
      rw [← key SPEED_MPH]
      simp only [mul_comm SPEED_MPH]
    · simp only [hn, hi, if_false]
      rw [← key SPEED_KMH]

/-- The selection for a speed of `k` increments is the selection of the table in the
increment 1 for `k`, times the increment. -/
theorem firstBand_speedTable_scale (u k : ℚ) (hu : 0 < u) :
    firstBand (speedTable u) (25 * u, 50 * u) (F64.fin (k * u))
      = ((firstBand (speedTable 1) (25, 50) (F64.fin k)).1 * u,
         (firstBand (speedTable 1) (25, 50) (F64.fin k)).2 * u) := by
  have e : ∀ c : ℚ, (k * u ≤ c * u) ↔ (k ≤ c) := fun c => mul_le_mul_right hu
  simp only [firstBand, speedTable, List.find?, F64.le_fin_fin_decide, e, mul_one]
  by_cases h1 : k ≤ 10
  · simp [h1]
  by_cases h2 : k ≤ 25
  · simp [h1, h2]
  by_cases h3 : k ≤ 50
  · simp [h1, h2, h3]
  by_cases h4 : k ≤ 100
  · simp [h1, h2, h3, h4]
  simp [h1, h2, h3, h4]

/-- In every band of the speed table the labels spacing is twice the grid spacing. -/
theorem firstBand_speedTable_labels (u : ℚ) (maxSpeed : F64) :
    (firstBand (speedTable u) (25 * u, 50 * u) maxSpeed).2
      = 2 * (firstBand (speedTable u) (25 * u, 50 * u) maxSpeed).1 := by
  simp only [firstBand, speedTable, List.find?]
  by_cases h1 : F64.le maxSpeed (F64.fin (10 * u)) = true
  · simp [h1]
  by_cases h2 : F64.le maxSpeed (F64.fin (25 * u)) = true
  · simp [h1, h2]; ring
  by_cases h3 : F64.le maxSpeed (F64.fin (50 * u)) = true
  · simp [h1, h2, h3]; ring
  by_cases h4 : F64.le maxSpeed (F64.fin (100 * u)) = true
  · simp [h1, h2, h3, h4]; ring
  simp [h1, h2, h3, h4]; ring
/-- On an axis without grid and labels `prepareSpeedAxis` assigns the pair of its
`switch`. -/
theorem prepareSpeedAxis_unset (axis : Axis) (minSpeed maxSpeed : F64) (unitType : UnitType)
    (hg : F64.eq axis.Grid (F64.fin 0) = true) (hl : F64.eq axis.Labels (F64.fin 0) = true) :
    (prepareSpeedAxis axis minSpeed maxSpeed unitType).Grid = (speedBands maxSpeed unitType).1 ∧
    (prepareSpeedAxis axis minSpeed maxSpeed unitType).Labels
      = (speedBands maxSpeed unitType).2 :=
  assignGridLabels_unset _ _ hg hl

/-- C11: on an unset axis `prepareSpeedAxis` uses the same 5-band table in every unit
system, in the increment `u` of the system (km/h for metric or unset, mph for imperial,
knot for nautical): max speed `<= 10u -> 1u/2u`, `<= 25u -> 2.5u/5u`, `<= 50u -> 5u/10u`,
`<= 100u -> 10u/20u`, otherwise `25u/50u`.  Hence labels are twice the grid in every band,
the selection for a max speed of `k` increments is the same multiple of the increment in
the three systems, and the result does not depend on the minimum speed. -/
theorem C11_speed_bands_in_unit_increments (axis : Axis) (minSpeed maxSpeed : F64)
    (unitType : UnitType)
    (hg : F64.eq axis.Grid (F64.fin 0) = true) (hl : F64.eq axis.Labels (F64.fin 0) = true) :
    (prepareSpeedAxis axis minSpeed maxSpeed unitType).Grid
      = F64.fin (firstBand (speedTable (speedIncrement unitType))
          (25 * speedIncrement unitType, 50 * speedIncrement unitType) maxSpeed).1 ∧
    (prepareSpeedAxis axis minSpeed maxSpeed unitType).Labels
      = F64.fin (firstBand (speedTable (speedIncrement unitType))
          (25 * speedIncrement unitType, 50 * speedIncrement unitType) maxSpeed).2 ∧
    (∃ g : ℚ, (prepareSpeedAxis axis minSpeed maxSpeed unitType).Grid = F64.fin g ∧
      (prepareSpeedAxis axis minSpeed maxSpeed unitType).Labels = F64.fin (2 * g)) ∧
    (∀ k : ℚ,
      (prepareSpeedAxis axis minSpeed (F64.fin (k * speedIncrement unitType)) unitType).Grid
        = F64.fin ((firstBand (speedTable 1) (25, 50) (F64.fin k)).1
            * speedIncrement unitType) ∧
      (prepareSpeedAxis axis minSpeed (F64.fin (k * speedIncrement unitType)) unitType).Labels
        = F64.fin ((firstBand (speedTable 1) (25, 50) (F64.fin k)).2
            * speedIncrement unitType)) ∧
    (∀ otherMin : F64,
      prepareSpeedAxis axis otherMin maxSpeed unitType
        = prepareSpeedAxis axis minSpeed maxSpeed unitType) := by
  have h := prepareSpeedAxis_unset axis minSpeed maxSpeed unitType hg hl
  rw [speedBands_eq_firstBand] at h
  refine ⟨h.1, h.2, ⟨_, h.1, ?_⟩, ?_, fun _ => rfl⟩
  · rw [h.2, firstBand_speedTable_labels]
  · intro k
    have hk := prepareSpeedAxis_unset axis minSpeed (F64.fin (k * speedIncrement unitType))
      unitType hg hl
    rw [speedBands_eq_firstBand,
      firstBand_speedTable_scale _ k (speedIncrement_pos unitType)] at hk
    exact hk

theorem C11_speed_bands_in_unit_increments_witness :
    (prepareSpeedAxis Axis.zero (F64.fin 0) (F64.fin (10 * SPEED_KMH)) UnitTypeMetric).Grid
      = F64.fin (1 * SPEED_KMH) ∧
    (prepareSpeedAxis Axis.zero (F64.fin 0) (F64.fin (30 * SPEED_KMH)) "").Labels
      = F64.fin (10 * SPEED_KMH) ∧
    (prepareSpeedAxis Axis.zero (F64.fin 0) (F64.fin (30 * SPEED_MPH)) UnitTypeImperial).Labels
      = F64.fin (10 * SPEED_MPH) ∧
    (prepareSpeedAxis Axis.zero (F64.fin 0) (F64.fin (30 * SPEED_KNOT)) UnitTypeNautical).Labels
      = F64.fin (10 * SPEED_KNOT) := by
  have z := F64.eq_zero_zero
  have hm := (C11_speed_bands_in_unit_increments Axis.zero (F64.fin 0) (F64.fin 0)
    UnitTypeMetric z z).2.2.2.1 10
  have hu := (C11_speed_bands_in_unit_increments Axis.zero (F64.fin 0) (F64.fin 0)
    "" z z).2.2.2.1 30
  have hi := (C11_speed_bands_in_unit_increments Axis.zero (F64.fin 0) (F64.fin 0)
    UnitTypeImperial z z).2.2.2.1 30
  have hn := (C11_speed_bands_in_unit_increments Axis.zero (F64.fin 0) (F64.fin 0)
    UnitTypeNautical z z).2.2.2.1 30
  have em : speedIncrement UnitTypeMetric = SPEED_KMH := by
    simp [speedIncrement, metric_ne_imperial, metric_ne_nautical]
  have eu : speedIncrement "" = SPEED_KMH := by
    have h1 : ("" : UnitType) ≠ UnitTypeNautical := by decide
    have h2 : ("" : UnitType) ≠ UnitTypeImperial := by decide
    simp [speedIncrement, h1, h2]
  have ei : speedIncrement UnitTypeImperial = SPEED_MPH := by
    simp [speedIncrement, imperial_ne_nautical]
  have en : speedIncrement UnitTypeNautical = SPEED_KNOT := by
    simp [speedIncrement]
  rw [em] at hm
  rw [eu] at hu
  rw [ei] at hi
  rw [en] at hn
  refine ⟨?_, ?_, ?_, ?_⟩
  · rw [hm.1]; norm_num [firstBand, speedTable, List.find?, F64.le, F64.lt, F64.eq]
  · rw [hu.2]; norm_num [firstBand, speedTable, List.find?, F64.le, F64.lt, F64.eq]
  · rw [hi.2]; norm_num [firstBand, speedTable, List.find?, F64.le, F64.lt, F64.eq]
  · rw [hn.2]; norm_num [firstBand, speedTable, List.find?, F64.le, F64.lt, F64.eq]

/-! ## Lemmas on the samplers -/

theorem F64.add_swap (a b : F64) : F64.add a b = F64.add b a := by
  cases a <;> cases b <;> simp [F64.add, add_comm]

theorem distanceUpTo_succ (lib : GpxLib) (points : List Gpx.GPXPoint) (d0 : F64) (i : Nat) :
    distanceUpTo lib points d0 (i + 1)
      = F64.add (distanceUpTo lib points d0 i)
          (lib.Distance2D (Gpx.index points (i + 1)) (Gpx.index points i)) := by
  simp [distanceUpTo, List.range_succ, List.foldl_append]

/-- The distance that `speedStep` leaves in `d`. -/
theorem speedStep_d (lib : GpxLib) (points : List Gpx.GPXPoint) (st : SpeedState) (n : Nat) :
    (speedStep lib points st n).d
      = if 0 < n then
          F64.add st.d (lib.Distance2D (Gpx.index points n) (Gpx.index points (n - 1)))
        else st.d := by
  unfold speedStep
  by_cases h0 : 0 < n
  · simp only [h0, if_true, true_and]
    split_ifs <;> rfl
  · simp only [h0, if_false, false_and]

/-- The points that `speedStep` leaves in `points`. -/
theorem speedStep_points (lib : GpxLib) (points : List Gpx.GPXPoint) (st : SpeedState)
    (n : Nat) :
    (speedStep lib points st n).points
      = st.points ++
          (if hasSpeed points n then
            [{ X := F64.add st.d
                      (lib.Distance2D (Gpx.index points n) (Gpx.index points (n - 1))),
               Y := speedAt lib points n }]
          else []) := by
  unfold speedStep hasSpeed speedAt
  by_cases h0 : 0 < n
  · by_cases h1 : n + 1 < points.length
    · by_cases h2 : (Gpx.index points (n - 1)).Timestamp.IsZero = false
      · by_cases h3 : (Gpx.index points n).Timestamp.IsZero = false
        · by_cases h4 : (Gpx.index points (n + 1)).Timestamp.IsZero = false
          · simp [h0, h1, h2, h3, h4, F64.add_swap]
          · simp [h0, h1, h2, h3, h4]
        · simp [h0, h1, h2, h3]
      · simp [h0, h1, h2]
    · simp [h0, h1]
  · simp [h0]

/-- The innermost loop of `SpeedChart` over the first `n` indices of a segment. -/
theorem speedStep_foldl (lib : GpxLib) (points : List Gpx.GPXPoint) (st : SpeedState)
    (n : Nat) :
    ((List.range n).foldl (speedStep lib points) st).d
        = distanceUpTo lib points st.d (n - 1) ∧
    ((List.range n).foldl (speedStep lib points) st).points
        = st.points ++ (List.range n).filterMap
            (fun i =>
              if hasSpeed points i then
                some { X := distanceUpTo lib points st.d i, Y := speedAt lib points i }
              else none) := by
  induction n with
  | zero => simp [distanceUpTo]
  | succ n ih =>
    obtain ⟨ihd, ihp⟩ := ih
    rw [List.range_succ, List.foldl_append, List.filterMap_append]
    simp only [List.foldl_cons, List.foldl_nil, List.filterMap_cons, List.filterMap_nil,
      Nat.add_sub_cancel]
    constructor
    · rw [speedStep_d, ihd]
      cases n with
      | zero => simp [distanceUpTo]
      | succ m => simp [distanceUpTo_succ]
    · rw [speedStep_points, ihp, ihd, List.append_assoc]
      congr 1
      by_cases hs : hasSpeed points n
      · have hn : 0 < n := hs.1
        obtain ⟨m, rfl⟩ : ∃ m, n = m + 1 := ⟨n - 1, by omega⟩
        simp [hs, distanceUpTo_succ]
      · simp [hs]
/-- The loops of a sampler over tracks and segments are one loop over all segments. -/
theorem foldl_tracks_segments {σ : Type} (f : σ → Gpx.GPXTrackSegment → σ) (g : Gpx.GPX)
    (st : σ) :
    g.Tracks.foldl (fun st track => track.Segments.foldl f st) st
      = (allSegments g).foldl f st := by
  unfold allSegments
  rw [List.foldl_flatten, List.foldl_map]

/-- The loops of `SpeedChart` over a sequence of segments. -/
theorem speedSegments_points (lib : GpxLib) (segments : List Gpx.GPXTrackSegment)
    (st : SpeedState) :
    (segments.foldl
        (fun st segment =>
          (List.range segment.Points.length).foldl (speedStep lib segment.Points) st) st).points
      = st.points ++ speedPointsOfSegments lib segments st.d := by
  induction segments generalizing st with
  | nil => simp [speedPointsOfSegments]
  | cons segment rest ih =>
    rw [List.foldl_cons, ih]
    obtain ⟨hd, hp⟩ := speedStep_foldl lib segment.Points st segment.Points.length
    rw [hd, hp, List.append_assoc]
    rfl

theorem speedSample_points (lib : GpxLib) (g : Gpx.GPX) :
    (speedSample lib g).points = speedPointsOfSegments lib (allSegments g) (F64.fin 0) := by
  unfold speedSample
  rw [foldl_tracks_segments, speedSegments_points]
  rfl

/-- In exact arithmetic `Duration.Seconds` is the number of nanoseconds over `10^9`. -/
theorem Duration.Seconds_eq (d : Duration) : d.Seconds = F64.fin ((d.ns : ℚ) / 10 ^ 9) := by
  have h := Int.tdiv_add_tmod d.ns (10 ^ 9)
  have hq : ((10 ^ 9 * Int.tdiv d.ns (10 ^ 9) + Int.tmod d.ns (10 ^ 9) : ℤ) : ℚ) = (d.ns : ℚ) := by
    rw [h]
  push_cast at hq
  simp only [Duration.Seconds, F64.ofInt, F64.add, F64.div]
  rw [if_neg (by norm_num), ← hq]
  show F64.fin _ = F64.fin _
  congr 1
  norm_num
  ring

/-- The difference of two timestamps that fits a `Duration`, in seconds. -/
theorem Time.Sub_Seconds (t u : Time) (h1 : -2 ^ 63 ≤ t.ns - u.ns)
    (h2 : t.ns - u.ns ≤ 2 ^ 63 - 1) :
    (t.Sub u).Seconds = F64.fin (((t.ns : ℚ) - u.ns) / 10 ^ 9) := by
  rw [Duration.Seconds_eq]
  unfold Time.Sub
  rw [if_neg (by omega), if_neg (by omega)]
  push_cast
  rfl
theorem steepnessStep_d (lib : GpxLib) (points : List Gpx.GPXPoint) (st : SteepnessState)
    (n : Nat) :
    (steepnessStep lib points st n).d
      = if 0 < n then
          F64.add st.d (lib.Distance2D (Gpx.index points n) (Gpx.index points (n - 1)))
        else st.d := by
  unfold steepnessStep
  by_cases h0 : 0 < n
  · simp only [gt_iff_lt, h0, if_true]
  · simp only [gt_iff_lt, h0, if_false]

theorem steepnessStep_points (lib : GpxLib) (points : List Gpx.GPXPoint)
    (st : SteepnessState) (n : Nat) :
    (steepnessStep lib points st n).points
      = st.points ++
          [{ X := if 0 < n then
                    F64.add st.d (lib.Distance2D (Gpx.index points n) (Gpx.index points (n - 1)))
                  else st.d,
             Y := angleAt lib points n }] := by
  unfold steepnessStep angleAt
  by_cases h0 : 0 < n
  · by_cases h1 : n + 1 < points.length
    · by_cases h2 : (Gpx.index points (n - 1)).Point.Elevation.NotNull = true
      · by_cases h3 : (Gpx.index points (n + 1)).Point.Elevation.NotNull = true
        · simp [h0, h1, h2, h3]
        · simp [h0, h1, h2, h3]
      · simp [h0, h1, h2]
    · simp [h0, h1]
  · simp [h0]

/-- The innermost loop of `SteepnessChart` over the first `n` indices of a segment. -/
theorem steepnessStep_foldl (lib : GpxLib) (points : List Gpx.GPXPoint) (st : SteepnessState)
    (n : Nat) :
    ((List.range n).foldl (steepnessStep lib points) st).d
        = distanceUpTo lib points st.d (n - 1) ∧
    ((List.range n).foldl (steepnessStep lib points) st).points
        = st.points ++ (List.range n).map
            (fun i => { X := distanceUpTo lib points st.d i, Y := angleAt lib points i }) := by
  induction n with
  | zero => simp [distanceUpTo]
  | succ n ih =>
    obtain ⟨ihd, ihp⟩ := ih
    rw [List.range_succ, List.foldl_append, List.map_append]
    simp only [List.foldl_cons, List.foldl_nil, List.map_cons, List.map_nil,
      Nat.add_sub_cancel]
    constructor
    · rw [steepnessStep_d, ihd]
      cases n with
      | zero => simp [distanceUpTo]
      | succ m => simp [distanceUpTo_succ]
    · rw [steepnessStep_points, ihp, ihd, List.append_assoc]
      congr 2
      cases n with
      | zero => simp [distanceUpTo]
      | succ m => simp [distanceUpTo_succ]

theorem steepnessSegments_points (lib : GpxLib) (segments : List Gpx.GPXTrackSegment)
    (st : SteepnessState) :
    (segments.foldl
        (fun st segment =>
          (List.range segment.Points.length).foldl (steepnessStep lib segment.Points) st)
        st).points
      = st.points ++ steepnessPointsOfSegments lib segments st.d := by
  induction segments generalizing st with
  | nil => simp [steepnessPointsOfSegments]
  | cons segment rest ih =>
    rw [List.foldl_cons, ih]
    obtain ⟨hd, hp⟩ := steepnessStep_foldl lib segment.Points st segment.Points.length
    rw [hd, hp, List.append_assoc]
    rfl

theorem steepnessSample_points (lib : GpxLib) (g : Gpx.GPX) :
    (steepnessSample lib g).points
      = steepnessPointsOfSegments lib (allSegments g) (F64.fin 0) := by
  unfold steepnessSample
  rw [foldl_tracks_segments, steepnessSegments_points]
  rfl

theorem steepnessPointsOfSegments_length (lib : GpxLib) (segments : List Gpx.GPXTrackSegment)
    (d0 : F64) :
    (steepnessPointsOfSegments lib segments d0).length
      = (segments.map (fun segment => segment.Points.length)).sum := by
  induction segments generalizing d0 with
  | nil => rfl
  | cons segment rest ih => simp [steepnessPointsOfSegments, ih]
theorem sumFrom0_foldl (points : List Point) (acc : ℚ)
    (hfin : ∀ p ∈ points, ∃ a : ℚ, p.Y = F64.fin a) :
    points.foldl (fun sum pt => F64.add sum (F64.abs pt.Y)) (F64.fin acc)
      = F64.fin (acc + (points.map (fun p => |F64.toRat p.Y|)).sum) := by
  induction points generalizing acc with
  | nil => simp
  | cons p rest ih =>
    obtain ⟨a, ha⟩ := hfin p (List.mem_cons_self _ _)
    have hrest : ∀ q ∈ rest, ∃ a : ℚ, q.Y = F64.fin a :=
      fun q hq => hfin q (List.mem_cons_of_mem _ hq)
    have h1 : F64.add (F64.fin acc) (F64.abs p.Y) = F64.fin (acc + |a|) := by
      rw [ha]; rfl
    have h2 : |F64.toRat p.Y| = |a| := by
      rw [ha]; rfl
    rw [List.foldl_cons, List.map_cons, List.sum_cons, h1, h2, ih _ hrest, add_assoc]

/-- For finite angles, and at least one point, the value `max` of `SteepnessChart` is the
scale of the specification, and it is not negative. -/
theorem steepnessMax_eq_scale (points : List Point) (hne : points ≠ [])
    (hfin : ∀ p ∈ points, ∃ a : ℚ, p.Y = F64.fin a) :
    steepnessMax points = F64.fin (steepnessScale points) ∧ 0 ≤ steepnessScale points := by
  have hlen : (points.length : ℚ) ≠ 0 := by
    have : points.length ≠ 0 := fun h => hne (List.length_eq_zero.mp h)
    exact_mod_cast this
  have hsum : 0 ≤ (points.map (fun p => |F64.toRat p.Y|)).sum := by
    apply List.sum_nonneg
    intro x hx
    obtain ⟨p, _, rfl⟩ := List.mem_map.mp hx
    exact abs_nonneg _
  constructor
  · unfold steepnessMax sumFrom0 steepnessScale
    rw [sumFrom0_foldl points 0 hfin]
    simp [F64.mul, F64.div, F64.ofInt, hlen]
  · unfold steepnessScale
    positivity

theorem angleAt_finite (lib : GpxLib)
    (hangle : ∀ p q r, ∃ a : ℚ, lib.ElevationAngle p q r = F64.fin a)
    (points : List Gpx.GPXPoint) (i : Nat) : ∃ a : ℚ, angleAt lib points i = F64.fin a := by
  unfold angleAt
  split
  · exact hangle _ _ _
  · exact ⟨0, rfl⟩

theorem steepnessPointsOfSegments_finite (lib : GpxLib)
    (hangle : ∀ p q r, ∃ a : ℚ, lib.ElevationAngle p q r = F64.fin a)
    (segments : List Gpx.GPXTrackSegment) (d0 : F64) :
    ∀ p ∈ steepnessPointsOfSegments lib segments d0, ∃ a : ℚ, p.Y = F64.fin a := by
  induction segments generalizing d0 with
  | nil => intro p hp; cases hp
  | cons segment rest ih =>
    intro p hp
    simp only [steepnessPointsOfSegments, List.mem_append, List.mem_map] at hp
    rcases hp with ⟨i, _, rfl⟩ | hp
    · exact angleAt_finite lib hangle _ _
    · exact ih _ p hp

/-! ## Lemmas on the order of the emitted points -/

theorem F64.le_trans (a b c : F64) (h1 : F64.le a b = true) (h2 : F64.le b c = true) :
    F64.le a c = true := by
  cases a <;> cases b <;> cases c <;>
    simp_all [F64.le, F64.lt, F64.eq]
  rename_i x y z
  rcases h1 with h1 | h1 <;> rcases h2 with h2 | h2
  · exact Or.inl (lt_trans h1 h2)
  · exact Or.inl (h2 ▸ h1)
  · exact Or.inl (h1 ▸ h2)
  · exact Or.inr (h1.trans h2)

theorem F64.le_self_of_nonneg (d : F64) (h : F64.le (F64.fin 0) d = true) :
    F64.le d d = true := by
  cases d <;> simp_all [F64.le, F64.lt, F64.eq]

theorem F64.le_add_of_nonneg (d x : F64) (hd : F64.le (F64.fin 0) d = true)
    (hx : F64.le (F64.fin 0) x = true) :
    F64.le d (F64.add d x) = true ∧ F64.le (F64.fin 0) (F64.add d x) = true := by
  cases d <;> cases x <;> simp_all [F64.le, F64.lt, F64.eq, F64.add]
  rename_i a b
  have ha : 0 ≤ a := by rcases hd with h | h <;> [exact le_of_lt h; exact le_of_eq h]
  have hb : 0 ≤ b := by rcases hx with h | h <;> [exact le_of_lt h; exact le_of_eq h]
  constructor
  · rcases eq_or_lt_of_le hb with h | h
    · right; exact h.symm
    · left; exact h
  · rcases eq_or_lt_of_le (add_nonneg ha hb) with h | h
    · right; exact h
    · left; exact h

theorem sortedUpTo_nil : sortedUpTo [] (F64.fin 0) := by
  refine ⟨List.Pairwise.nil, ?_, ?_⟩
  · intro p hp
    cases hp
  · simp [F64.le, F64.eq]

/-- Adding a non-negative distance to `d` keeps the invariant. -/
theorem sortedUpTo_advance (points : List Point) (d x : F64) (h : sortedUpTo points d)
    (hx : F64.le (F64.fin 0) x = true) : sortedUpTo points (F64.add d x) := by
  obtain ⟨hs, hb, hd⟩ := h
  obtain ⟨h1, h2⟩ := F64.le_add_of_nonneg d x hd hx
  exact ⟨hs, fun p hp => F64.le_trans _ _ _ (hb p hp) h1, h2⟩

/-- Emitting a point at the running distance keeps the invariant. -/
theorem sortedUpTo_emit (points : List Point) (d y : F64) (h : sortedUpTo points d) :
    sortedUpTo (points ++ [{ X := d, Y := y }]) d := by
  obtain ⟨hs, hb, hd⟩ := h
  refine ⟨?_, ?_, hd⟩
  · unfold nonDecreasingX
    rw [List.pairwise_append]
    refine ⟨hs, List.pairwise_singleton _ _, ?_⟩
    intro p hp q hq
    rw [List.mem_singleton] at hq
    rw [hq]
    exact hb p hp
  · intro p hp
    rcases List.mem_append.mp hp with hp | hp
    · exact hb p hp
    · rw [List.mem_singleton] at hp
      rw [hp]
      exact F64.le_self_of_nonneg d hd

/-- The update of `d` at the index `n` of a segment with non-negative distances keeps the
invariant. -/
theorem sortedUpTo_distance (lib : GpxLib) (points : List Gpx.GPXPoint)
    (hseg : ∀ i, i + 1 < points.length →
      F64.le (F64.fin 0)
        (lib.Distance2D (Gpx.index points (i + 1)) (Gpx.index points i)) = true)
    (emitted : List Point) (d : F64) (n : Nat) (hn : n < points.length)
    (h : sortedUpTo emitted d) :
    sortedUpTo emitted
      (if 0 < n then F64.add d (lib.Distance2D (Gpx.index points n) (Gpx.index points (n - 1)))
       else d) := by
  cases n with
  | zero => simpa using h
  | succ m =>
    simp only [Nat.succ_pos, if_true, Nat.add_sub_cancel]
    exact sortedUpTo_advance _ _ _ h (hseg m hn)

theorem elevationStep_d (lib : GpxLib) (points : List Gpx.GPXPoint) (st : ElevationState)
    (n : Nat) :
    (elevationStep lib points st n).d
      = if 0 < n then
          F64.add st.d (lib.Distance2D (Gpx.index points n) (Gpx.index points (n - 1)))
        else st.d := by
  unfold elevationStep
  by_cases h0 : 0 < n
  · simp only [gt_iff_lt, h0, if_true]
    split_ifs <;> rfl
  · simp only [gt_iff_lt, h0, if_false]
    split_ifs <;> rfl

theorem elevationStep_points (lib : GpxLib) (points : List Gpx.GPXPoint)
    (st : ElevationState) (n : Nat) :
    (elevationStep lib points st n).points
      = st.points ++
          [{ X := if 0 < n then
                    F64.add st.d (lib.Distance2D (Gpx.index points n) (Gpx.index points (n - 1)))
                  else st.d,
             Y := (Gpx.index points n).Point.Elevation.Value }] := by
  unfold elevationStep
  by_cases h0 : 0 < n
  · simp only [gt_iff_lt, h0, if_true]
    split_ifs <;> rfl
  · simp only [gt_iff_lt, h0, if_false]
    split_ifs <;> rfl

/-- A loop over the indices of a segment keeps the invariant when its body does. -/
theorem foldl_range_sortedUpTo {σ : Type} (step : σ → Nat → σ) (emitted : σ → List Point)
    (dist : σ → F64) (len : Nat)
    (hstep : ∀ st n, n < len → sortedUpTo (emitted st) (dist st) →
      sortedUpTo (emitted (step st n)) (dist (step st n)))
    (st : σ) (h : sortedUpTo (emitted st) (dist st)) :
    sortedUpTo (emitted ((List.range len).foldl step st))
      (dist ((List.range len).foldl step st)) := by
  have key : ∀ l : List Nat, (∀ n ∈ l, n < len) → ∀ st, sortedUpTo (emitted st) (dist st) →
      sortedUpTo (emitted (l.foldl step st)) (dist (l.foldl step st)) := by
    intro l
    induction l with
    | nil => intro _ st h; exact h
    | cons n l ih =>
      intro hl st h
      rw [List.foldl_cons]
      exact ih (fun m hm => hl m (List.mem_cons_of_mem _ hm)) _
        (hstep st n (hl n (List.mem_cons_self _ _)) h)
  exact key _ (fun n hn => List.mem_range.mp hn) st h

/-- A loop over segments keeps the invariant when the loop over each segment does. -/
theorem foldl_segments_sortedUpTo {σ : Type} (f : σ → Gpx.GPXTrackSegment → σ)
    (emitted : σ → List Point) (dist : σ → F64) (segments : List Gpx.GPXTrackSegment)
    (hseg : ∀ st, ∀ segment ∈ segments, sortedUpTo (emitted st) (dist st) →
      sortedUpTo (emitted (f st segment)) (dist (f st segment)))
    (st : σ) (h : sortedUpTo (emitted st) (dist st)) :
    sortedUpTo (emitted (segments.foldl f st)) (dist (segments.foldl f st)) := by
  induction segments generalizing st with
  | nil => exact h
  | cons segment rest ih =>
    rw [List.foldl_cons]
    exact ih (fun st s hs => hseg st s (List.mem_cons_of_mem _ hs)) _
      (hseg st segment (List.mem_cons_self _ _) h)

theorem speedSample_sorted (lib : GpxLib) (g : Gpx.GPX) (hg : distancesNonNegative lib g) :
    sortedUpTo (speedSample lib g).points (speedSample lib g).d := by
  unfold speedSample
  rw [foldl_tracks_segments]
  refine foldl_segments_sortedUpTo
    (fun st segment =>
      (List.range segment.Points.length).foldl (speedStep lib segment.Points) st)
    (fun st : SpeedState => st.points) (fun st : SpeedState => st.d) (allSegments g) ?_ _ ?_
  · intro st segment hs h
    refine foldl_range_sortedUpTo (speedStep lib segment.Points)
      (fun st : SpeedState => st.points) (fun st : SpeedState => st.d) _ ?_ st h
    intro st n hn h
    have h' := sortedUpTo_distance lib segment.Points (hg segment hs) st.points st.d n hn h
    simp only [speedStep_points, speedStep_d]
    by_cases hsp : hasSpeed segment.Points n
    · have h0 : 0 < n := hsp.1
      rw [if_pos hsp]
      rw [if_pos h0] at h' ⊢
      exact sortedUpTo_emit _ _ _ h'
    · rw [if_neg hsp, List.append_nil]
      exact h'
  · exact sortedUpTo_nil

theorem steepnessSample_sorted (lib : GpxLib) (g : Gpx.GPX)
    (hg : distancesNonNegative lib g) :
    sortedUpTo (steepnessSample lib g).points (steepnessSample lib g).d := by
  unfold steepnessSample
  rw [foldl_tracks_segments]
  refine foldl_segments_sortedUpTo
    (fun st segment =>
      (List.range segment.Points.length).foldl (steepnessStep lib segment.Points) st)
    (fun st : SteepnessState => st.points) (fun st : SteepnessState => st.d) (allSegments g) ?_ _ ?_
  · intro st segment hs h
    refine foldl_range_sortedUpTo (steepnessStep lib segment.Points)
      (fun st : SteepnessState => st.points) (fun st : SteepnessState => st.d) _ ?_ st h
    intro st n hn h
    have h' := sortedUpTo_distance lib segment.Points (hg segment hs) st.points st.d n hn h
    simp only [steepnessStep_points, steepnessStep_d]
    exact sortedUpTo_emit _ _ _ h'
  · exact sortedUpTo_nil

theorem elevationSample_sorted (lib : GpxLib) (g : Gpx.GPX)
    (hg : distancesNonNegative lib g) :
    sortedUpTo (elevationSample lib g).points (elevationSample lib g).d := by
  unfold elevationSample
  rw [foldl_tracks_segments]
  refine foldl_segments_sortedUpTo
    (fun st segment =>
      (List.range segment.Points.length).foldl (elevationStep lib segment.Points) st)
    (fun st : ElevationState => st.points) (fun st : ElevationState => st.d) (allSegments g) ?_ _ ?_
  · intro st segment hs h
    refine foldl_range_sortedUpTo (elevationStep lib segment.Points)
      (fun st : ElevationState => st.points) (fun st : ElevationState => st.d) _ ?_ st h
    intro st n hn h
    have h' := sortedUpTo_distance lib segment.Points (hg segment hs) st.points st.d n hn h
    simp only [elevationStep_points, elevationStep_d]
    exact sortedUpTo_emit _ _ _ h'
  · exact sortedUpTo_nil

/-! ## Evaluation of the sample tracks -/

theorem elevationSample_threePointTrack :
    (elevationSample lineLib threePointTrack).points
      = [{ X := F64.fin 0, Y := F64.fin 1500 }, { X := F64.fin 100, Y := F64.fin 1800 },
         { X := F64.fin 300, Y := F64.fin 2000 }] ∧
    (elevationSample lineLib threePointTrack).minElevation = F64.fin 1000 ∧
    (elevationSample lineLib threePointTrack).maxElevation = F64.fin 2000 ∧
    (elevationSample lineLib threePointTrack).d = F64.fin 300 := by
  simp [elevationSample, threePointTrack, List.range_succ, elevationStep, Gpx.index, lineLib,
    trackPoint, NullableFloat64.Value, F64.abs, F64.sub, F64.add, F64.neg, F64.lt, F64.gt]
  norm_num

theorem steepnessSample_threePointTrack :
    (steepnessSample lineLib threePointTrack).points
      = [{ X := F64.fin 0, Y := F64.fin 0 }, { X := F64.fin 100, Y := F64.fin 50 },
         { X := F64.fin 300, Y := F64.fin 0 }] := by
  simp [steepnessSample, threePointTrack, List.range_succ, steepnessStep, Gpx.index, lineLib,
    trackPoint, NullableFloat64.NotNull, F64.abs, F64.sub, F64.add, F64.neg, F64.toRat]
  norm_num

theorem distancesNonNegative_threePointTrack : distancesNonNegative lineLib threePointTrack := by
  intro segment hs i hi
  simp only [allSegments, threePointTrack, List.map_cons, List.map_nil, List.flatten_cons,
    List.flatten_nil, List.append_nil, List.mem_singleton] at hs
  subst hs
  simp only [List.length_cons, List.length_nil] at hi
  have hi2 : i = 0 ∨ i = 1 := by omega
  rcases hi2 with rfl | rfl <;>
    norm_num [Gpx.index, lineLib, trackPoint, F64.abs, F64.sub, F64.add, F64.neg, F64.le,
      F64.lt, F64.eq]
/-- C12: in the speed sampler the emitted points are, segment after segment and index
after index, one point for every interior index `i` whose points `i-1`, `i`, `i+1` all
carry a timestamp, with `y = (dist(i-1,i) + dist(i,i+1)) / (timestamp[i+1] -
timestamp[i-1] in seconds)` and `x` the distance accumulated up to point `i`, and no
point for any other index (first, last, or a missing timestamp).  A 3-point segment with
timestamps yields exactly one point, carrying that speed.  The segments are those of the
track that `ReduceTrackPoints` leaves. -/
theorem C12_speed_sampler_points (lib : GpxLib) (params : ChartParams) (g : Gpx.GPX) :
    (SpeedChartParams lib params g).Points
      = speedPointsOfSegments lib
          (allSegments (lib.ReduceTrackPoints g 1000 (F64.fin 50))) (F64.fin 0) ∧
    (speedSample lib g).points = speedPointsOfSegments lib (allSegments g) (F64.fin 0) ∧
    (∀ points : List Gpx.GPXPoint, ∀ d0 : F64,
      (speedPointsOfSegment lib points d0).length
        = ((List.range points.length).filter (fun i => decide (hasSpeed points i))).length ∧
      ¬ hasSpeed points 0 ∧ ¬ hasSpeed points (points.length - 1)) ∧
    (∀ p0 p1 p2 : Gpx.GPXPoint,
      p0.Timestamp.IsZero = false → p1.Timestamp.IsZero = false →
      p2.Timestamp.IsZero = false →
      (speedSample lib { Tracks := [{ Segments := [{ Points := [p0, p1, p2] }] }] }).points
        = [{ X := F64.add (F64.fin 0) (lib.Distance2D p1 p0),
             Y := F64.div (F64.add (lib.Distance2D p1 p0) (lib.Distance2D p2 p1))
                    (Duration.Seconds (p2.Timestamp.Sub p0.Timestamp)) }]) ∧
    (∀ t u : Time, -2 ^ 63 ≤ t.ns - u.ns → t.ns - u.ns ≤ 2 ^ 63 - 1 →
      (t.Sub u).Seconds = F64.fin (((t.ns : ℚ) - u.ns) / 10 ^ 9)) := by
  refine ⟨?_, speedSample_points lib g, ?_, ?_, Time.Sub_Seconds⟩
  · simp only [SpeedChartParams]
    exact speedSample_points lib _
  · intro points d0
    refine ⟨?_, fun h => absurd h.1 (lt_irrefl 0), fun h => ?_⟩
    · unfold speedPointsOfSegment
      generalize List.range points.length = l
      induction l with
      | nil => rfl
      | cons i l ih =>
        by_cases hs : hasSpeed points i
        · simp [List.filterMap_cons, List.filter_cons, hs, ih]
        · simp [List.filterMap_cons, List.filter_cons, hs, ih]
    · have := h.2.1
      omega
  · intro p0 p1 p2 h0 h1 h2
    rw [speedSample_points]
    simp [allSegments, speedPointsOfSegments, speedPointsOfSegment, hasSpeed, speedAt,
      List.range_succ, Gpx.index, distanceUpTo, h0, h1, h2]

theorem C12_speed_sampler_points_witness :
    (speedSample lineLib threePointTrack).points = [{ X := F64.fin 100, Y := F64.fin 15 }] := by
  have h := (C12_speed_sampler_points lineLib ChartParams.zero threePointTrack).2.2.2.1
    (trackPoint 0 1500 10) (trackPoint 100 1800 20) (trackPoint 300 2000 30)
    (by simp [trackPoint, Time.IsZero]) (by simp [trackPoint, Time.IsZero])
    (by simp [trackPoint, Time.IsZero])
  have hs := (C12_speed_sampler_points lineLib ChartParams.zero threePointTrack).2.2.2.2
    (trackPoint 300 2000 30).Timestamp (trackPoint 0 1500 10).Timestamp
    (by norm_num [trackPoint]) (by norm_num [trackPoint])
  have e : threePointTrack = { Tracks := [{ Segments := [{ Points :=
      [trackPoint 0 1500 10, trackPoint 100 1800 20, trackPoint 300 2000 30] }] }] } := rfl
  rw [e, h, hs]
  norm_num [lineLib, trackPoint, F64.abs, F64.sub, F64.add, F64.neg, F64.div, abs_of_pos]
/-- C13, the code at the failing input: on a track with the elevations 1500, 1800 and
2000 the elevation sampler reports the minimum 1000, its seed, where the smallest
emitted elevation is 1500 (the maximum is 2000, the largest).  The range handed to the
elevation axis scaler is 1000 instead of 500, and the scaler picks grid 100 and labels
200 where the real range gives grid 50 and labels 100. -/
theorem C13_min_elevation_stays_at_seed_1000 :
    IsSmallest ((elevationSample lineLib threePointTrack).points.map Point.Y) 1500 ∧
    IsLargest ((elevationSample lineLib threePointTrack).points.map Point.Y) 2000 ∧
    (elevationSample lineLib threePointTrack).minElevation = F64.fin 1000 ∧
    (elevationSample lineLib threePointTrack).maxElevation = F64.fin 2000 ∧
    (ElevationChartParams lineLib ChartParams.zero threePointTrack).YAxis.Grid = F64.fin 100 ∧
    (ElevationChartParams lineLib ChartParams.zero threePointTrack).YAxis.Labels
      = F64.fin 200 ∧
    (prepareElevationAxis Axis.zero (F64.fin 1500) (F64.fin 2000) UnitTypeMetric).Grid
      = F64.fin 50 ∧
    (prepareElevationAxis Axis.zero (F64.fin 1500) (F64.fin 2000) UnitTypeMetric).Labels
      = F64.fin 100 := by
  obtain ⟨hp, hmin, hmax, _⟩ := elevationSample_threePointTrack
  have hu : ChartParams.zero.UnitTypeOrMetric = UnitTypeMetric := by
    simp [ChartParams.UnitTypeOrMetric, ChartParams.zero]
  have e1 : ∀ a b : ℚ, (prepareElevationAxis Axis.zero (F64.fin a) (F64.fin b) UnitTypeMetric)
      = assignGridLabels { Axis.zero with Formatter := some (Formatter.altitude UnitTypeMetric) }
          (elevationBands (F64.fin (b - a)) UnitTypeMetric) := by
    intro a b
    simp [prepareElevationAxis, F64.sub, F64.add, F64.neg, sub_eq_add_neg]
  have hy : (ElevationChartParams lineLib ChartParams.zero threePointTrack).YAxis
      = prepareElevationAxis Axis.zero (F64.fin 1000) (F64.fin 2000) UnitTypeMetric := by
    simp only [ElevationChartParams, hmin, hmax, hu]
    rfl
  rw [hy, hp, e1, e1]
  refine ⟨?_, ?_, hmin, hmax, ?_, ?_, ?_, ?_⟩
  · norm_num [IsSmallest, F64.le, F64.lt, F64.eq]
  · norm_num [IsLargest, F64.le, F64.lt, F64.eq]
  all_goals
    norm_num [elevationBands, assignGridLabels, Axis.zero, F64.eq, F64.le, F64.lt,
      metric_ne_imperial, metric_ne_nautical]
/-- C14: the steepness sampler emits exactly one point per point of the track its loops
run over (angle 0 at the first and last point of each segment and wherever a neighbour
lacks an elevation) and, for a track with at least one point, sets the Y bounds to
exactly `[-s, +s]` with `s = 4 * (sum of |angle| over the emitted points) / (number of
emitted points)`, so `s >= 0` and the bounds are symmetric about zero, whatever `MinY`
and `MaxY` the caller passed in.  The angles of `gpx.ElevationAngle` are taken to be
numbers. -/
theorem C14_steepness_points_and_bounds (lib : GpxLib) (params : ChartParams) (g : Gpx.GPX)
    (hangle : ∀ p q r, ∃ a : ℚ, lib.ElevationAngle p q r = F64.fin a) :
    (SteepnessChartParams lib params g).Points
      = steepnessPointsOfSegments lib (allSegments (steepnessInput lib g)) (F64.fin 0) ∧
    (SteepnessChartParams lib params g).Points.length = pointCount (steepnessInput lib g) ∧
    (0 < pointCount (steepnessInput lib g) →
      (SteepnessChartParams lib params g).MinY
        = F64.fin (-steepnessScale (SteepnessChartParams lib params g).Points) ∧
      (SteepnessChartParams lib params g).MaxY
        = F64.fin (steepnessScale (SteepnessChartParams lib params g).Points) ∧
      0 ≤ steepnessScale (SteepnessChartParams lib params g).Points) ∧
    (∀ other : ChartParams,
      (SteepnessChartParams lib other g).MinY = (SteepnessChartParams lib params g).MinY ∧
      (SteepnessChartParams lib other g).MaxY = (SteepnessChartParams lib params g).MaxY) := by
  have hp : (SteepnessChartParams lib params g).Points
      = steepnessPointsOfSegments lib (allSegments (steepnessInput lib g)) (F64.fin 0) := by
    simp only [SteepnessChartParams]
    exact steepnessSample_points lib _
  have hlen : (SteepnessChartParams lib params g).Points.length
      = pointCount (steepnessInput lib g) := by
    rw [hp, steepnessPointsOfSegments_length]
    rfl
  refine ⟨hp, hlen, ?_, fun other => ⟨rfl, rfl⟩⟩
  intro hpos
  have hne : (SteepnessChartParams lib params g).Points ≠ [] := by
    intro h
    rw [h] at hlen
    simp at hlen
    omega
  have hfin : ∀ p ∈ (SteepnessChartParams lib params g).Points, ∃ a : ℚ, p.Y = F64.fin a := by
    rw [hp]
    exact steepnessPointsOfSegments_finite lib hangle _ _
  obtain ⟨hmax, hnonneg⟩ := steepnessMax_eq_scale _ hne hfin
  have hP : (SteepnessChartParams lib params g).Points
      = (steepnessSample lib (steepnessInput lib g)).points := rfl
  have hMax : (SteepnessChartParams lib params g).MaxY
      = steepnessMax (steepnessSample lib (steepnessInput lib g)).points := rfl
  have hMin : (SteepnessChartParams lib params g).MinY
      = F64.neg (steepnessMax (steepnessSample lib (steepnessInput lib g)).points) := rfl
  rw [hP] at hmax hnonneg ⊢
  rw [hMax, hMin, hmax]
  exact ⟨rfl, rfl, hnonneg⟩

theorem C14_steepness_points_and_bounds_witness :
    (SteepnessChartParams lineLib ChartParams.zero threePointTrack).Points.length = 3 ∧
    (SteepnessChartParams lineLib ChartParams.zero threePointTrack).MinY
      = F64.fin (-(200 / 3)) ∧
    (SteepnessChartParams lineLib ChartParams.zero threePointTrack).MaxY
      = F64.fin (200 / 3) := by
  have h := C14_steepness_points_and_bounds lineLib ChartParams.zero threePointTrack
    (fun p q _ => ⟨_, rfl⟩)
  have hcount : pointCount (steepnessInput lineLib threePointTrack) = 3 := by
    simp [pointCount, steepnessInput, lineLib, allSegments, threePointTrack]
  have hpts : (SteepnessChartParams lineLib ChartParams.zero threePointTrack).Points
      = [{ X := F64.fin 0, Y := F64.fin 0 }, { X := F64.fin 100, Y := F64.fin 50 },
         { X := F64.fin 300, Y := F64.fin 0 }] := steepnessSample_threePointTrack
  have hscale : steepnessScale (SteepnessChartParams lineLib ChartParams.zero
      threePointTrack).Points = 200 / 3 := by
    rw [hpts]
    norm_num [steepnessScale, F64.toRat]
  obtain ⟨h1, h2, _⟩ := h.2.2.1 (by rw [hcount]; norm_num)
  rw [hscale] at h1 h2
  exact ⟨by rw [h.2.1, hcount], h1, h2⟩
/-- C17: for each of the three samplers (elevation, speed, steepness) and every track
whose point-to-point distances are non-negative, the emitted points are ordered by
non-decreasing `x`, across segment and track boundaries too: `x` is the running sum of
the distances, which is never reset.  For the speed and the steepness chart the track is
the one that the reduction (and the smoothing) leaves. -/
theorem C17_emitted_points_ordered_by_x (lib : GpxLib) (params : ChartParams) (g : Gpx.GPX) :
    (distancesNonNegative lib g →
      nonDecreasingX (elevationSample lib g).points ∧
      nonDecreasingX (speedSample lib g).points ∧
      nonDecreasingX (steepnessSample lib g).points) ∧
    (distancesNonNegative lib g →
      nonDecreasingX (ElevationChartParams lib params g).Points) ∧
    (distancesNonNegative lib (lib.ReduceTrackPoints g 1000 (F64.fin 50)) →
      nonDecreasingX (SpeedChartParams lib params g).Points) ∧
    (distancesNonNegative lib (steepnessInput lib g) →
      nonDecreasingX (SteepnessChartParams lib params g).Points) := by
  refine ⟨fun hg => ⟨(elevationSample_sorted lib g hg).1, (speedSample_sorted lib g hg).1,
    (steepnessSample_sorted lib g hg).1⟩, fun hg => (elevationSample_sorted lib g hg).1,
    fun hg => (speedSample_sorted lib _ hg).1, fun hg => (steepnessSample_sorted lib _ hg).1⟩

theorem C17_emitted_points_ordered_by_x_witness :
    distancesNonNegative lineLib threePointTrack ∧
    nonDecreasingX (elevationSample lineLib threePointTrack).points ∧
    nonDecreasingX (speedSample lineLib threePointTrack).points ∧
    nonDecreasingX (steepnessSample lineLib threePointTrack).points ∧
    nonDecreasingX (SpeedChartParams lineLib ChartParams.zero threePointTrack).Points := by
  have h := C17_emitted_points_ordered_by_x lineLib ChartParams.zero threePointTrack
  have hd := distancesNonNegative_threePointTrack
  obtain ⟨h1, h2, h3⟩ := h.1 hd
  exact ⟨hd, h1, h2, h3, h.2.2.1 hd⟩

/-! ## Lemmas on the unit registries -/

theorem Units_eq :
    Units = [("m", F64.fin 1), ("km", F64.fin 1000), ("cm", F64.fin (1 / 100)),
      ("ft", F64.fin ONE_FEET), ("yd", F64.fin ONE_YARD), ("mi", F64.fin ONE_MILE),
      ("nm", F64.fin ONE_NAUTICAL_MILE)] := by
  rfl

/-- With a key of one of the registries `ConvertFromM` divides by the factor of the
key. -/
theorem ConvertFromM_of_key (n : F64) (s k : String) (f : ℚ)
    (hk : TrimSpace (ToLower s) = k) (hmem : (k, f) ∈ speedRegistry ++ lengthRegistry) :
    ConvertFromM n s = F64.div n (F64.fin f) := by
  unfold ConvertFromM
  rw [hk, Units_eq]
  simp only [speedRegistry, lengthRegistry, List.cons_append, List.nil_append, List.mem_cons,
    List.mem_singleton, Prod.mk.injEq, List.not_mem_nil, or_false] at hmem
  rcases hmem with ⟨rfl, rfl⟩ | ⟨rfl, rfl⟩ | ⟨rfl, rfl⟩ | ⟨rfl, rfl⟩ | ⟨rfl, rfl⟩ | ⟨rfl, rfl⟩
    | ⟨rfl, rfl⟩ | ⟨rfl, rfl⟩ | ⟨rfl, rfl⟩ | ⟨rfl, rfl⟩ | ⟨rfl, rfl⟩ <;>
    simp [SPEED_UNITS, GoMap.lookup, List.lookup, SPEED_MPS]

theorem digitChar_mem (n : Nat) :
    digitChar n ∈ ['0', '1', '2', '3', '4', '5', '6', '7', '8', '9'] := by
  unfold digitChar
  have h : n % 10 < 10 := Nat.mod_lt _ (by norm_num)
  interval_cases (n % 10) <;> decide

theorem digitChar_ne_dot (n : Nat) : digitChar n ≠ '.' := by
  have h := digitChar_mem n
  intro he
  rw [he] at h
  revert h
  decide

theorem natDigits_no_dot (fuel n : Nat) : ∀ c ∈ natDigits fuel n, c ≠ '.' := by
  induction fuel generalizing n with
  | zero => intro c hc; cases hc
  | succ fuel ih =>
    intro c hc
    unfold natDigits at hc
    split at hc
    · rw [List.mem_singleton] at hc
      rw [hc]
      exact digitChar_ne_dot n
    · rcases List.mem_append.mp hc with h | h
      · exact ih _ c h
      · rw [List.mem_singleton] at h
        rw [h]
        exact digitChar_ne_dot n

theorem fixedDigits_no_dot (width n : Nat) : ∀ c ∈ fixedDigits width n, c ≠ '.' := by
  induction width generalizing n with
  | zero => intro c hc; cases hc
  | succ width ih =>
    intro c hc
    unfold fixedDigits at hc
    rcases List.mem_append.mp hc with h | h
    · exact ih _ c h
    · rw [List.mem_singleton] at h
      rw [h]
      exact digitChar_ne_dot n

/-- The digits of a natural number end with a digit. -/
theorem natDigits_reverse (fuel n : Nat) :
    ∃ rest, (natDigits (fuel + 1) n).reverse = digitChar n :: rest := by
  unfold natDigits
  split
  · exact ⟨[], rfl⟩
  · exact ⟨(natDigits fuel (n / 10)).reverse, by simp⟩

theorem singleton_inside (c : Char) (l : List Char) : [c] <:+: l ↔ c ∈ l := by
  constructor
  · intro h
    exact h.mem (List.mem_singleton_self c)
  · intro h
    obtain ⟨s, t, rfl⟩ := List.append_of_mem h
    exact ⟨s, t, by simp⟩


theorem FormatFloat_data (f : F64) (digits : Nat) :
    FormatFloat f digits = String.mk (trimData (formatFixed f digits).data) := by
  unfold FormatFloat TrimRight Contains trimData
  by_cases h : ['.'] <:+: (formatFixed f digits).data
  · have h' : (".".data <:+: (formatFixed f digits).data) := h
    simp only [h, h', decide_True, if_true]
  · have h' : ¬ (".".data <:+: (formatFixed f digits).data) := h
    simp only [h, h', decide_False, Bool.false_eq_true, if_false]

theorem dropWhile_dot_of_ne (c : Char) (rest : List Char) (hc : c ≠ '.') :
    (c :: rest).dropWhile (fun c => decide (c ∈ ['.'])) = c :: rest := by
  simp [List.dropWhile_cons, hc]

/-- Trimming a text that ends with a character other than the point and holds no
point. -/
theorem trimData_no_decimals (pre : List Char) (c : Char) (rest : List Char)
    (hrev : pre.reverse = c :: rest) (hc : c ≠ '.') (hnodot : '.' ∉ pre) :
    trimData pre = pre := by
  have h1 : ¬ (['.'] <:+: pre) := fun h => hnodot ((singleton_inside _ _).mp h)
  unfold trimData
  simp only [h1, decide_False, Bool.false_eq_true, if_false]
  rw [hrev, dropWhile_dot_of_ne c rest hc, ← hrev, List.reverse_reverse]

/-- Trimming `pre` followed by the point and the decimals `fd`. -/
theorem trimData_decimals (pre fd : List Char) (c : Char) (rest : List Char)
    (hrev : pre.reverse = c :: rest) (hc : c ≠ '.') (hfd : ∀ x ∈ fd, x ≠ '.') :
    trimData (pre ++ '.' :: fd)
      = pre ++ (if stripTrailingZeros fd = [] then [] else '.' :: stripTrailingZeros fd) := by
  have h1 : ['.'] <:+: pre ++ '.' :: fd := (singleton_inside _ _).mpr (by simp)
  have hp : (fun c : Char => decide (c ∈ ['0'])) = (fun c => decide (c = '0')) := by
    funext x
    simp
  have hrv : (pre ++ '.' :: fd).reverse = fd.reverse ++ '.' :: pre.reverse := by simp
  unfold trimData stripTrailingZeros
  simp only [h1, decide_True, if_true, hp, hrv, List.reverse_reverse]
  by_cases hz : fd.reverse.dropWhile (fun c => decide (c = '0')) = []
  · have e1 : (fd.reverse ++ '.' :: pre.reverse).dropWhile (fun c => decide (c = '0'))
        = '.' :: pre.reverse := by
      rw [List.dropWhile_append, hz]
      simp [List.dropWhile_cons]
    have e2 : ('.' :: pre.reverse).dropWhile (fun c => decide (c ∈ ['.'])) = pre.reverse := by
      rw [hrev]
      simp [List.dropWhile_cons, hc]
    rw [e1, e2, hz]
    simp
  · obtain ⟨y, ys, hy⟩ := List.exists_cons_of_ne_nil hz
    have hymem : y ∈ fd := by
      have : y ∈ fd.reverse.dropWhile (fun c => decide (c = '0')) := by
        rw [hy]; exact List.mem_cons_self _ _
      exact List.mem_reverse.mp ((List.dropWhile_sublist _).subset this)
    have hyd : y ≠ '.' := hfd y hymem
    have e1 : (fd.reverse ++ '.' :: pre.reverse).dropWhile (fun c => decide (c = '0'))
        = y :: (ys ++ '.' :: pre.reverse) := by
      rw [List.dropWhile_append, hy]
      simp
    have e2 : (y :: (ys ++ '.' :: pre.reverse)).dropWhile (fun c => decide (c ∈ ['.']))
        = y :: (ys ++ '.' :: pre.reverse) := dropWhile_dot_of_ne _ _ hyd
    rw [e1, e2, hy]
    simp

/-- The function `FormatFloat` on a number gives the text of the specification. -/
theorem FormatFloat_fin (q : ℚ) (digits : Nat) :
    FormatFloat (F64.fin q) digits = strippedDecimal q digits := by
  rw [FormatFloat_data]
  unfold strippedDecimal formatFixed
  simp only
  generalize roundHalfEven (|q| * 10 ^ digits) = n
  obtain ⟨rest, hrest⟩ := natDigits_reverse (n / 10 ^ digits) (n / 10 ^ digits)
  have hpre : ((if q < 0 then ['-'] else []) ++
      natDigits (n / 10 ^ digits + 1) (n / 10 ^ digits)).reverse
      = digitChar (n / 10 ^ digits) :: (rest ++ (if q < 0 then ['-'] else []).reverse) := by
    rw [List.reverse_append, hrest]
    rfl
  have hnodot : '.' ∉ (if q < 0 then ['-'] else []) ++
      natDigits (n / 10 ^ digits + 1) (n / 10 ^ digits) := by
    intro h
    rcases List.mem_append.mp h with h | h
    · split at h
      · simp at h
      · cases h
    · exact natDigits_no_dot _ _ _ h rfl
  congr 1
  by_cases hd : digits = 0
  · subst hd
    simp only [if_true, List.append_nil, fixedDigits, stripTrailingZeros, List.reverse_nil,
      List.dropWhile_nil]
    exact trimData_no_decimals _ _ _ hpre (digitChar_ne_dot _) hnodot
  · simp only [hd, if_false]
    exact trimData_decimals _ _ _ _ hpre (digitChar_ne_dot _) (fixedDigits_no_dot _ _)

theorem roundHalfEven_natCast (n : ℕ) : roundHalfEven (n : ℚ) = n := by
  simp [roundHalfEven, Nat.mod_one]

/-- The text of the specification for a non-negative number that has no more than
`digits` decimals. -/
theorem strippedDecimal_exact (q : ℚ) (digits n : ℕ) (h : |q| * 10 ^ digits = (n : ℚ))
    (hq : ¬ q < 0) :
    strippedDecimal q digits
      = String.mk (natDigits (n / 10 ^ digits + 1) (n / 10 ^ digits)
          ++ (if stripTrailingZeros (fixedDigits digits (n % 10 ^ digits)) = [] then []
              else '.' :: stripTrailingZeros (fixedDigits digits (n % 10 ^ digits)))) := by
  unfold strippedDecimal
  simp only [h, roundHalfEven_natCast, hq, if_false, List.nil_append]

/-- The metric branch of `FormatLength`. -/
theorem FormatLength_metric (lengthM : F64) (ut : UnitType)
    (hut : ut = UnitTypeMetric ∨ ut = "") :
    FormatLength lengthM ut =
      if F64.lt lengthM (F64.fin 0) then "n/a"
      else if F64.lt lengthM (F64.fin 1000) then FormatFloat lengthM 0 ++ "m"
      else if F64.lt lengthM (F64.fin 50000) then
        FormatFloat (F64.div lengthM (F64.fin 1000)) 2 ++ "km"
      else FormatFloat (F64.div lengthM (F64.fin 1000)) 1 ++ "km" := by
  have h1 : (if ut.length = 0 then UnitTypeMetric else ut) = UnitTypeMetric := by
    rcases hut with h | h <;> rw [h] <;> decide
  unfold FormatLength
  simp only [h1, metric_ne_nautical, metric_ne_imperial, if_false]

/-- A track without points has no point in any of its segments. -/
theorem segments_empty_of_pointCount (g : Gpx.GPX) (h : pointCount g = 0) :
    ∀ segment ∈ allSegments g, segment.Points.length = 0 := by
  intro segment hs
  unfold pointCount at h
  rw [List.sum_eq_zero_iff] at h
  exact h _ (List.mem_map.mpr ⟨segment, hs, rfl⟩)

/-- The loops of a sampler leave its state as it is when no segment has a point. -/
theorem foldl_segments_of_empty {σ : Type} (step : List Gpx.GPXPoint → σ → Nat → σ)
    (segments : List Gpx.GPXTrackSegment)
    (h : ∀ segment ∈ segments, segment.Points.length = 0) (st : σ) :
    segments.foldl
      (fun st segment => (List.range segment.Points.length).foldl (step segment.Points) st) st
      = st := by
  induction segments generalizing st with
  | nil => rfl
  | cons s rest ih =>
    rw [List.foldl_cons, h s (List.mem_cons_self _ _), List.range_zero, List.foldl_nil]
    exact ih (fun x hx => h x (List.mem_cons_of_mem _ hx)) st

theorem elevationSample_of_empty (lib : GpxLib) (g : Gpx.GPX) (h : pointCount g = 0) :
    elevationSample lib g
      = { minElevation := F64.fin 1000, maxElevation := F64.fin 0, points := [],
          d := F64.fin 0 } := by
  unfold elevationSample
  rw [foldl_tracks_segments]
  exact foldl_segments_of_empty (elevationStep lib) _ (segments_empty_of_pointCount g h) _

theorem speedSample_of_empty (lib : GpxLib) (g : Gpx.GPX) (h : pointCount g = 0) :
    speedSample lib g
      = { points := [], minSpeed := F64.fin 0, maxSpeed := F64.fin 0, d := F64.fin 0 } := by
  unfold speedSample
  rw [foldl_tracks_segments]
  exact foldl_segments_of_empty (speedStep lib) _ (segments_empty_of_pointCount g h) _

theorem steepnessSample_of_empty (lib : GpxLib) (g : Gpx.GPX) (h : pointCount g = 0) :
    steepnessSample lib g = { points := [], d := F64.fin 0 } := by
  unfold steepnessSample
  rw [foldl_tracks_segments]
  exact foldl_segments_of_empty (steepnessStep lib) _ (segments_empty_of_pointCount g h) _

theorem SpeedChartDenominators_of_empty (lib : GpxLib) (g : Gpx.GPX)
    (h : pointCount (lib.ReduceTrackPoints g 1000 (F64.fin 50)) = 0) :
    SpeedChartDenominators lib g = [] := by
  unfold SpeedChartDenominators
  simp only []
  rw [foldl_tracks_segments]
  exact foldl_segments_of_empty
    (fun points ds n =>
      if 0 < n ∧ n + 1 < points.length then
        if !(Gpx.index points (n - 1)).Timestamp.IsZero && !(Gpx.index points n).Timestamp.IsZero
            && !(Gpx.index points (n + 1)).Timestamp.IsZero then
          ds ++ [((Gpx.index points (n + 1)).Timestamp.Sub
            (Gpx.index points (n - 1)).Timestamp).Seconds]
        else ds
      else ds)
    _ (segments_empty_of_pointCount _ h) _

/-- The value `max` of `SteepnessChart` for no points: `4 * 0 / float64(0)`, NaN. -/
theorem steepnessMax_nil : steepnessMax [] = F64.nan := by
  simp [steepnessMax, sumFrom0, F64.mul, F64.ofInt, F64.div]

/-- With unpinned X bounds and no points the X bounds are out of order after the
padding: `MaxFloat64 - Left >= -MaxFloat64 + Right`. -/
theorem calcBounds_degenerate_of_no_points (cp : ChartParams) (l r : ℚ)
    (hp : cp.Points = []) (hmin : cp.MinX = F64.fin 0) (hmax : cp.MaxX = F64.fin 0)
    (hL : cp.ChartPadding.Left = F64.fin l) (hR : cp.ChartPadding.Right = F64.fin r)
    (hl : l ≤ F64.maxFloat64) (hr : r ≤ F64.maxFloat64) :
    boundsDegenerate cp.calcBounds = true := by
  have h1 : F64.ge cp.calcBounds.MinX cp.calcBounds.MaxX = true := by
    rw [calcBounds_MinX, calcBounds_MaxX, hp, hmin, hmax, hL, hR]
    simp only [F64.eq_zero_zero, Bool.and_self, if_true, List.foldl_nil]
    simp only [F64.ge, F64.sub, F64.neg, F64.add]
    rw [F64.le_fin_fin]
    linarith
  simp only [boundsDegenerate, h1, Bool.true_or]

/-- A NaN as Y bound makes the bounds degenerate when the chart padding is a number. -/
theorem calcBounds_degenerate_of_nan (cp : ChartParams) (hmin : cp.MinY = F64.nan) :
    boundsDegenerate cp.calcBounds = true := by
  apply boundsDegenerate_of_Y
  have h : cp.calcBounds.MinY = F64.nan := by
    rw [calcBounds_MinY, hmin]
    simp [F64.eq, F64.sub, F64.add]
  rw [h]
  simp [IsNanOrOnf, F64.IsNaN]

/-- The drawing of the invalid chart: no loop is entered, so it returns with any fuel,
and the divisions it evaluates are those of the two baselines and of the text, by
`MaxX - MinX = 1`, `MaxY - MinY = 1` and the constant 2. -/
theorem drawChart_invalidGraphParams (callers : Nat → F64 → String) (gc : GraphicContext)
    (fuel : Nat) (q : ChartParams) (c : Canvas) :
    ∃ r, drawChart callers gc fuel (invalidGraphParams q) c = some r ∧
      r.denominators = c.denominators ++
        [F64.fin 1, F64.fin 1, F64.fin 1, F64.fin 1, F64.fin 1, F64.fin 1, F64.fin 1,
          F64.fin 1, F64.fin 2, F64.fin 2, F64.fin 1, F64.fin 1, F64.fin 2] := by
  have hz : F64.gt (F64.fin 0) (F64.fin 0) = false := by simp [F64.gt, F64.lt]
  have hd : (invalidGraphParams q).toImgCoordsDenominators = [F64.fin 1, F64.fin 1] := by
    simp [ChartParams.toImgCoordsDenominators, invalidGraphParams, ChartParams.zero, F64.sub,
      F64.add, F64.neg]
  have hg : drawGrid fuel (invalidGraphParams q) c = some c := by
    simp [drawGrid, invalidGraphParams, Axis.zero, hz]
  have hc : drawCurve (invalidGraphParams q) c = c := by
    simp [drawCurve, invalidGraphParams, ChartParams.zero]
  have hx : ∀ c : Canvas, drawXAxis callers gc fuel (invalidGraphParams q) (F64.fin 8) c
      = some (drawBaseline (invalidGraphParams q) (invalidGraphParams q).MaxX
          (invalidGraphParams q).MinY c, F64.fin 8) := by
    intro c
    simp [drawXAxis, invalidGraphParams, Axis.zero, hz]
  have hy : ∀ c : Canvas, drawYAxis callers gc fuel (invalidGraphParams q) (F64.fin 8) c
      = some (drawBaseline (invalidGraphParams q) (invalidGraphParams q).MinX
          (invalidGraphParams q).MaxY c, F64.fin 8) := by
    intro c
    simp [drawYAxis, invalidGraphParams, Axis.zero, hz]
  have hb : ∀ (x y : F64) (c : Canvas),
      (drawBaseline (invalidGraphParams q) x y c).denominators
        = c.denominators ++ [F64.fin 1, F64.fin 1, F64.fin 1, F64.fin 1] := by
    intro x y c
    simp [drawBaseline, Canvas.call, Canvas.divide, hd]
  have hi : ∀ (fontSize : F64) (c : Canvas),
      (drawInvalid gc (invalidGraphParams q) fontSize c).denominators
        = c.denominators ++ [F64.fin 2, F64.fin 2, F64.fin 1, F64.fin 1, F64.fin 2] := by
    intro fontSize c
    have hinv : (invalidGraphParams q).invalid = true := rfl
    simp [drawInvalid, hinv, Canvas.call, Canvas.divide, hd]
  refine ⟨drawInvalid gc (invalidGraphParams q) (F64.fin 8)
    (drawBaseline (invalidGraphParams q) (invalidGraphParams q).MinX
      (invalidGraphParams q).MaxY
      (drawBaseline (invalidGraphParams q) (invalidGraphParams q).MaxX
        (invalidGraphParams q).MinY c)), ?_, ?_⟩
  · unfold drawChart
    rw [hg, Option.some_bind, hc, hx, Option.some_bind, hy, Option.map_some']
  · simp only [hi, hb, List.append_assoc, List.cons_append, List.nil_append]

/-- Method `renderChart` on parameters whose padded bounds are degenerate: it returns
with any fuel and evaluates no division by zero. -/
theorem renderChart_of_degenerate (callers : Nat → F64 → String) (gc : GraphicContext)
    (fuel : Nat) (p : ChartParams) (h : boundsDegenerate p.calcBounds = true) :
    ∃ r, renderChart callers gc fuel p = some r ∧
      ∀ x ∈ r.denominators, x = F64.fin 1 ∨ x = F64.fin 2 := by
  obtain ⟨r, e, hr⟩ := drawChart_invalidGraphParams callers gc fuel p.calcBounds
    { calls := drawBackground p, denominators := [], log := (renderChartParams p).log }
  refine ⟨r, ?_, ?_⟩
  · unfold renderChart
    simp only []
    rw [renderChartParams_of_degenerate p h]
    exact e
  · intro x hx
    rw [hr] at hx
    simp only [List.nil_append, List.mem_cons, List.mem_singleton, List.not_mem_nil,
      or_false] at hx
    tauto

/-- The three charts of a track without points, as `chart` receives them. -/
theorem chartParams_of_empty (lib : GpxLib) (params : ChartParams) (g : Gpx.GPX)
    (h0 : pointCount g = 0)
    (h1 : pointCount (lib.ReduceTrackPoints g 1000 (F64.fin 50)) = 0)
    (h2 : pointCount (steepnessInput lib g) = 0) :
    ∀ p ∈ [ElevationChartParams lib params g, SpeedChartParams lib params g,
        SteepnessChartParams lib params g],
      p.Points = [] ∧ p.MinX = params.MinX ∧ p.MaxX = params.MaxX ∧
        p.ChartPadding = params.ChartPadding := by
  intro p hp
  simp only [List.mem_cons, List.mem_singleton, List.not_mem_nil, or_false] at hp
  rcases hp with rfl | rfl | rfl
  · simp [ElevationChartParams, elevationSample_of_empty lib g h0]
  · simp [SpeedChartParams, speedSample_of_empty lib _ h1]
  · have h := steepnessSample_of_empty lib _ h2
    unfold steepnessInput at h
    simp [SteepnessChartParams, h]

/-- C15 (counterexample): for the track without points and the zero `ChartParams`
(bounds not pinned, no chart padding) `SteepnessChart` emits no point and evaluates
`4 * sumFrom0 / float64(len(points))` with the denominator `float64(0) = 0`; the
quotient `0 / 0` is NaN and becomes `MinY` and `MaxY`. -/
theorem C15_counterexample_steepness_divides_by_zero :
    (SteepnessChartParams lineLib ChartParams.zero emptyTrack).Points = [] ∧
    F64.fin 0 ∈ SteepnessChartDenominators lineLib emptyTrack ∧
    steepnessMax (SteepnessChartParams lineLib ChartParams.zero emptyTrack).Points
      = F64.nan ∧
    (SteepnessChartParams lineLib ChartParams.zero emptyTrack).MinY = F64.nan ∧
    (SteepnessChartParams lineLib ChartParams.zero emptyTrack).MaxY = F64.nan := by
  have hs := steepnessSample_of_empty lineLib (steepnessInput lineLib emptyTrack) rfl
  unfold steepnessInput at hs
  have hp : (SteepnessChartParams lineLib ChartParams.zero emptyTrack).Points = [] := by
    simp [SteepnessChartParams, hs]
  refine ⟨hp, ?_, ?_, ?_, ?_⟩
  · simp [SteepnessChartDenominators, hs, F64.ofInt]
  · rw [hp]; exact steepnessMax_nil
  · simp [SteepnessChartParams, hs, steepnessMax_nil, F64.neg]
  · simp [SteepnessChartParams, hs, steepnessMax_nil]

/-- C15 (amended): for a track without points, X bounds that are not pinned and a chart
padding whose `Left` and `Right` are numbers (no larger than `MaxFloat64`), each of the
three chart types emits no point and ends in the invalid chart, which `renderChart`
draws without entering a loop and without a division by zero (its denominators are
`MaxX - MinX = 1`, `MaxY - MinY = 1` and the constant 2).  Before drawing,
`ElevationChart` and `SpeedChart` evaluate no division, and `SteepnessChart` evaluates
one, `4 * sumFrom0 / float64(len(points))`, whose denominator is 0: the quotient is NaN,
it becomes `MinY` and `MaxY`, and the NaN check replaces the chart by the invalid
chart. -/
theorem C15_empty_track_ends_in_invalid_chart (callers : Nat → F64 → String)
    (gc : GraphicContext) (lib : GpxLib) (params : ChartParams) (g : Gpx.GPX) (l r : ℚ)
    (hmin : params.MinX = F64.fin 0) (hmax : params.MaxX = F64.fin 0)
    (hL : params.ChartPadding.Left = F64.fin l) (hR : params.ChartPadding.Right = F64.fin r)
    (hl : l ≤ F64.maxFloat64) (hr : r ≤ F64.maxFloat64)
    (h0 : pointCount g = 0)
    (h1 : pointCount (lib.ReduceTrackPoints g 1000 (F64.fin 50)) = 0)
    (h2 : pointCount (steepnessInput lib g) = 0) :
    (∀ p ∈ [ElevationChartParams lib params g, SpeedChartParams lib params g,
        SteepnessChartParams lib params g],
      p.Points = [] ∧
      (renderChartParams p).params = invalidGraphParams p.calcBounds ∧
      (renderChartParams p).params.invalid = true ∧
      ∀ fuel, ∃ c, renderChart callers gc fuel p = some c ∧
        ∀ x ∈ c.denominators, F64.eq x (F64.fin 0) = false) ∧
    ElevationChartDenominators lib g = [] ∧
    SpeedChartDenominators lib g = [] ∧
    SteepnessChartDenominators lib g = [F64.fin 0] ∧
    (SteepnessChartParams lib params g).MinY = F64.nan ∧
    (SteepnessChartParams lib params g).MaxY = F64.nan := by
  have hs := steepnessSample_of_empty lib _ h2
  unfold steepnessInput at hs
  refine ⟨?_, rfl, SpeedChartDenominators_of_empty lib g h1, ?_, ?_, ?_⟩
  · intro p hp
    obtain ⟨e1, e2, e3, e4⟩ := chartParams_of_empty lib params g h0 h1 h2 p hp
    have hdeg : boundsDegenerate p.calcBounds = true :=
      calcBounds_degenerate_of_no_points p l r e1 (by rw [e2, hmin]) (by rw [e3, hmax])
        (by rw [e4, hL]) (by rw [e4, hR]) hl hr
    refine ⟨e1, renderChartParams_of_degenerate p hdeg, ?_, ?_⟩
    · rw [renderChartParams_of_degenerate p hdeg]; rfl
    · intro fuel
      obtain ⟨c, hc, hden⟩ := renderChart_of_degenerate callers gc fuel p hdeg
      refine ⟨c, hc, fun x hx => ?_⟩
      rcases hden x hx with rfl | rfl <;> simp [F64.eq]
  · simp [SteepnessChartDenominators, hs, F64.ofInt]
  · simp [SteepnessChartParams, hs, steepnessMax_nil, F64.neg]
  · simp [SteepnessChartParams, hs, steepnessMax_nil]

theorem C15_empty_track_ends_in_invalid_chart_witness :
    pointCount emptyTrack = 0 ∧
    (20 : ℚ) ≤ F64.maxFloat64 ∧
    (∀ p ∈ [ElevationChartParams lineLib
          { ChartParams.zero with ChartPadding := defaultChartPadding } emptyTrack,
        SpeedChartParams lineLib
          { ChartParams.zero with ChartPadding := defaultChartPadding } emptyTrack,
        SteepnessChartParams lineLib
          { ChartParams.zero with ChartPadding := defaultChartPadding } emptyTrack],
      p.Points = [] ∧ (renderChartParams p).params.invalid = true ∧
      ∀ fuel, ∃ c, renderChart noCallers plainContext fuel p = some c ∧
        ∀ x ∈ c.denominators, F64.eq x (F64.fin 0) = false) ∧
    SteepnessChartDenominators lineLib emptyTrack = [F64.fin 0] := by
  have hmax : (20 : ℚ) ≤ F64.maxFloat64 := by norm_num [F64.maxFloat64]
  have h := C15_empty_track_ends_in_invalid_chart noCallers plainContext lineLib
    { ChartParams.zero with ChartPadding := defaultChartPadding } emptyTrack 20 20
    rfl rfl (by simp [defaultChartPadding]) (by simp [defaultChartPadding]) hmax hmax
    rfl rfl rfl
  exact ⟨rfl, hmax, fun p hp => ⟨(h.1 p hp).1, (h.1 p hp).2.2.1, (h.1 p hp).2.2.2⟩,
    h.2.2.2.1⟩

/-! ## Lemmas on `chart` -/

theorem curveStep_calls (params : ChartParams) (pn : Nat) (c : Canvas) (np : Nat × Point) :
    (curveStep params pn c np).calls = c.calls ++ curveStepCalls params pn np := by
  unfold curveStep curveStepCalls
  simp only []
  split_ifs <;> simp [Canvas.call, Canvas.divide]

theorem foldl_curveStep_calls (params : ChartParams) (pn : Nat) (l : List (Nat × Point))
    (c : Canvas) :
    (l.foldl (curveStep params pn) c).calls
      = c.calls ++ (l.map (curveStepCalls params pn)).flatten := by
  induction l generalizing c with
  | nil => simp
  | cons np rest ih =>
    rw [List.foldl_cons, ih, curveStep_calls]
    simp [List.append_assoc]

/-- The calls of the two passes under `// Graph:`: the positive pass, then the negative
pass. -/
theorem drawCurve_calls (params : ChartParams) (c : Canvas) :
    (drawCurve params c).calls
      = c.calls ++ curvePassCalls params positive ++ curvePassCalls params negative := by
  unfold drawCurve curvePassCalls
  simp only [List.foldl_cons, List.foldl_nil]
  rw [foldl_curveStep_calls, foldl_curveStep_calls]

/-- Every point has its vertex in each pass, at the y value `curveY`. -/
theorem vertex_mem_curvePassCalls (params : ChartParams) (pn : Nat) (n : Nat) (p : Point)
    (h : (n, p) ∈ params.Points.enum) :
    DrawOp.LineTo (params.toImgCoords p.X (curveY params pn p.Y)).1
      (params.toImgCoords p.X (curveY params pn p.Y)).2 ∈ curvePassCalls params pn := by
  unfold curvePassCalls
  rw [List.mem_flatten]
  refine ⟨curveStepCalls params pn (n, p), List.mem_map.mpr ⟨(n, p), h, rfl⟩, ?_⟩
  simp [curveStepCalls]

/-- The last point is followed, in each pass, by the two closing vertices at the y value
`math.Max(0.0, params.MinY)`. -/
theorem closing_mem_curvePassCalls (params : ChartParams) (pn : Nat) (n : Nat) (p : Point)
    (h : (n, p) ∈ params.Points.enum) (hlast : n + 1 = params.Points.length) :
    DrawOp.LineTo (params.toImgCoords p.X (F64.Max (F64.fin 0) params.MinY)).1
      (params.toImgCoords p.X (F64.Max (F64.fin 0) params.MinY)).2
        ∈ curvePassCalls params pn ∧
    DrawOp.LineTo (params.toImgCoords (F64.fin 0) (F64.Max (F64.fin 0) params.MinY)).1
      (params.toImgCoords (F64.fin 0) (F64.Max (F64.fin 0) params.MinY)).2
        ∈ curvePassCalls params pn := by
  unfold curvePassCalls
  simp only [List.mem_flatten]
  constructor
  · refine ⟨curveStepCalls params pn (n, p), List.mem_map.mpr ⟨(n, p), h, rfl⟩, ?_⟩
    simp [curveStepCalls, hlast]
  · refine ⟨curveStepCalls params pn (n, p), List.mem_map.mpr ⟨(n, p), h, rfl⟩, ?_⟩
    simp [curveStepCalls, hlast]

/-! ## Evaluation of the sample curves -/

theorem spikeChart_calcBounds :
    spikeChart.calcBounds = { spikeChart with MinX := F64.fin 0, MaxX := F64.fin 6 } := by
  simp [spikeChart, spikePoints, ChartParams.calcBounds, ChartParams.zero, stepBoundsX,
    stepBoundsY, F64.eq, F64.lt, F64.gt, F64.sub, F64.add, F64.neg, Padding.zero,
    F64.maxFloat64]
  norm_num

theorem spikeChart_drawn :
    (renderChartParams spikeChart).params
      = { spikeChart with MinX := F64.fin 0, MaxX := F64.fin 6 } := by
  rw [renderChartParams_of_not_degenerate, spikeChart_calcBounds]
  rw [spikeChart_calcBounds]
  simp [boundsDegenerate, spikeChart, F64.ge, F64.le, F64.lt, F64.eq, IsNanOrOnf, F64.IsNaN,
    F64.IsInf]
  norm_num

theorem deadSeaChart_calcBounds :
    deadSeaChart.calcBounds =
      { deadSeaChart with
        MinX := F64.fin (-20), MaxX := F64.fin 120, MinY := F64.fin (-405),
        MaxY := F64.fin (-380) } := by
  simp [deadSeaChart, ChartParams.calcBounds, ChartParams.zero, stepBoundsX, stepBoundsY,
    F64.eq, F64.lt, F64.gt, F64.sub, F64.add, F64.neg, defaultChartPadding, F64.maxFloat64]
  norm_num

theorem deadSeaChart_drawn :
    (renderChartParams deadSeaChart).params =
      { deadSeaChart with
        MinX := F64.fin (-20), MaxX := F64.fin 120, MinY := F64.fin (-405),
        MaxY := F64.fin (-380) } := by
  rw [renderChartParams_of_not_degenerate, deadSeaChart_calcBounds]
  rw [deadSeaChart_calcBounds]
  simp [boundsDegenerate, deadSeaChart, F64.ge, F64.le, F64.lt, F64.eq, IsNanOrOnf,
    F64.IsNaN, F64.IsInf]
  norm_num

/-! ## Lemmas on the y values of the curve -/

theorem clamp_negative_eq_Max (y : F64) :
    (if F64.lt y (F64.fin 0) = true then F64.fin 0 else y) = F64.Max y (F64.fin 0) := by
  cases y with
  | nan => simp [F64.lt, F64.Max]
  | ninf => simp [F64.lt, F64.Max, F64.gt]
  | pinf => simp [F64.lt, F64.Max]
  | fin a =>
    simp only [F64.lt, F64.Max, F64.gt, decide_eq_true_eq]
    by_cases h : a < 0
    · rw [if_pos h, if_neg (not_lt.mpr (le_of_lt h))]
    · rw [if_neg h]
      by_cases h2 : 0 < a
      · rw [if_pos h2]
      · rw [if_neg h2, le_antisymm (not_lt.mp h2) (not_lt.mp h)]

theorem clamp_positive_eq_Min (y : F64) :
    (if F64.gt y (F64.fin 0) = true then F64.fin 0 else y) = F64.Min y (F64.fin 0) := by
  cases y with
  | nan => simp [F64.lt, F64.Min, F64.gt]
  | ninf => simp [F64.lt, F64.Min, F64.gt]
  | pinf => simp [F64.lt, F64.Min, F64.gt]
  | fin a =>
    simp only [F64.lt, F64.Min, F64.gt, decide_eq_true_eq]
    by_cases h : 0 < a
    · rw [if_pos h, if_neg (not_lt.mpr (le_of_lt h))]
    · rw [if_neg h]
      by_cases h2 : a < 0
      · rw [if_pos h2]
      · rw [if_neg h2, le_antisymm (not_lt.mp h) (not_lt.mp h2)]

theorem curveY_positive (params : ChartParams) (y : F64) :
    curveY params positive y = raisedTo params.MinY (F64.Max y (F64.fin 0)) := by
  unfold curveY raisedTo
  simp only [if_true]
  rw [clamp_negative_eq_Max]

theorem curveY_negative (params : ChartParams) (y : F64) :
    curveY params negative y = raisedTo params.MinY (F64.Min y (F64.fin 0)) := by
  have h : ¬ negative = positive := by decide
  unfold curveY raisedTo
  simp only [if_neg h, if_true]
  rw [clamp_positive_eq_Min]

/-- A value that is not NaN is at or above the lower bound once raised to it. -/
theorem raisedTo_ge (lo : ℚ) (y : F64) (h : F64.IsNaN y = false) :
    F64.le (F64.fin lo) (raisedTo (F64.fin lo) y) = true := by
  cases y <;> simp_all [raisedTo, F64.IsNaN, F64.le, F64.lt, F64.eq]
  rename_i a
  by_cases h1 : a < lo
  · simp [h1]
  · simp [h1]
    exact lt_or_eq_of_le (not_lt.mp h1)

/-- Raising to the lower bound keeps a value at or below the upper bound. -/
theorem raisedTo_le (lo hi : ℚ) (hlt : lo < hi) (y : F64) (h : F64.le y (F64.fin hi) = true) :
    F64.le (raisedTo (F64.fin lo) y) (F64.fin hi) = true := by
  unfold raisedTo
  split
  · exact (F64.le_fin_fin _ _).mpr (le_of_lt hlt)
  · exact h

theorem Max_fin_zero (a : ℚ) :
    F64.Max (F64.fin a) (F64.fin 0) = if 0 < a then F64.fin a else F64.fin 0 := by
  simp [F64.Max, F64.gt, F64.lt]

theorem Min_fin_zero (a : ℚ) :
    F64.Min (F64.fin a) (F64.fin 0) = if a < 0 then F64.fin a else F64.fin 0 := by
  simp [F64.Min, F64.lt]

theorem Max_zero_le (hi : ℚ) (h0 : 0 ≤ hi) (y : F64) (h : F64.le y (F64.fin hi) = true) :
    F64.le (F64.Max y (F64.fin 0)) (F64.fin hi) = true := by
  cases y with
  | nan => simp [F64.le, F64.lt, F64.eq] at h
  | pinf => simp [F64.le, F64.lt, F64.eq] at h
  | ninf =>
    have e : F64.Max F64.ninf (F64.fin 0) = F64.fin 0 := by simp [F64.Max, F64.gt, F64.lt]
    rw [e]
    exact (F64.le_fin_fin _ _).mpr h0
  | fin a =>
    rw [Max_fin_zero]
    split
    · exact h
    · exact (F64.le_fin_fin _ _).mpr h0

theorem Min_zero_le (hi : ℚ) (h0 : 0 ≤ hi) (y : F64) (h : F64.IsNaN y = false) :
    F64.le (F64.Min y (F64.fin 0)) (F64.fin hi) = true := by
  cases y with
  | nan => simp [F64.IsNaN] at h
  | pinf =>
    have e : F64.Min F64.pinf (F64.fin 0) = F64.fin 0 := by simp [F64.Min, F64.lt]
    rw [e]
    exact (F64.le_fin_fin _ _).mpr h0
  | ninf => simp [F64.Min, F64.le, F64.lt]
  | fin a =>
    rw [Min_fin_zero]
    split
    · rename_i h1
      exact (F64.le_fin_fin _ _).mpr (le_of_lt (lt_of_lt_of_le h1 h0))
    · exact (F64.le_fin_fin _ _).mpr h0

theorem Max_isNaN (y : F64) (h : F64.IsNaN y = false) :
    F64.IsNaN (F64.Max y (F64.fin 0)) = false := by
  cases y with
  | nan => simp [F64.IsNaN] at h
  | pinf => simp [F64.Max, F64.IsNaN]
  | ninf => simp [F64.Max, F64.IsNaN, F64.gt, F64.lt]
  | fin a => rw [Max_fin_zero]; split <;> rfl

theorem Min_isNaN (y : F64) (h : F64.IsNaN y = false) :
    F64.IsNaN (F64.Min y (F64.fin 0)) = false := by
  cases y with
  | nan => simp [F64.IsNaN] at h
  | pinf => simp [F64.Min, F64.IsNaN, F64.lt]
  | ninf => simp [F64.Min, F64.IsNaN]
  | fin a => rw [Min_fin_zero]; split <;> rfl

/-- The y value of the closing vertices, `math.Max(0.0, params.MinY)`, for a number as
lower bound: 0 when `MinY <= 0`, `MinY` when `MinY > 0`. -/
theorem Max_zero_fin (lo : ℚ) :
    F64.Max (F64.fin 0) (F64.fin lo) = if lo < 0 then F64.fin 0 else F64.fin lo := by
  simp [F64.Max, F64.gt, F64.lt]

/-- C22 (counterexample): for two points below sea level, `(0, -400)` and
`(100, -390)`, with unpinned bounds and the default chart padding, the chart is drawn
with `MinY = -405` and `MaxY = -380`, so zero lies above `MaxY`; the closing vertices
are at `y = 0`, not at `MinY`, and above `MaxY`. -/
theorem C22_counterexample_closing_above_MaxY :
    (renderChartParams deadSeaChart).params.invalid = false ∧
    (renderChartParams deadSeaChart).params.MinY = F64.fin (-405) ∧
    (renderChartParams deadSeaChart).params.MaxY = F64.fin (-380) ∧
    F64.Max (F64.fin 0) (renderChartParams deadSeaChart).params.MinY = F64.fin 0 ∧
    F64.Max (F64.fin 0) (renderChartParams deadSeaChart).params.MinY
      ≠ (renderChartParams deadSeaChart).params.MinY ∧
    F64.lt (renderChartParams deadSeaChart).params.MaxY
      (F64.Max (F64.fin 0) (renderChartParams deadSeaChart).params.MinY) = true ∧
    (∀ pn ∈ [positive, negative],
      DrawOp.LineTo
        ((renderChartParams deadSeaChart).params.toImgCoords (F64.fin 100) (F64.fin 0)).1
        ((renderChartParams deadSeaChart).params.toImgCoords (F64.fin 100) (F64.fin 0)).2
          ∈ curvePassCalls (renderChartParams deadSeaChart).params pn ∧
      DrawOp.LineTo
        ((renderChartParams deadSeaChart).params.toImgCoords (F64.fin 0) (F64.fin 0)).1
        ((renderChartParams deadSeaChart).params.toImgCoords (F64.fin 0) (F64.fin 0)).2
          ∈ curvePassCalls (renderChartParams deadSeaChart).params pn) := by
  have hmin : (renderChartParams deadSeaChart).params.MinY = F64.fin (-405) := by
    rw [deadSeaChart_drawn]
  have hmax : (renderChartParams deadSeaChart).params.MaxY = F64.fin (-380) := by
    rw [deadSeaChart_drawn]
  have hc : F64.Max (F64.fin 0) (renderChartParams deadSeaChart).params.MinY = F64.fin 0 := by
    rw [hmin, Max_zero_fin, if_pos (by norm_num)]
  refine ⟨?_, hmin, hmax, hc, ?_, ?_, ?_⟩
  · rw [deadSeaChart_drawn]; rfl
  · rw [hc, hmin]
    intro h
    injection h with h
    norm_num at h
  · rw [hc, hmax]
    simp [F64.lt]
  · intro pn _
    have h := closing_mem_curvePassCalls (renderChartParams deadSeaChart).params pn 1
      { X := F64.fin 100, Y := F64.fin (-390) }
      (by rw [deadSeaChart_drawn]; simp [deadSeaChart, List.enum, List.enumFrom])
      (by rw [deadSeaChart_drawn]; rfl)
    rw [hc] at h
    exact h

/-- C22 (amended): for bounds that are numbers with `MinY < MaxY`, each of the two fill
passes ends, after the last point, with two closing vertices at the y value
`math.Max(0.0, MinY)`: the zero baseline when 0 lies within `[MinY, MaxY]`, and `MinY`
when zero lies below `MinY`.  This y value is never below `MinY`, and it is at most
`MaxY` whenever `0 <= MaxY`. -/
theorem C22_fill_closes_at_baseline (params : ChartParams) (c : Canvas) (n : Nat)
    (p : Point) (lo hi : ℚ) (hmin : params.MinY = F64.fin lo) (hmax : params.MaxY = F64.fin hi)
    (hlt : lo < hi) (hp : (n, p) ∈ params.Points.enum)
    (hlast : n + 1 = params.Points.length) :
    (∀ pn ∈ [positive, negative],
      DrawOp.LineTo (params.toImgCoords p.X (F64.Max (F64.fin 0) params.MinY)).1
        (params.toImgCoords p.X (F64.Max (F64.fin 0) params.MinY)).2
          ∈ curvePassCalls params pn ∧
      DrawOp.LineTo (params.toImgCoords (F64.fin 0) (F64.Max (F64.fin 0) params.MinY)).1
        (params.toImgCoords (F64.fin 0) (F64.Max (F64.fin 0) params.MinY)).2
          ∈ curvePassCalls params pn) ∧
    (drawCurve params c).calls
      = c.calls ++ curvePassCalls params positive ++ curvePassCalls params negative ∧
    (lo ≤ 0 → 0 ≤ hi → F64.Max (F64.fin 0) params.MinY = F64.fin 0) ∧
    (0 < lo → F64.Max (F64.fin 0) params.MinY = params.MinY) ∧
    F64.le params.MinY (F64.Max (F64.fin 0) params.MinY) = true ∧
    (0 ≤ hi → F64.le (F64.Max (F64.fin 0) params.MinY) params.MaxY = true) := by
  refine ⟨fun pn _ => closing_mem_curvePassCalls params pn n p hp hlast,
    drawCurve_calls params c, ?_, ?_, ?_, ?_⟩
  · intro h1 _
    rw [hmin, Max_zero_fin]
    split
    · rfl
    · rename_i h2
      rw [le_antisymm h1 (not_lt.mp h2)]
  · intro h1
    rw [hmin, Max_zero_fin, if_neg (not_lt.mpr (le_of_lt h1))]
  · rw [hmin, Max_zero_fin]
    split
    · rename_i h1
      exact (F64.le_fin_fin _ _).mpr (le_of_lt h1)
    · exact (F64.le_fin_fin _ _).mpr (le_refl _)
  · intro h0
    rw [hmin, hmax, Max_zero_fin]
    split
    · exact (F64.le_fin_fin _ _).mpr h0
    · exact (F64.le_fin_fin _ _).mpr (le_of_lt hlt)

theorem C22_fill_closes_at_baseline_witness :
    (renderChartParams spikeChart).params.MinY = F64.fin (-(40 / 7)) ∧
    (renderChartParams spikeChart).params.MaxY = F64.fin (40 / 7) ∧
    (-(40 / 7) : ℚ) < 40 / 7 ∧
    (6, ({ X := F64.fin 6, Y := F64.fin 0 } : Point))
      ∈ (renderChartParams spikeChart).params.Points.enum ∧
    6 + 1 = (renderChartParams spikeChart).params.Points.length ∧
    F64.Max (F64.fin 0) (renderChartParams spikeChart).params.MinY = F64.fin 0 ∧
    F64.le (F64.Max (F64.fin 0) (renderChartParams spikeChart).params.MinY)
      (renderChartParams spikeChart).params.MaxY = true := by
  have hmin : (renderChartParams spikeChart).params.MinY = F64.fin (-(40 / 7)) := by
    rw [spikeChart_drawn]; rfl
  have hmax : (renderChartParams spikeChart).params.MaxY = F64.fin (40 / 7) := by
    rw [spikeChart_drawn]; rfl
  have hlt : (-(40 / 7) : ℚ) < 40 / 7 := by norm_num
  have hp : (6, ({ X := F64.fin 6, Y := F64.fin 0 } : Point))
      ∈ (renderChartParams spikeChart).params.Points.enum := by
    rw [spikeChart_drawn]; simp [spikeChart, spikePoints, List.enum, List.enumFrom]
  have hlast : 6 + 1 = (renderChartParams spikeChart).params.Points.length := by
    rw [spikeChart_drawn]; rfl
  have h := C22_fill_closes_at_baseline (renderChartParams spikeChart).params
    Canvas.empty 6 { X := F64.fin 6, Y := F64.fin 0 } (-(40 / 7)) (40 / 7) hmin hmax hlt hp
    hlast
  exact ⟨hmin, hmax, hlt, hp, hlast, h.2.2.1 (by norm_num) (by norm_num),
    h.2.2.2.2.2 (by norm_num)⟩

/-- C23 (counterexample): the chart that `SteepnessChart` builds for seven points with
the angles 0, 0, 0, 0, 10, 0, 0 has `MaxY = 4 * 10 / 7`; it is drawn as it is, and in
the positive pass the vertex of the fifth point is drawn at `y = 10`, above `MaxY`.  A
point whose y is NaN is drawn at NaN. -/
theorem C23_counterexample_vertex_above_MaxY :
    steepnessMax spikeChart.Points = F64.fin (40 / 7) ∧
    (renderChartParams spikeChart).params.invalid = false ∧
    (renderChartParams spikeChart).params.MaxY = F64.fin (40 / 7) ∧
    curveY (renderChartParams spikeChart).params positive (F64.fin 10) = F64.fin 10 ∧
    F64.lt (renderChartParams spikeChart).params.MaxY
      (curveY (renderChartParams spikeChart).params positive (F64.fin 10)) = true ∧
    DrawOp.LineTo
      ((renderChartParams spikeChart).params.toImgCoords (F64.fin 4) (F64.fin 10)).1
      ((renderChartParams spikeChart).params.toImgCoords (F64.fin 4) (F64.fin 10)).2
        ∈ (drawCurve (renderChartParams spikeChart).params Canvas.empty).calls ∧
    curveY (renderChartParams spikeChart).params positive F64.nan = F64.nan := by
  have hy : curveY (renderChartParams spikeChart).params positive (F64.fin 10) = F64.fin 10 := by
    rw [spikeChart_drawn]
    simp [curveY, spikeChart, F64.lt]
    norm_num
  have hm : (renderChartParams spikeChart).params.MaxY = F64.fin (40 / 7) := by
    rw [spikeChart_drawn]; rfl
  refine ⟨?_, ?_, hm, hy, ?_, ?_, ?_⟩
  · simp [steepnessMax, sumFrom0, spikeChart, spikePoints, F64.add, F64.abs, F64.mul, F64.div,
      F64.ofInt]
    norm_num
  · rw [spikeChart_drawn]; rfl
  · rw [hy, hm]
    simp [F64.lt]
    norm_num
  · rw [drawCurve_calls]
    apply List.mem_append_left
    apply List.mem_append_right
    have h := vertex_mem_curvePassCalls (renderChartParams spikeChart).params positive 4
      { X := F64.fin 4, Y := F64.fin 10 }
      (by rw [spikeChart_drawn]; simp [spikeChart, spikePoints, List.enum, List.enumFrom])
    rw [hy] at h
    exact h
  · rw [spikeChart_drawn]
    simp [curveY, F64.lt]

/-- C23 (amended): for bounds that are numbers with `MinY < MaxY`, every point of the
chart has in each of the two passes a curve vertex whose y value is `max(y, 0)` in the
positive pass and `min(y, 0)` in the negative pass, raised to `MinY` when below it.
For a point whose y is not NaN the plotted y is never below `MinY`; when `0 <= MaxY` it
is at most `MaxY` in the negative pass, and in the positive pass if also `y <= MaxY`. -/
theorem C23_curve_vertices_never_below_MinY (params : ChartParams) (c : Canvas) (n : Nat)
    (p : Point) (lo hi : ℚ) (hmin : params.MinY = F64.fin lo) (hmax : params.MaxY = F64.fin hi)
    (hlt : lo < hi) (hp : (n, p) ∈ params.Points.enum) :
    (∀ pn ∈ [positive, negative],
      DrawOp.LineTo (params.toImgCoords p.X (curveY params pn p.Y)).1
        (params.toImgCoords p.X (curveY params pn p.Y)).2 ∈ (drawCurve params c).calls) ∧
    curveY params positive p.Y = raisedTo params.MinY (F64.Max p.Y (F64.fin 0)) ∧
    curveY params negative p.Y = raisedTo params.MinY (F64.Min p.Y (F64.fin 0)) ∧
    (F64.IsNaN p.Y = false →
      F64.le params.MinY (curveY params positive p.Y) = true ∧
      F64.le params.MinY (curveY params negative p.Y) = true) ∧
    (F64.IsNaN p.Y = false → 0 ≤ hi →
      F64.le (curveY params negative p.Y) params.MaxY = true) ∧
    (F64.le p.Y params.MaxY = true → 0 ≤ hi →
      F64.le (curveY params positive p.Y) params.MaxY = true) := by
  refine ⟨?_, curveY_positive params p.Y, curveY_negative params p.Y, ?_, ?_, ?_⟩
  · intro pn hpn
    rw [drawCurve_calls]
    simp only [List.mem_cons, List.mem_singleton, List.not_mem_nil, or_false] at hpn
    rcases hpn with rfl | rfl
    · exact List.mem_append_left _
        (List.mem_append_right _ (vertex_mem_curvePassCalls params positive n p hp))
    · exact List.mem_append_right _ (vertex_mem_curvePassCalls params negative n p hp)
  · intro hnan
    rw [curveY_positive, curveY_negative, hmin]
    exact ⟨raisedTo_ge lo _ (Max_isNaN _ hnan), raisedTo_ge lo _ (Min_isNaN _ hnan)⟩
  · intro hnan h0
    rw [curveY_negative, hmin, hmax]
    exact raisedTo_le lo hi hlt _ (Min_zero_le hi h0 _ hnan)
  · intro hy h0
    rw [hmax] at hy
    rw [curveY_positive, hmin, hmax]
    exact raisedTo_le lo hi hlt _ (Max_zero_le hi h0 _ hy)

theorem C23_curve_vertices_never_below_MinY_witness :
    (renderChartParams spikeChart).params.MinY = F64.fin (-(40 / 7)) ∧
    (renderChartParams spikeChart).params.MaxY = F64.fin (40 / 7) ∧
    (-(40 / 7) : ℚ) < 40 / 7 ∧
    (4, ({ X := F64.fin 4, Y := F64.fin 10 } : Point))
      ∈ (renderChartParams spikeChart).params.Points.enum ∧
    F64.le (renderChartParams spikeChart).params.MinY
      (curveY (renderChartParams spikeChart).params negative (F64.fin 10)) = true ∧
    F64.le (curveY (renderChartParams spikeChart).params negative (F64.fin 10))
      (renderChartParams spikeChart).params.MaxY = true := by
  have hmin : (renderChartParams spikeChart).params.MinY = F64.fin (-(40 / 7)) := by
    rw [spikeChart_drawn]; rfl
  have hmax : (renderChartParams spikeChart).params.MaxY = F64.fin (40 / 7) := by
    rw [spikeChart_drawn]; rfl
  have hlt : (-(40 / 7) : ℚ) < 40 / 7 := by norm_num
  have hp : (4, ({ X := F64.fin 4, Y := F64.fin 10 } : Point))
      ∈ (renderChartParams spikeChart).params.Points.enum := by
    rw [spikeChart_drawn]; simp [spikeChart, spikePoints, List.enum, List.enumFrom]
  have h := C23_curve_vertices_never_below_MinY (renderChartParams spikeChart).params
    Canvas.empty 4 { X := F64.fin 4, Y := F64.fin 10 } (-(40 / 7)) (40 / 7) hmin hmax hlt hp
  exact ⟨hmin, hmax, hlt, hp, (h.2.2.2.1 rfl).2, h.2.2.2.2.1 rfl (by norm_num)⟩

/-! ## Lemmas on the ticks of the X axis -/

/-- The body of the labels loop of the X axis keeps the calls made before. -/
theorem labelXStep_keeps (callers : Nat → F64 → String) (gc : GraphicContext)
    (params : ChartParams) (fontSize : F64) (c : Canvas) (v : F64) :
    ∀ op ∈ c.calls, op ∈ (labelXStep callers gc params fontSize c v).calls := by
  intro op hop
  unfold labelXStep
  split
  · exact hop
  · simp [Canvas.call, Canvas.divide, hop]

/-- The body of the labels loop of the X axis draws the tick mark at every value other
than 0, from 3 pixels above the axis. -/
theorem labelXStep_tick (callers : Nat → F64 → String) (gc : GraphicContext)
    (params : ChartParams) (fontSize : F64) (c : Canvas) (v : F64)
    (h : F64.eq v (F64.fin 0) = false) :
    DrawOp.MoveTo (params.toImgCoords v params.MinY).1
      (F64.sub (params.toImgCoords v params.MinY).2 (F64.fin 3))
        ∈ (labelXStep callers gc params fontSize c v).calls := by
  unfold labelXStep
  rw [if_neg (by rw [h]; simp)]
  simp [Canvas.call, Canvas.divide]

theorem foldl_labelXStep_keeps (callers : Nat → F64 → String) (gc : GraphicContext)
    (params : ChartParams) (fontSize : F64) (vs : List F64) (c : Canvas) :
    ∀ op ∈ c.calls, op ∈ (vs.foldl (labelXStep callers gc params fontSize) c).calls := by
  induction vs generalizing c with
  | nil => intro op hop; exact hop
  | cons v rest ih =>
    intro op hop
    rw [List.foldl_cons]
    exact ih _ op (labelXStep_keeps callers gc params fontSize c v op hop)

/-- The labels loop of the X axis draws a tick mark at each of its values other than
0. -/
theorem foldl_labelXStep_tick (callers : Nat → F64 → String) (gc : GraphicContext)
    (params : ChartParams) (fontSize : F64) (vs : List F64) (c : Canvas) (v : F64)
    (hv : v ∈ vs) (h : F64.eq v (F64.fin 0) = false) :
    DrawOp.MoveTo (params.toImgCoords v params.MinY).1
      (F64.sub (params.toImgCoords v params.MinY).2 (F64.fin 3))
        ∈ (vs.foldl (labelXStep callers gc params fontSize) c).calls := by
  induction vs generalizing c with
  | nil => cases hv
  | cons w rest ih =>
    rw [List.foldl_cons]
    rcases List.mem_cons.mp hv with rfl | hr
    · exact foldl_labelXStep_keeps callers gc params fontSize rest _ _
        (labelXStep_tick callers gc params fontSize c v h)
    · exact ih _ hr

/-! ## Evaluation of the sample ticks -/

theorem zoomChart_drawn : (renderChartParams zoomChart).params = zoomChart := by
  have h : zoomChart.calcBounds = zoomChart := by
    simp [zoomChart, ChartParams.calcBounds, ChartParams.zero, F64.eq, F64.sub, F64.add,
      F64.neg, Padding.zero]
  rw [renderChartParams_of_not_degenerate, h]
  rw [h]
  simp [boundsDegenerate, zoomChart, F64.ge, F64.le, F64.lt, F64.eq, IsNanOrOnf, F64.IsNaN,
    F64.IsInf]
  norm_num

theorem toInt_three_halves : F64.toInt (F64.fin (3 / 2)) = 1 := by
  have h1 : ((3 / 2 : ℚ)).num = 3 := by norm_num
  have h2 : ((3 / 2 : ℚ)).den = 2 := by norm_num
  simp only [F64.toInt, h1, h2]
  decide

theorem zoomChart_tickStart : tickStart (F64.fin 10) (F64.fin 15) = F64.fin 10 := by
  have hd : F64.div (F64.fin 15) (F64.fin 10) = F64.fin (3 / 2) := by
    simp [F64.div]; norm_num
  rw [tickStart, hd, toInt_three_halves]
  simp [F64.mul, F64.ofInt]

theorem zoomChart_loopValues :
    loopValues 5 (F64.fin 10) (F64.fin 40) (F64.fin 10)
      = some [F64.fin 10, F64.fin 20, F64.fin 30] := by
  simp [loopValues, F64.lt, F64.add]
  norm_num

/-- C24: the labels loop of the X axis has no `if v < params.MinX { continue }`, which
the labels loop of the Y axis and both grid loops have.  For the bounds
`[15, 40] x [15, 40]` and `XAxis.Labels = 10` the chart is drawn as it is, the loop of
the X axis starts at `10 * float64(int(15/10)) = 10` and draws ticks at 10, 20 and 30:
the tick at 10 lies left of `MinX = 15`, outside the baseline of the axis.  With the same
numbers the loop of the Y axis draws ticks at 20 and 30 only. -/
theorem C24_X_tick_drawn_left_of_MinX :
    (renderChartParams zoomChart).params = zoomChart ∧
    labelXValues 5 zoomChart.XAxis.Labels zoomChart.MinX zoomChart.MaxX
      = some [F64.fin 10, F64.fin 20, F64.fin 30] ∧
    F64.lt (F64.fin 10) zoomChart.MinX = true ∧
    labelYValues 5 (F64.fin 10) (F64.fin 15) (F64.fin 40) = some [F64.fin 20, F64.fin 30] ∧
    (∀ (callers : Nat → F64 → String) (gc : GraphicContext),
      ∃ r, renderChart callers gc 5 zoomChart = some r ∧
        DrawOp.MoveTo (zoomChart.toImgCoords (F64.fin 10) zoomChart.MinY).1
          (F64.sub (zoomChart.toImgCoords (F64.fin 10) zoomChart.MinY).2 (F64.fin 3))
            ∈ r.calls) := by
  have hX : labelXValues 5 zoomChart.XAxis.Labels zoomChart.MinX zoomChart.MaxX
      = some [F64.fin 10, F64.fin 20, F64.fin 30] := by
    show labelXValues 5 (F64.fin 10) (F64.fin 15) (F64.fin 40) = _
    unfold labelXValues
    rw [zoomChart_tickStart, zoomChart_loopValues]
    simp [List.filter, F64.eq]
  have hY : labelYValues 5 (F64.fin 10) (F64.fin 15) (F64.fin 40)
      = some [F64.fin 20, F64.fin 30] := by
    unfold labelYValues
    rw [zoomChart_tickStart, zoomChart_loopValues]
    simp [List.filter, F64.eq, F64.lt]
    norm_num
  refine ⟨zoomChart_drawn, hX, ?_, hY, ?_⟩
  · simp [zoomChart, F64.lt]
    norm_num
  · intro callers gc
    have hz : F64.gt (F64.fin 0) (F64.fin 0) = false := by simp [F64.gt, F64.lt]
    have hl : F64.gt (F64.fin 10) (F64.fin 0) = true := by simp [F64.gt, F64.lt]
    have hg : ∀ c : Canvas, drawGrid 5 zoomChart c = some c := by
      intro c
      simp [drawGrid, zoomChart, Axis.zero, ChartParams.zero, hz]
    have hc : ∀ c : Canvas, drawCurve zoomChart c = c := by
      intro c
      simp [drawCurve, zoomChart, ChartParams.zero]
    have hloop : ∀ (body : Canvas → F64 → Canvas) (c : Canvas),
        tickLoop 5 (F64.fin 10) (F64.fin 15) (F64.fin 40) body c
          = some ([F64.fin 10, F64.fin 20, F64.fin 30].foldl body
              (c.divide [F64.fin 10])) := by
      intro body c
      have h := zoomChart_tickStart
      unfold tickStart at h
      unfold tickLoop
      rw [h, zoomChart_loopValues, Option.map_some']
    have hx : ∀ c : Canvas, drawXAxis callers gc 5 zoomChart (F64.fin 8) c
        = some ([F64.fin 10, F64.fin 20, F64.fin 30].foldl
            (labelXStep callers gc zoomChart (F64.fin 8))
            ((drawBaseline zoomChart zoomChart.MaxX zoomChart.MinY c).divide [F64.fin 10]),
          F64.fin 8) := by
      intro c
      have h1 : zoomChart.XAxis.Show = true := rfl
      have h2 : zoomChart.XAxis.FontSize = F64.fin 0 := rfl
      have h3 : zoomChart.XAxis.Labels = F64.fin 10 := rfl
      have h4 : zoomChart.MinX = F64.fin 15 := rfl
      have h5 : zoomChart.MaxX = F64.fin 40 := rfl
      unfold drawXAxis
      simp only [h1, h2, h3, hz, hl, if_true, Bool.false_eq_true, if_false]
      rw [h4, h5, hloop, Option.map_some']
    have hy : ∀ (f : F64) (c : Canvas), drawYAxis callers gc 5 zoomChart f c = some (c, f) := by
      intro f c
      have h1 : zoomChart.YAxis.Show = false := rfl
      unfold drawYAxis
      simp [h1]
    have hi : ∀ (f : F64) (c : Canvas), drawInvalid gc zoomChart f c = c := by
      intro f c
      have h1 : zoomChart.invalid = false := rfl
      unfold drawInvalid
      simp [h1]
    have e : renderChart callers gc 5 zoomChart
        = some ([F64.fin 10, F64.fin 20, F64.fin 30].foldl
            (labelXStep callers gc zoomChart (F64.fin 8))
            ((drawBaseline zoomChart zoomChart.MaxX zoomChart.MinY
              { calls := drawBackground zoomChart, denominators := [],
                log := (renderChartParams zoomChart).log }).divide [F64.fin 10])) := by
      unfold renderChart
      simp only []
      rw [zoomChart_drawn]
      unfold drawChart
      rw [hg, Option.some_bind, hc, hx, Option.some_bind, hy, Option.map_some', hi]
    exact ⟨_, e, foldl_labelXStep_tick callers gc zoomChart (F64.fin 8) _ _ (F64.fin 10)
      (by simp) (by simp [F64.eq])⟩

/-! ## Lemmas on the tables of the axis scalers -/

/-- First-match selection returns a row of the table or the last band. -/
theorem firstBand_mem (table : List (ℚ × ℚ × ℚ)) (last : ℚ × ℚ) (range : F64) :
    (∃ row ∈ table, firstBand table last range = row.2) ∨ firstBand table last range = last := by
  unfold firstBand
  cases h : table.find? (fun row => F64.le range (F64.fin row.1)) with
  | none => exact Or.inr rfl
  | some row => exact Or.inl ⟨row, List.mem_of_find?_eq_some h, rfl⟩

theorem firstBand_cons (row : ℚ × ℚ × ℚ) (rest : List (ℚ × ℚ × ℚ)) (last : ℚ × ℚ)
    (range : F64) :
    firstBand (row :: rest) last range
      = if F64.le range (F64.fin row.1) = true then row.2 else firstBand rest last range := by
  unfold firstBand
  by_cases h : F64.le range (F64.fin row.1) = true
  · simp [List.find?, h]
  · simp [List.find?, h]

/-- The selection from an ascending table is positive. -/
theorem firstBand_pos (table : List (ℚ × ℚ × ℚ)) (last : ℚ × ℚ)
    (h : bandsAscending table last) (range : F64) :
    0 < (firstBand table last range).1 ∧ 0 < (firstBand table last range).2 := by
  induction table with
  | nil => exact h
  | cons row rest ih =>
    obtain ⟨p1, p2, _, _, _, hrest⟩ := h
    rw [firstBand_cons]
    split
    · exact ⟨p1, p2⟩
    · exact ih hrest

/-- The selection from an ascending table does not decrease when the range grows. -/
theorem firstBand_mono (table : List (ℚ × ℚ × ℚ)) (last : ℚ × ℚ)
    (h : bandsAscending table last) (r1 r2 : F64) (hr : F64.le r1 r2 = true) :
    (firstBand table last r1).1 ≤ (firstBand table last r2).1 ∧
    (firstBand table last r1).2 ≤ (firstBand table last r2).2 := by
  induction table with
  | nil => exact ⟨le_refl _, le_refl _⟩
  | cons row rest ih =>
    obtain ⟨_, _, hlater, hl1, hl2, hrest⟩ := h
    rw [firstBand_cons, firstBand_cons]
    by_cases h1 : F64.le r1 (F64.fin row.1) = true
    · rw [if_pos h1]
      by_cases h2 : F64.le r2 (F64.fin row.1) = true
      · rw [if_pos h2]
        exact ⟨le_refl _, le_refl _⟩
      · rw [if_neg h2]
        rcases firstBand_mem rest last r2 with ⟨later, hm, e⟩ | e
        · rw [e]; exact hlater later hm
        · rw [e]; exact ⟨hl1, hl2⟩
    · have h2 : ¬ F64.le r2 (F64.fin row.1) = true :=
        fun h2 => h1 (F64.le_trans _ _ _ hr h2)
      rw [if_neg h1, if_neg h2]
      exact ih hrest

theorem steepnessTable_ascending : bandsAscending steepnessTable (5, 10) := by
  simp only [bandsAscending, steepnessTable, List.mem_cons, List.mem_singleton,
    List.not_mem_nil, forall_eq_or_imp, forall_eq, or_false, false_imp_iff, implies_true,
    and_true]
  norm_num

theorem speedTable_ascending (u : ℚ) (hu : 0 < u) :
    bandsAscending (speedTable u) (25 * u, 50 * u) := by
  simp only [bandsAscending, speedTable, List.mem_cons, List.mem_singleton, List.not_mem_nil,
    forall_eq_or_imp, forall_eq, or_false, false_imp_iff, implies_true, and_true]
  and_intros <;> first | trivial | nlinarith

theorem feetElevationTable_ascending :
    bandsAscending feetElevationTable (10000 * ONE_FEET, 10000 * ONE_FEET) := by
  simp only [bandsAscending, feetElevationTable, List.mem_cons, List.mem_singleton,
    List.not_mem_nil, forall_eq_or_imp, forall_eq, or_false, false_imp_iff, implies_true,
    and_true, ONE_FEET]
  norm_num

theorem metricElevationTable_ascending : bandsAscending metricElevationTable (250, 500) := by
  simp only [bandsAscending, metricElevationTable, List.mem_cons, List.mem_singleton,
    List.not_mem_nil, forall_eq_or_imp, forall_eq, or_false, false_imp_iff, implies_true,
    and_true]
  norm_num

theorem metricLengthTable_ascending : bandsAscending metricLengthTable (50000, 100000) := by
  simp only [bandsAscending, metricLengthTable, List.mem_cons, List.mem_singleton,
    List.not_mem_nil, forall_eq_or_imp, forall_eq, or_false, false_imp_iff, implies_true,
    and_true]
  norm_num

theorem mileLengthTable_ascending (u fourth : ℚ) (hu : 0 < u) :
    bandsAscending (mileLengthTable u fourth) (100 * u, 100 * u) := by
  simp only [bandsAscending, mileLengthTable, List.mem_cons, List.mem_singleton,
    List.not_mem_nil, forall_eq_or_imp, forall_eq, or_false, false_imp_iff, implies_true,
    and_true]
  and_intros <;> first | trivial | nlinarith

theorem lengthTableOf_ascending (unitType : UnitType) :
    bandsAscending (lengthTableOf unitType).1 (lengthTableOf unitType).2 := by
  unfold lengthTableOf
  split
  · exact mileLengthTable_ascending _ _ (by norm_num [ONE_MILE])
  · split
    · exact mileLengthTable_ascending _ _ (by norm_num [ONE_NAUTICAL_MILE])
    · exact metricLengthTable_ascending

theorem elevationTableOf_ascending (unitType : UnitType) :
    bandsAscending (elevationTableOf unitType).1 (elevationTableOf unitType).2 := by
  unfold elevationTableOf
  split
  · exact feetElevationTable_ascending
  · exact metricElevationTable_ascending

theorem firstBand_nil (last : ℚ × ℚ) (range : F64) : firstBand [] last range = last := rfl

/-- The `if` chain of `prepareSteepnesAxis` is first-match selection over its table. -/
theorem steepnesBands_eq_firstBand (max : F64) :
    steepnesBands max
      = (F64.fin (firstBand steepnessTable (5, 10) max).1,
         F64.fin (firstBand steepnessTable (5, 10) max).2) := by
  simp only [steepnesBands, steepnessTable, firstBand_cons, firstBand_nil]
  split_ifs <;> rfl

/-- The `switch` of `prepareElevationAxis` is first-match selection over the table of the
unit system. -/
theorem elevationBands_eq_firstBand (length : F64) (unitType : UnitType) :
    elevationBands length unitType
      = (F64.fin (firstBand (elevationTableOf unitType).1 (elevationTableOf unitType).2
            length).1,
         F64.fin (firstBand (elevationTableOf unitType).1 (elevationTableOf unitType).2
            length).2) := by
  unfold elevationBands elevationTableOf
  by_cases hu : unitType = UnitTypeImperial ∨ unitType = UnitTypeNautical
  · simp only [if_pos hu, feetElevationTable, firstBand_cons, firstBand_nil]
    split_ifs <;> rfl
  · simp only [if_neg hu, metricElevationTable, firstBand_cons, firstBand_nil]
    split_ifs <;> rfl

/-- The `if` chain of `prepareLengthAxis` in a mile `u` is first-match selection over
the table in that mile. -/
theorem mileBands_eq_firstBand (length : F64) (u fourth : ℚ) :
    (if F64.le length (F64.fin u) then (F64.fin (1 / 10 * u), F64.fin (1 / 10 * u))
      else if F64.le length (F64.fin (u * 4)) then (F64.fin (5 / 10 * u), F64.fin (5 / 10 * u))
      else if F64.le length (F64.fin (u * 10)) then (F64.fin (1 * u), F64.fin (5 / 10 * u))
      else if F64.le length (F64.fin (u * fourth)) then (F64.fin (2 * u), F64.fin (1 * u))
      else if F64.le length (F64.fin (u * 50)) then (F64.fin (5 * u), F64.fin (25 / 10 * u))
      else if F64.le length (F64.fin (u * 100)) then (F64.fin (10 * u), F64.fin (5 * u))
      else if F64.le length (F64.fin (u * 200)) then (F64.fin (10 * u), F64.fin (5 * u))
      else if F64.le length (F64.fin (u * 400)) then (F64.fin (25 * u), F64.fin (5 * u))
      else (F64.fin (100 * u), F64.fin (100 * u)))
    = (F64.fin (firstBand (mileLengthTable u fourth) (100 * u, 100 * u) length).1,
       F64.fin (firstBand (mileLengthTable u fourth) (100 * u, 100 * u) length).2) := by
  simp only [mileLengthTable, firstBand_cons, firstBand_nil]
  split_ifs <;> rfl

/-- The `switch` of `prepareLengthAxis` is first-match selection over the table of the
unit system. -/
theorem lengthBands_eq_firstBand (length : F64) (unitType : UnitType) :
    lengthBands length unitType
      = (F64.fin (firstBand (lengthTableOf unitType).1 (lengthTableOf unitType).2 length).1,
         F64.fin (firstBand (lengthTableOf unitType).1 (lengthTableOf unitType).2
            length).2) := by
  unfold lengthBands lengthTableOf
  by_cases hi : unitType = UnitTypeImperial
  · simp only [if_pos hi]
    exact mileBands_eq_firstBand length ONE_MILE 20
  · by_cases hn : unitType = UnitTypeNautical
    · simp only [if_neg hi, if_pos hn]
      exact mileBands_eq_firstBand length ONE_NAUTICAL_MILE 25
    · simp only [if_neg hi, if_neg hn, metricLengthTable, firstBand_cons, firstBand_nil]
      split_ifs <;> rfl

/-- Monotonicity and positivity of a selection, on `float64`. -/
theorem firstBand_mono_F64 (table : List (ℚ × ℚ × ℚ)) (last : ℚ × ℚ)
    (h : bandsAscending table last) (r1 r2 : F64) (hr : F64.le r1 r2 = true) :
    F64.le (F64.fin (firstBand table last r1).1) (F64.fin (firstBand table last r2).1) = true ∧
    F64.le (F64.fin (firstBand table last r1).2) (F64.fin (firstBand table last r2).2) = true ∧
    F64.lt (F64.fin 0) (F64.fin (firstBand table last r1).1) = true ∧
    F64.lt (F64.fin 0) (F64.fin (firstBand table last r1).2) = true := by
  obtain ⟨m1, m2⟩ := firstBand_mono table last h r1 r2 hr
  obtain ⟨p1, p2⟩ := firstBand_pos table last h r1
  refine ⟨(F64.le_fin_fin _ _).mpr m1, (F64.le_fin_fin _ _).mpr m2, ?_, ?_⟩
  · simpa [F64.lt] using p1
  · simpa [F64.lt] using p2

/-- An axis scaler that assigns a first-match selection from an ascending table to an
unset axis: the spacings are positive and do not decrease when the range grows. -/
theorem assignGridLabels_firstBand (a1 a2 : Axis) (table : List (ℚ × ℚ × ℚ)) (last : ℚ × ℚ)
    (h : bandsAscending table last) (r1 r2 : F64)
    (hg1 : F64.eq a1.Grid (F64.fin 0) = true) (hl1 : F64.eq a1.Labels (F64.fin 0) = true)
    (hg2 : F64.eq a2.Grid (F64.fin 0) = true) (hl2 : F64.eq a2.Labels (F64.fin 0) = true) :
    positiveSpacing (assignGridLabels a1
      (F64.fin (firstBand table last r1).1, F64.fin (firstBand table last r1).2)) ∧
    (F64.le r1 r2 = true →
      noFinerThan
        (assignGridLabels a1
          (F64.fin (firstBand table last r1).1, F64.fin (firstBand table last r1).2))
        (assignGridLabels a2
          (F64.fin (firstBand table last r2).1, F64.fin (firstBand table last r2).2))) := by
  obtain ⟨e1, e2⟩ := assignGridLabels_unset a1
    (F64.fin (firstBand table last r1).1, F64.fin (firstBand table last r1).2) hg1 hl1
  obtain ⟨e3, e4⟩ := assignGridLabels_unset a2
    (F64.fin (firstBand table last r2).1, F64.fin (firstBand table last r2).2) hg2 hl2
  obtain ⟨p1, p2⟩ := firstBand_pos table last h r1
  unfold positiveSpacing noFinerThan
  rw [e1, e2, e3, e4]
  refine ⟨⟨by simpa [F64.lt] using p1, by simpa [F64.lt] using p2⟩, fun hr => ?_⟩
  obtain ⟨m1, m2, _, _⟩ := firstBand_mono_F64 table last h r1 r2 hr
  exact ⟨m1, m2⟩

/-- C25: starting from an unset axis (`Grid = 0` and `Labels = 0`), each of the four
axis scalers selects, in every unit system, a strictly positive grid and a strictly
positive labels spacing for every range, and when the range grows (`r1 <= r2`: total
length, max - min elevation, max speed, max angle) neither the selected grid nor the
selected labels spacing gets smaller. -/
theorem C25_spacing_grows_with_range (axis : Axis) (unitType : UnitType)
    (r1 r2 min1 max1 min2 max2 minSpeed1 minSpeed2 : F64)
    (hg : F64.eq axis.Grid (F64.fin 0) = true) (hl : F64.eq axis.Labels (F64.fin 0) = true) :
    (positiveSpacing (prepareLengthAxis axis r1 unitType) ∧
      (F64.le r1 r2 = true →
        noFinerThan (prepareLengthAxis axis r1 unitType)
          (prepareLengthAxis axis r2 unitType))) ∧
    (positiveSpacing (prepareElevationAxis axis min1 max1 unitType) ∧
      (F64.le (F64.sub max1 min1) (F64.sub max2 min2) = true →
        noFinerThan (prepareElevationAxis axis min1 max1 unitType)
          (prepareElevationAxis axis min2 max2 unitType))) ∧
    (positiveSpacing (prepareSpeedAxis axis minSpeed1 r1 unitType) ∧
      (F64.le r1 r2 = true →
        noFinerThan (prepareSpeedAxis axis minSpeed1 r1 unitType)
          (prepareSpeedAxis axis minSpeed2 r2 unitType))) ∧
    (positiveSpacing (prepareSteepnesAxis axis r1) ∧
      (F64.le r1 r2 = true →
        noFinerThan (prepareSteepnesAxis axis r1) (prepareSteepnesAxis axis r2))) := by
  refine ⟨?_, ?_, ?_, ?_⟩
  · unfold prepareLengthAxis
    simp only [lengthBands_eq_firstBand]
    exact assignGridLabels_firstBand _ _ _ _ (lengthTableOf_ascending unitType) r1 r2
      hg hl hg hl
  · unfold prepareElevationAxis
    simp only [elevationBands_eq_firstBand]
    exact assignGridLabels_firstBand _ _ _ _ (elevationTableOf_ascending unitType) _ _
      hg hl hg hl
  · unfold prepareSpeedAxis
    simp only [speedBands_eq_firstBand]
    exact assignGridLabels_firstBand _ _ _ _
      (speedTable_ascending _ (speedIncrement_pos unitType)) r1 r2 hg hl hg hl
  · unfold prepareSteepnesAxis
    simp only [steepnesBands_eq_firstBand]
    exact assignGridLabels_firstBand _ _ _ _ steepnessTable_ascending r1 r2 hg hl hg hl

theorem C25_spacing_grows_with_range_witness :
    F64.eq Axis.zero.Grid (F64.fin 0) = true ∧ F64.eq Axis.zero.Labels (F64.fin 0) = true ∧
    F64.le (F64.fin 3000) (F64.fin 30000) = true ∧
    positiveSpacing (prepareLengthAxis Axis.zero (F64.fin 3000) UnitTypeImperial) ∧
    noFinerThan (prepareLengthAxis Axis.zero (F64.fin 3000) UnitTypeImperial)
      (prepareLengthAxis Axis.zero (F64.fin 30000) UnitTypeImperial) ∧
    noFinerThan (prepareSteepnesAxis Axis.zero (F64.fin 3000))
      (prepareSteepnesAxis Axis.zero (F64.fin 30000)) := by
  have hle : F64.le (F64.fin 3000) (F64.fin 30000) = true :=
    (F64.le_fin_fin _ _).mpr (by norm_num)
  have h := C25_spacing_grows_with_range Axis.zero UnitTypeImperial (F64.fin 3000)
    (F64.fin 30000) (F64.fin 0) (F64.fin 0) (F64.fin 0) (F64.fin 0) (F64.fin 0) (F64.fin 0)
    F64.eq_zero_zero F64.eq_zero_zero
  exact ⟨F64.eq_zero_zero, F64.eq_zero_zero, hle, h.1.1, h.1.2 hle, h.2.2.2.2 hle⟩

theorem prepareElevationAxis_unset (axis : Axis) (minEle maxEle : F64) (unitType : UnitType)
    (hg : F64.eq axis.Grid (F64.fin 0) = true) (hl : F64.eq axis.Labels (F64.fin 0) = true) :
    (prepareElevationAxis axis minEle maxEle unitType).Grid
      = (elevationBands (F64.sub maxEle minEle) unitType).1 ∧
    (prepareElevationAxis axis minEle maxEle unitType).Labels
      = (elevationBands (F64.sub maxEle minEle) unitType).2 :=
  assignGridLabels_unset _ _ hg hl

/-- C26: in the imperial and nautical tables of `prepareLengthAxis` and in the feet
table of `prepareElevationAxis` the labels spacing is smaller than the grid.  For a
length of 5 miles (imperial) the unset axis gets grid 1 mi and labels 0.5 mi, for 5
nautical miles grid 1 NM and labels 0.5 NM, and for an elevation range of 300 ft grid
100 ft and labels 50 ft: the labels spacing is half the grid, no positive integer
multiple of it.  The metric tables give labels 1000 for grid 500 (length 5000 m) and
labels 100 for grid 50 (range 300 m). -/
theorem C26_imperial_labels_are_half_the_grid :
    (prepareLengthAxis Axis.zero (F64.fin (5 * ONE_MILE)) UnitTypeImperial).Grid
      = F64.fin ONE_MILE ∧
    (prepareLengthAxis Axis.zero (F64.fin (5 * ONE_MILE)) UnitTypeImperial).Labels
      = F64.fin (ONE_MILE / 2) ∧
    (prepareLengthAxis Axis.zero (F64.fin (5 * ONE_NAUTICAL_MILE)) UnitTypeNautical).Grid
      = F64.fin ONE_NAUTICAL_MILE ∧
    (prepareLengthAxis Axis.zero (F64.fin (5 * ONE_NAUTICAL_MILE)) UnitTypeNautical).Labels
      = F64.fin (ONE_NAUTICAL_MILE / 2) ∧
    (prepareElevationAxis Axis.zero (F64.fin 0) (F64.fin (300 * ONE_FEET))
      UnitTypeImperial).Grid = F64.fin (100 * ONE_FEET) ∧
    (prepareElevationAxis Axis.zero (F64.fin 0) (F64.fin (300 * ONE_FEET))
      UnitTypeImperial).Labels = F64.fin (50 * ONE_FEET) ∧
    (¬ ∃ k : ℕ, 0 < k ∧ ONE_MILE / 2 = k * ONE_MILE) ∧
    (¬ ∃ k : ℕ, 0 < k ∧ ONE_NAUTICAL_MILE / 2 = k * ONE_NAUTICAL_MILE) ∧
    (¬ ∃ k : ℕ, 0 < k ∧ 50 * ONE_FEET = k * (100 * ONE_FEET)) ∧
    (prepareLengthAxis Axis.zero (F64.fin 5000) UnitTypeMetric).Grid = F64.fin 500 ∧
    (prepareLengthAxis Axis.zero (F64.fin 5000) UnitTypeMetric).Labels = F64.fin 1000 ∧
    (prepareElevationAxis Axis.zero (F64.fin 0) (F64.fin 300) UnitTypeMetric).Grid
      = F64.fin 50 ∧
    (prepareElevationAxis Axis.zero (F64.fin 0) (F64.fin 300) UnitTypeMetric).Labels
      = F64.fin 100 := by
  have hz := F64.eq_zero_zero
  have half : ∀ u : ℚ, 0 < u → ¬ ∃ k : ℕ, 0 < k ∧ u / 2 = k * u := by
    rintro u hu ⟨k, hk, e⟩
    have h1 : (1 : ℚ) ≤ k := by exact_mod_cast hk
    nlinarith
  have l1 := prepareLengthAxis_unset Axis.zero (F64.fin (5 * ONE_MILE)) UnitTypeImperial hz hz
  have l2 := prepareLengthAxis_unset Axis.zero (F64.fin (5 * ONE_NAUTICAL_MILE))
    UnitTypeNautical hz hz
  have l3 := prepareLengthAxis_unset Axis.zero (F64.fin 5000) UnitTypeMetric hz hz
  have e1 := prepareElevationAxis_unset Axis.zero (F64.fin 0) (F64.fin (300 * ONE_FEET))
    UnitTypeImperial hz hz
  have e2 := prepareElevationAxis_unset Axis.zero (F64.fin 0) (F64.fin 300) UnitTypeMetric
    hz hz
  have b1 : lengthBands (F64.fin (5 * ONE_MILE)) UnitTypeImperial
      = (F64.fin (1 * ONE_MILE), F64.fin (5 / 10 * ONE_MILE)) := by
    simp only [lengthBands, if_true, F64.le_fin_fin_decide]
    norm_num [ONE_MILE]
  have b2 : lengthBands (F64.fin (5 * ONE_NAUTICAL_MILE)) UnitTypeNautical
      = (F64.fin (1 * ONE_NAUTICAL_MILE), F64.fin (5 / 10 * ONE_NAUTICAL_MILE)) := by
    simp only [lengthBands, if_neg imperial_ne_nautical.symm, if_true, F64.le_fin_fin_decide]
    norm_num [ONE_NAUTICAL_MILE]
  have b3 : lengthBands (F64.fin 5000) UnitTypeMetric = (F64.fin 500, F64.fin 1000) := by
    simp only [lengthBands, if_neg metric_ne_imperial, if_neg metric_ne_nautical,
      F64.le_fin_fin_decide]
    norm_num
  have b4 : elevationBands (F64.sub (F64.fin (300 * ONE_FEET)) (F64.fin 0)) UnitTypeImperial
      = (F64.fin (100 * ONE_FEET), F64.fin (50 * ONE_FEET)) := by
    simp only [elevationBands, true_or, if_true, F64.sub, F64.neg, F64.add,
      F64.le_fin_fin_decide]
    norm_num [ONE_FEET]
  have b5 : elevationBands (F64.sub (F64.fin 300) (F64.fin 0)) UnitTypeMetric
      = (F64.fin 50, F64.fin 100) := by
    simp only [elevationBands, metric_ne_imperial, metric_ne_nautical, or_self, if_false,
      F64.sub, F64.neg, F64.add, F64.le_fin_fin_decide]
    norm_num
  rw [b1] at l1
  rw [b2] at l2
  rw [b3] at l3
  rw [b4] at e1
  rw [b5] at e2
  refine ⟨?_, ?_, ?_, ?_, e1.1, e1.2, half _ (by norm_num [ONE_MILE]),
    half _ (by norm_num [ONE_NAUTICAL_MILE]), ?_, l3.1, l3.2, e2.1, e2.2⟩
  · rw [l1.1]; show F64.fin _ = F64.fin _; congr 1; ring
  · rw [l1.2]; show F64.fin _ = F64.fin _; congr 1; ring
  · rw [l2.1]; show F64.fin _ = F64.fin _; congr 1; ring
  · rw [l2.2]; show F64.fin _ = F64.fin _; congr 1; ring
  · rintro ⟨k, hk, e⟩
    have h1 : (1 : ℚ) ≤ k := by exact_mod_cast hk
    norm_num [ONE_FEET] at e
    nlinarith

/-! ## Evaluation of the formatters -/

/-- The altitude 100 m in feet, as `FormatAltitude` prints it. -/
theorem FormatFloat_100m_in_feet :
    FormatFloat (ConvertFromM (F64.fin 100) "ft") 0 = "328" := by
  have hc : ConvertFromM (F64.fin 100) "ft" = F64.div (F64.fin 100) (F64.fin ONE_FEET) :=
    ConvertFromM_of_key (F64.fin 100) "ft" "ft" ONE_FEET (by decide)
      (by simp [speedRegistry, lengthRegistry])
  have hd : F64.div (F64.fin 100) (F64.fin ONE_FEET) = F64.fin (125000 / 381) := by
    simp only [F64.div, ONE_FEET]
    norm_num
  rw [hc, hd, FormatFloat_fin]
  have hr : roundHalfEven (|(125000 / 381 : ℚ)| * 10 ^ 0) = 328 := by
    have h1 : ((|(125000 / 381 : ℚ)| * 10 ^ 0 : ℚ)).num = 125000 := by
      norm_num [abs_of_pos]
    have h2 : ((|(125000 / 381 : ℚ)| * 10 ^ 0 : ℚ)).den = 381 := by
      norm_num [abs_of_pos]
    simp only [roundHalfEven, h1, h2]
    decide
  unfold strippedDecimal
  simp only [hr]
  norm_num
  decide

/-- C27: `FormatAltitude` does not default the unset unit type to metric as its
siblings do.  With the unset unit type it prints the altitude 100 m in feet, "328ft",
where the metric unit type gives "100m"; `FormatLength` and `FormatSpeed` return for
the unset unit type what they return for the metric one, for every argument. -/
theorem C27_FormatAltitude_unset_unit_prints_feet :
    FormatAltitude (F64.fin 100) "" = "328ft" ∧
    FormatAltitude (F64.fin 100) UnitTypeMetric = "100m" ∧
    FormatAltitude (F64.fin 100) UnitTypeImperial = "328ft" ∧
    (∀ f : F64, FormatLength f "" = FormatLength f UnitTypeMetric) ∧
    (∀ (f : F64) (round : Bool), FormatSpeed f "" round = FormatSpeed f UnitTypeMetric round) ∧
    (∀ unit_type : UnitType, FormatAltitude (F64.fin 20001) unit_type = "n/a") ∧
    (∀ unit_type : UnitType, FormatAltitude (F64.fin (-20001)) unit_type = "n/a") := by
  have hrange : (F64.lt (F64.fin 100) (F64.fin (-20000))
      || F64.gt (F64.fin 100) (F64.fin 20000)) = false := by
    simp [F64.lt, F64.gt]
    norm_num
  have hnm : ("" : UnitType) ≠ UnitTypeMetric := by decide
  have him : UnitTypeImperial ≠ UnitTypeMetric := by decide
  refine ⟨?_, ?_, ?_, ?_, ?_, ?_, ?_⟩
  · unfold FormatAltitude
    rw [hrange, if_neg (by simp), if_neg hnm, FormatFloat_100m_in_feet]
    decide
  · unfold FormatAltitude
    rw [hrange, if_neg (by simp), if_pos rfl, FormatFloat_fin,
      strippedDecimal_exact 100 0 100 (by norm_num [abs_of_pos]) (by norm_num)]
    decide
  · unfold FormatAltitude
    rw [hrange, if_neg (by simp), if_neg him, FormatFloat_100m_in_feet]
    decide
  · intro f
    rw [FormatLength_metric f "" (Or.inr rfl), FormatLength_metric f UnitTypeMetric (Or.inl rfl)]
  · intro f round
    have h1 : (if ("" : UnitType).length = 0 then UnitTypeMetric else "") = UnitTypeMetric := by
      decide
    have h2 : (if UnitTypeMetric.length = 0 then UnitTypeMetric else UnitTypeMetric)
        = UnitTypeMetric := by decide
    unfold FormatSpeed
    simp only [h1, h2]
  · intro unit_type
    have h : (F64.lt (F64.fin 20001) (F64.fin (-20000))
        || F64.gt (F64.fin 20001) (F64.fin 20000)) = true := by
      simp [F64.lt, F64.gt]
      norm_num
    unfold FormatAltitude
    rw [h, if_pos rfl]
  · intro unit_type
    have h : (F64.lt (F64.fin (-20001)) (F64.fin (-20000))
        || F64.gt (F64.fin (-20001)) (F64.fin 20000)) = true := by
      simp [F64.lt, F64.gt]
      norm_num
    unfold FormatAltitude
    rw [h, if_pos rfl]

end Gpxcharts
